import Mathlib

/-!
Shallow embedding of `src/src/tick_math.rs` of the mojitoswap-pool repository,
together with a verification of the spec claims about it.

The Scrypto `Decimal` type is a 192-bit signed integer scaled by `10^18`.
Every value manipulated by the tick-math code is non-negative and stays far
below `2^191 / 10^18`, and all arithmetic in Scrypto is checked (a panic on
overflow, never wrap-around); on the in-bounds runs modelled here no overflow
occurs, so `Decimal` values are modelled as their scaled `Nat` magnitudes.
`Decimal` multiplication computes `a * b / 10^18` and division computes
`a * 10^18 / b`, both with truncation, which on non-negative values is `Nat`
floor division.  `assert!` failures (panics) are modelled by `Option`:
a function returns `none` exactly when the original code aborts.
-/

namespace MojitoSwap

/-- The scaling factor of `Decimal`: `10^18`, i.e. `Decimal::one()`. -/
def one : Nat := 1000000000000000000

/-- `Decimal` multiplication on non-negative values: `a * b / 10^18`, truncated. -/
def dMul (a b : Nat) : Nat := a * b / one

/-- `Decimal` division on non-negative values: `a * 10^18 / b`, truncated. -/
def dDiv (a b : Nat) : Nat := a * one / b

/-- Constant `MIN_TICK` from tick_math.rs. -/
def MIN_TICK : Int := -631042

/-- Constant `MAX_TICK` from tick_math.rs. -/
def MAX_TICK : Int := 931709

/-- Constant `MIN_PRICE` (0.00000000000001985), scaled by `10^18`. -/
def MIN_PRICE : Nat := 19850

/-- Constant `PRICE_0X1` = sqrt(1.0001)^(2^0), scaled. -/
def PRICE_0X1 : Nat := 1000049998750062496

/-- Constant `PRICE_0X2` = sqrt(1.0001)^(2^1), scaled. -/
def PRICE_0X2 : Nat := 1000100000000000000

/-- Constant `PRICE_0X4` = sqrt(1.0001)^(2^2), scaled. -/
def PRICE_0X4 : Nat := 1000200010000000000

/-- Constant `PRICE_0X8` = sqrt(1.0001)^(2^3), scaled. -/
def PRICE_0X8 : Nat := 1000400060004000093

/-- Constant `PRICE_0X10` = sqrt(1.0001)^(2^4), scaled. -/
def PRICE_0X10 : Nat := 1000800280056006986

/-- Constant `PRICE_0X20` = sqrt(1.0001)^(2^5), scaled. -/
def PRICE_0X20 : Nat := 1001601200560182014

/-- Constant `PRICE_0X40` = sqrt(1.0001)^(2^6), scaled. -/
def PRICE_0X40 : Nat := 1003204964963597955

/-- Constant `PRICE_0X80` = sqrt(1.0001)^(2^7), scaled. -/
def PRICE_0X80 : Nat := 1006420201727613800

/-- Constant `PRICE_0X100` = sqrt(1.0001)^(2^8), scaled. -/
def PRICE_0X100 : Nat := 1012881622445450855

/-- Constant `PRICE_0X200` = sqrt(1.0001)^(2^9), scaled. -/
def PRICE_0X200 : Nat := 1025929181087728853

/-- Constant `PRICE_0X400` = sqrt(1.0001)^(2^10), scaled. -/
def PRICE_0X400 : Nat := 1052530684607337941

/-- Constant `PRICE_0X800` = sqrt(1.0001)^(2^11), scaled. -/
def PRICE_0X800 : Nat := 1107820842039991493

/-- Constant `PRICE_0X1000` = sqrt(1.0001)^(2^12), scaled. -/
def PRICE_0X1000 : Nat := 1227267018058195782

/-- Constant `PRICE_0X2000` = sqrt(1.0001)^(2^13), scaled. -/
def PRICE_0X2000 : Nat := 1506184333613455851

/-- Constant `PRICE_0X4000` = sqrt(1.0001)^(2^14), scaled. -/
def PRICE_0X4000 : Nat := 2268591246822610072

/-- Constant `PRICE_0X8000` = sqrt(1.0001)^(2^15), scaled. -/
def PRICE_0X8000 : Nat := 5146506245160164533

/-- Constant `PRICE_0X10000` = sqrt(1.0001)^(2^16), scaled. -/
def PRICE_0X10000 : Nat := 26486526531472575563

/-- Constant `PRICE_0X20000` = sqrt(1.0001)^(2^17), scaled. -/
def PRICE_0X20000 : Nat := 701536087702400664335

/-- Constant `PRICE_0X40000` = sqrt(1.0001)^(2^18), scaled. -/
def PRICE_0X40000 : Nat := 492152882348790396620919

/-- Constant `PRICE_0X80000` = sqrt(1.0001)^(2^19), scaled. -/
def PRICE_0X80000 : Nat := 242214459604222321943471435452

/-- Constant `MAX_PRICE` (170134484377190040957.155711420855095752), scaled. -/
def MAX_PRICE : Nat := 170134484377190040957155711420855095752

/-- The body of `sqrt_price_at_tick` on the absolute value of the tick:
decompose `abs_tick` into binary digits and multiply the corresponding
precomputed constants (lines 65-127 of tick_math.rs). -/
def sqrtPriceAtTickAbs (absTick : Nat) : Nat :=
  let p := one
  let p := if absTick &&& 0x1 ≠ 0 then dMul p PRICE_0X1 else p
  let p := if absTick &&& 0x2 ≠ 0 then dMul p PRICE_0X2 else p
  let p := if absTick &&& 0x4 ≠ 0 then dMul p PRICE_0X4 else p
  let p := if absTick &&& 0x8 ≠ 0 then dMul p PRICE_0X8 else p
  let p := if absTick &&& 0x10 ≠ 0 then dMul p PRICE_0X10 else p
  let p := if absTick &&& 0x20 ≠ 0 then dMul p PRICE_0X20 else p
  let p := if absTick &&& 0x40 ≠ 0 then dMul p PRICE_0X40 else p
  let p := if absTick &&& 0x80 ≠ 0 then dMul p PRICE_0X80 else p
  let p := if absTick &&& 0x100 ≠ 0 then dMul p PRICE_0X100 else p
  let p := if absTick &&& 0x200 ≠ 0 then dMul p PRICE_0X200 else p
  let p := if absTick &&& 0x400 ≠ 0 then dMul p PRICE_0X400 else p
  let p := if absTick &&& 0x800 ≠ 0 then dMul p PRICE_0X800 else p
  let p := if absTick &&& 0x1000 ≠ 0 then dMul p PRICE_0X1000 else p
  let p := if absTick &&& 0x2000 ≠ 0 then dMul p PRICE_0X2000 else p
  let p := if absTick &&& 0x4000 ≠ 0 then dMul p PRICE_0X4000 else p
  let p := if absTick &&& 0x8000 ≠ 0 then dMul p PRICE_0X8000 else p
  let p := if absTick &&& 0x10000 ≠ 0 then dMul p PRICE_0X10000 else p
  let p := if absTick &&& 0x20000 ≠ 0 then dMul p PRICE_0X20000 else p
  let p := if absTick &&& 0x40000 ≠ 0 then dMul p PRICE_0X40000 else p
  let p := if absTick &&& 0x80000 ≠ 0 then dMul p PRICE_0X80000 else p
  p

/-- `pub fn sqrt_price_at_tick(tick: i32) -> Decimal` (tick_math.rs lines 62-133).
The assertion `tick >= MIN_TICK && tick <= MAX_TICK` is modelled by the guard;
for a negative tick the product is inverted (`Decimal::one() / sqrt_price`). -/
def sqrt_price_at_tick (tick : Int) : Option Nat :=
  if MIN_TICK ≤ tick ∧ tick ≤ MAX_TICK then
    some
      (let sp := sqrtPriceAtTickAbs tick.natAbs
       if tick < 0 then dDiv one sp else sp)
  else none

/-- One step of the loop in `tick_at_sqrt_price`: if the remaining price is at
least the precomputed constant `c`, divide by it and add the exponent `m` to
the accumulated tick (tick_math.rs lines 147-222). -/
def tickStep (c m : Nat) (s : Nat × Nat) : Nat × Nat :=
  if c ≤ s.1 then (dDiv s.1 c, s.2 + m) else s

/-- The candidate-tick computation of `tick_at_sqrt_price` (lines 146-225):
divide by the precomputed constants from the largest exponent down, and for
the final constant `PRICE_0X1` only add the exponent. -/
def tickCandidate (q : Nat) : Nat :=
  let s := (q, 0)
  let s := tickStep PRICE_0X80000 0x80000 s
  let s := tickStep PRICE_0X40000 0x40000 s
  let s := tickStep PRICE_0X20000 0x20000 s
  let s := tickStep PRICE_0X10000 0x10000 s
  let s := tickStep PRICE_0X8000 0x8000 s
  let s := tickStep PRICE_0X4000 0x4000 s
  let s := tickStep PRICE_0X2000 0x2000 s
  let s := tickStep PRICE_0X1000 0x1000 s
  let s := tickStep PRICE_0X800 0x800 s
  let s := tickStep PRICE_0X400 0x400 s
  let s := tickStep PRICE_0X200 0x200 s
  let s := tickStep PRICE_0X100 0x100 s
  let s := tickStep PRICE_0X80 0x80 s
  let s := tickStep PRICE_0X40 0x40 s
  let s := tickStep PRICE_0X20 0x20 s
  let s := tickStep PRICE_0X10 0x10 s
  let s := tickStep PRICE_0X8 0x8 s
  let s := tickStep PRICE_0X4 0x4 s
  let s := tickStep PRICE_0X2 0x2 s
  if PRICE_0X1 ≤ s.1 then s.2 + 1 else s.2

/-- The local `sqrt_price` of `tick_at_sqrt_price` (tick_math.rs lines
144-146): an input below one is inverted so the divide loop runs on a value
at least one. -/
def decodeQ (sqrt_price_in : Int) : Nat :=
  if sqrt_price_in < (one : Int) then dDiv one sqrt_price_in.toNat
  else sqrt_price_in.toNat

/-- The local `tick_candidate` of `tick_at_sqrt_price` (lines 147-226): the
accumulated tick of the divide loop, negated for an inverted input. -/
def decodeCand (sqrt_price_in : Int) : Int :=
  if sqrt_price_in < (one : Int) then -(tickCandidate (decodeQ sqrt_price_in) : Int)
  else (tickCandidate (decodeQ sqrt_price_in) : Int)

/-- `pub fn tick_at_sqrt_price(sqrt_price_in: Decimal) -> i32`
(tick_math.rs lines 141-232).  The input is a `Decimal`, hence a signed
quantity, modelled as `Int` at scale `10^18`.  The function's locals
`sqrt_price` and `tick_candidate` are the definitions above.  The assertion
on the price bounds is the outer guard; the inner call to
`sqrt_price_at_tick` on the candidate tick can itself abort, which
propagates as `none`. -/
def tick_at_sqrt_price (sqrt_price_in : Int) : Option Int :=
  if (MIN_PRICE : Int) ≤ sqrt_price_in ∧ sqrt_price_in ≤ (MAX_PRICE : Int) then
    match sqrt_price_at_tick (decodeCand sqrt_price_in) with
    | none => none
    | some pc =>
      some
        (if (pc : Int) = sqrt_price_in then decodeCand sqrt_price_in
         else if sqrt_price_in < (pc : Int) then decodeCand sqrt_price_in - 1
         else decodeCand sqrt_price_in + 1)
  else none

/-- Sanity: the unit tests of tick_math.rs, forward direction (line 239). -/
theorem sqrt_price_at_tick_tests :
    sqrt_price_at_tick MIN_TICK = some MIN_PRICE ∧
    sqrt_price_at_tick (-440170) = some 276890319 ∧
    sqrt_price_at_tick (-3) = some 999850018747812746 ∧
    sqrt_price_at_tick (-1) = some 999950003749687527 ∧
    sqrt_price_at_tick 0 = some one ∧
    sqrt_price_at_tick 3 = some 1000150003749937502 ∧
    sqrt_price_at_tick 5 = some 1000250018750312495 ∧
    sqrt_price_at_tick 7458 = some 1451912069310684182 ∧
    sqrt_price_at_tick 51368 = some 13043260825728760908 ∧
    sqrt_price_at_tick 440171 = some 3611718901096063128233128884 ∧
    sqrt_price_at_tick MAX_TICK = some MAX_PRICE := by
  decide!

/-- Sanity: the unit tests of tick_math.rs, reverse direction (line 254). -/
theorem tick_at_sqrt_price_tests :
    tick_at_sqrt_price (one : Int) = some 0 ∧
    tick_at_sqrt_price 1000049998750062400 = some 1 ∧
    tick_at_sqrt_price 1000100000000000000 = some 2 ∧
    tick_at_sqrt_price 1000150003749937406 = some 3 ∧
    tick_at_sqrt_price 999850018747812842 = some (-3) ∧
    tick_at_sqrt_price 276890319 = some (-440170) ∧
    tick_at_sqrt_price 276890320 = some (-440170) ∧
    tick_at_sqrt_price 3611718901088796751185687910 = some 440171 ∧
    tick_at_sqrt_price 3611718901088796751185687920 = some 440171 ∧
    tick_at_sqrt_price (MAX_PRICE : Int) = some MAX_TICK ∧
    tick_at_sqrt_price (MIN_PRICE : Int) = some MIN_TICK := by
  decide!

/-! ### Bit-consuming reformulations of the two loops

`sqrt_price_at_tick` consumes the bits of the tick from least significant to
most significant; `tick_at_sqrt_price` peels the exponents from most
significant down.  Both are restated as folds over the list of constants so
that their properties can be proved by list induction, and then shown equal
to the mirrored definitions above. -/

/-- Generic bit-consuming fold: applies `fs c` to the accumulator on a set
bit and `fc c` on a clear bit, consuming one bit per list element. -/
def chainG (fs fc : Nat → Nat → Nat) : List Nat → Nat → Nat → Nat
  | [], _, acc => acc
  | c :: l, bits, acc =>
      chainG fs fc l (bits / 2) (if bits % 2 = 1 then fs c acc else fc c acc)

/-- The product chain of `sqrt_price_at_tick` as a bit-consuming fold. -/
def chainP : List Nat → Nat → Nat → Nat :=
  chainG (fun c acc => dMul acc c) (fun _ acc => acc)

/-- The threshold chain: `chainT l v 0` computes the least `q` on which the
greedy division loop of `tick_at_sqrt_price` over the constants of `l`
accumulates a tick of at least `v`. -/
def chainT : List Nat → Nat → Nat → Nat :=
  chainG (fun c acc => max c ((acc * c + (one - 1)) / one))
    (fun c acc => min c acc)

/-- The 20 precomputed constants in ascending exponent order. -/
def constsAsc : List Nat :=
  [PRICE_0X1, PRICE_0X2, PRICE_0X4, PRICE_0X8, PRICE_0X10, PRICE_0X20,
   PRICE_0X40, PRICE_0X80, PRICE_0X100, PRICE_0X200, PRICE_0X400, PRICE_0X800,
   PRICE_0X1000, PRICE_0X2000, PRICE_0X4000, PRICE_0X8000, PRICE_0X10000,
   PRICE_0X20000, PRICE_0X40000, PRICE_0X80000]

/-- The constants with their exponents in descending order, as consumed by
`tick_at_sqrt_price`. -/
def pairsDesc : List (Nat × Nat) :=
  [(PRICE_0X80000, 0x80000), (PRICE_0X40000, 0x40000), (PRICE_0X20000, 0x20000),
   (PRICE_0X10000, 0x10000), (PRICE_0X8000, 0x8000), (PRICE_0X4000, 0x4000),
   (PRICE_0X2000, 0x2000), (PRICE_0X1000, 0x1000), (PRICE_0X800, 0x800),
   (PRICE_0X400, 0x400), (PRICE_0X200, 0x200), (PRICE_0X100, 0x100),
   (PRICE_0X80, 0x80), (PRICE_0X40, 0x40), (PRICE_0X20, 0x20),
   (PRICE_0X10, 0x10), (PRICE_0X8, 0x8), (PRICE_0X4, 0x4),
   (PRICE_0X2, 0x2), (PRICE_0X1, 0x1)]

/-- The greedy tick accumulation of `tick_at_sqrt_price` as a recursion over
the descending constant list.  The final constant also divides here, which
does not change the accumulated tick. -/
def greedyP : List (Nat × Nat) → Nat → Nat
  | [], _ => 0
  | (c, m) :: l, q => if c ≤ q then m + greedyP l (dDiv q c) else greedyP l q

theorem chainG_cons (fs fc : Nat → Nat → Nat) (c : Nat) (l : List Nat)
    (bits acc : Nat) :
    chainG fs fc (c :: l) bits acc =
      chainG fs fc l (bits / 2) (if bits % 2 = 1 then fs c acc else fc c acc) :=
  rfl

theorem chainG_append (fs fc : Nat → Nat → Nat) :
    ∀ (l1 l2 : List Nat) (bits acc : Nat),
      chainG fs fc (l1 ++ l2) bits acc =
        chainG fs fc l2 (bits / 2 ^ l1.length) (chainG fs fc l1 bits acc) := by
  intro l1
  induction l1 with
  | nil => intro l2 bits acc; simp [chainG]
  | cons c l ih =>
    intro l2 bits acc
    rw [List.cons_append, chainG_cons, ih, chainG_cons]
    congr 1
    rw [Nat.div_div_eq_div_mul, List.length_cons, pow_succ, Nat.mul_comm]

theorem chainG_mod (fs fc : Nat → Nat → Nat) :
    ∀ (l : List Nat) (bits acc : Nat),
      chainG fs fc l (bits % 2 ^ l.length) acc = chainG fs fc l bits acc := by
  intro l
  induction l with
  | nil => intro bits acc; rfl
  | cons c l ih =>
    intro bits acc
    have hpow : (2 : Nat) ^ (l.length + 1) = 2 * 2 ^ l.length := by
      rw [pow_succ, Nat.mul_comm]
    have h1 : bits % 2 ^ (l.length + 1) / 2 = bits / 2 % 2 ^ l.length := by
      rw [hpow, Nat.mod_mul_right_div_self]
    have h2 : bits % 2 ^ (l.length + 1) % 2 = bits % 2 :=
      Nat.mod_mod_of_dvd bits ⟨2 ^ l.length, hpow⟩
    rw [chainG_cons, chainG_cons, List.length_cons, h1, h2, ih]

/-- Well-formedness of a descending constant list: each exponent is the power
of two given by the length of the remaining list, and each constant is
positive. -/
def GoodPairs : List (Nat × Nat) → Prop
  | [] => True
  | (c, m) :: l => m = 2 ^ l.length ∧ 0 < c ∧ GoodPairs l

/-- The ascending constant list obtained from a descending pair list. -/
def ascOf (l : List (Nat × Nat)) : List Nat := (l.map Prod.fst).reverse

theorem greedyP_lt : ∀ (l : List (Nat × Nat)) (q : Nat), GoodPairs l →
    greedyP l q < 2 ^ l.length := by
  intro l
  induction l with
  | nil => intro q _; simp [greedyP]
  | cons cm l ih =>
    intro q hg
    obtain ⟨hm, _, hgl⟩ := hg
    simp only [greedyP, List.length_cons]
    split
    · have h1 := ih (dDiv q cm.1) hgl
      rw [hm]; omega
    · have h1 := ih q hgl
      have : (2 : Nat) ^ l.length ≤ 2 ^ (l.length + 1) :=
        Nat.pow_le_pow_right (by omega) (by omega)
      omega

theorem ceil_le_imp {x q : Nat} (h : (x + (one - 1)) / one ≤ q) :
    x ≤ q * one := by
  have hone : (0 : Nat) < one := by norm_num [one]
  have h2 : x + (one - 1) < (q + 1) * one :=
    (Nat.div_lt_iff_lt_mul hone).mp (Nat.lt_succ_of_le h)
  simp only [one] at h2 ⊢
  omega

theorem lt_ceil_imp {x q : Nat} (h : q < (x + (one - 1)) / one) :
    q * one < x := by
  have hone : (0 : Nat) < one := by norm_num [one]
  have h2 : (q + 1) * one ≤ x + (one - 1) :=
    (Nat.le_div_iff_mul_le hone).mp (Nat.succ_le_of_lt h)
  simp only [one] at h2 ⊢
  omega

theorem chainT_cons (c : Nat) (l : List Nat) (bits acc : Nat) :
    chainT (c :: l) bits acc =
      chainT l (bits / 2)
        (if bits % 2 = 1 then max c ((acc * c + (one - 1)) / one)
         else min c acc) := rfl

theorem chainT_nil (bits acc : Nat) : chainT [] bits acc = acc := rfl

theorem mod_top_set {v P : Nat} (h1 : P ≤ v) (h2 : v < 2 * P) :
    v % P = v - P := by
  rw [Nat.mod_eq_sub_mod h1, Nat.mod_eq_of_lt (by omega)]

/-- Reachability direction of the threshold characterisation: if `q` is at
least the threshold of `v`, the greedy loop accumulates at least `v`. -/
theorem thresh_reach : ∀ (l : List (Nat × Nat)) (v q : Nat), GoodPairs l →
    v < 2 ^ l.length → chainT (ascOf l) v 0 ≤ q → v ≤ greedyP l q := by
  intro l
  induction l with
  | nil =>
    intro v q _ hv _
    simp only [List.length_nil, pow_zero, Nat.lt_one_iff] at hv
    subst hv
    exact Nat.zero_le _
  | cons cm l ih =>
    intro v q hg hv hq
    obtain ⟨hm, hc, hgl⟩ := hg
    obtain ⟨c, m⟩ := cm
    simp only at hm hc
    have hpow : (2 : Nat) ^ (l.length + 1) = 2 ^ l.length * 2 := pow_succ 2 _
    rw [List.length_cons, hpow] at hv
    have hlen : (ascOf l).length = l.length := by simp [ascOf]
    have hasc : ascOf ((c, m) :: l) = ascOf l ++ [c] := by simp [ascOf]
    rw [hasc] at hq
    simp only [chainT] at hq ⊢
    rw [chainG_append, hlen] at hq
    by_cases hmv : m ≤ v
    · -- the top bit of `v` is set: the greedy must take this level
      have htop : v / 2 ^ l.length = 1 :=
        Nat.div_eq_of_lt_le (by omega) (by omega)
      rw [htop] at hq
      simp only [chainG, Nat.reduceMod, reduceIte] at hq
      have hinner : chainG (fun c acc => max c ((acc * c + (one - 1)) / one))
          (fun c acc => min c acc) (ascOf l) v 0 =
          chainG (fun c acc => max c ((acc * c + (one - 1)) / one))
          (fun c acc => min c acc) (ascOf l) (v - m) 0 := by
        rw [← chainG_mod _ _ (ascOf l) v 0, hlen]
        congr 1
        subst hm
        exact mod_top_set hmv (by omega)
      rw [hinner] at hq
      have hcq : c ≤ q := le_trans (le_max_left _ _) hq
      have hdq : chainG (fun c acc => max c ((acc * c + (one - 1)) / one))
          (fun c acc => min c acc) (ascOf l) (v - m) 0 ≤ dDiv q c := by
        have h2 := ceil_le_imp (le_trans (le_max_right _ _) hq)
        exact (Nat.le_div_iff_mul_le hc).mpr h2
      have hrec := ih (v - m) (dDiv q c) hgl (by omega) hdq
      simp only [greedyP, if_pos hcq]
      omega
    · -- the top bit of `v` is clear
      have htop : v / 2 ^ l.length = 0 := Nat.div_eq_of_lt (by omega)
      rw [htop] at hq
      simp only [chainG, Nat.reduceMod, Nat.zero_div] at hq
      norm_num at hq
      simp only [greedyP]
      split
      · omega
      · rename_i hcq
        have hq2 : chainG (fun c acc => max c ((acc * c + (one - 1)) / one))
            (fun c acc => min c acc) (ascOf l) v 0 ≤ q := by
          rcases le_total c (chainG (fun c acc => max c ((acc * c + (one - 1)) / one))
            (fun c acc => min c acc) (ascOf l) v 0) with h | h
          · have : min c _ = c := min_eq_left h
            omega
          · have : min c _ = _ := min_eq_right h
            omega
        exact ih v q hgl (by omega) hq2

/-- Limiting direction of the threshold characterisation: if `q` is below the
threshold of `v`, the greedy loop accumulates less than `v`. -/
theorem thresh_limit : ∀ (l : List (Nat × Nat)) (v q : Nat), GoodPairs l →
    v < 2 ^ l.length → q < chainT (ascOf l) v 0 → greedyP l q < v := by
  intro l
  induction l with
  | nil =>
    intro v q _ _ hq
    simp only [ascOf, List.map_nil, List.reverse_nil, chainT, chainG] at hq
    omega
  | cons cm l ih =>
    intro v q hg hv hq
    obtain ⟨hm, hc, hgl⟩ := hg
    obtain ⟨c, m⟩ := cm
    simp only at hm hc
    have hpow : (2 : Nat) ^ (l.length + 1) = 2 ^ l.length * 2 := pow_succ 2 _
    rw [List.length_cons, hpow] at hv
    have hlen : (ascOf l).length = l.length := by simp [ascOf]
    have hasc : ascOf ((c, m) :: l) = ascOf l ++ [c] := by simp [ascOf]
    rw [hasc] at hq
    simp only [chainT] at hq ⊢
    rw [chainG_append, hlen] at hq
    by_cases hmv : m ≤ v
    · have htop : v / 2 ^ l.length = 1 :=
        Nat.div_eq_of_lt_le (by omega) (by omega)
      rw [htop] at hq
      simp only [chainG, Nat.reduceMod, reduceIte] at hq
      have hinner : chainG (fun c acc => max c ((acc * c + (one - 1)) / one))
          (fun c acc => min c acc) (ascOf l) v 0 =
          chainG (fun c acc => max c ((acc * c + (one - 1)) / one))
          (fun c acc => min c acc) (ascOf l) (v - m) 0 := by
        rw [← chainG_mod _ _ (ascOf l) v 0, hlen]
        congr 1
        subst hm
        exact mod_top_set hmv (by omega)
      rw [hinner] at hq
      simp only [greedyP]
      split
      · rename_i hcq
        rcases le_total ((chainG (fun c acc => max c ((acc * c + (one - 1)) / one))
            (fun c acc => min c acc) (ascOf l) (v - m) 0 * c + (one - 1)) / one) c
            with h | h
        · rw [max_eq_left h] at hq; omega
        · rw [max_eq_right h] at hq
          have h2 := lt_ceil_imp hq
          have hdq : dDiv q c < chainG (fun c acc => max c ((acc * c + (one - 1)) / one))
              (fun c acc => min c acc) (ascOf l) (v - m) 0 :=
            (Nat.div_lt_iff_lt_mul hc).mpr h2
          have hrec := ih (v - m) (dDiv q c) hgl (by omega) hdq
          omega
      · have := greedyP_lt l q hgl
        subst hm; omega
    · have htop : v / 2 ^ l.length = 0 := Nat.div_eq_of_lt (by omega)
      rw [htop] at hq
      simp only [chainG, Nat.reduceMod, Nat.zero_div] at hq
      norm_num at hq
      obtain ⟨hqc, hqT⟩ := hq
      simp only [greedyP]
      rw [if_neg (by omega)]
      exact ih v q hgl (by omega) hqT

theorem tickStep_snd (c m : Nat) (s : Nat × Nat) :
    (tickStep c m s).2 = if c ≤ s.1 then s.2 + m else s.2 := by
  unfold tickStep; split <;> rfl

theorem foldl_tickStep : ∀ (l : List (Nat × Nat)) (q t : Nat),
    (List.foldl (fun s cm => tickStep cm.1 cm.2 s) (q, t) l).2 = t + greedyP l q := by
  intro l
  induction l with
  | nil => intro q t; simp [greedyP]
  | cons cm l ih =>
    intro q t
    obtain ⟨c, m⟩ := cm
    simp only [List.foldl_cons, greedyP]
    by_cases h : c ≤ q
    · rw [show tickStep c m (q, t) = (dDiv q c, t + m) from by
        simp [tickStep, h]]
      rw [ih, if_pos h]
      omega
    · rw [show tickStep c m (q, t) = (q, t) from by simp [tickStep, h]]
      rw [ih, if_neg h]

theorem tickCandidate_eq_greedy (q : Nat) :
    tickCandidate q = greedyP pairsDesc q := by
  have hfold : tickCandidate q =
      (List.foldl (fun s cm => tickStep cm.1 cm.2 s) (q, 0) pairsDesc).2 := by
    simp only [tickCandidate, pairsDesc, List.foldl_cons, List.foldl_nil]
    rw [← tickStep_snd PRICE_0X1 1]
  rw [hfold, foldl_tickStep]
  omega

theorem goodPairs_pairsDesc : GoodPairs pairsDesc := by
  simp only [pairsDesc, GoodPairs, List.length_cons, List.length_nil]
  norm_num [PRICE_0X1, PRICE_0X2, PRICE_0X4, PRICE_0X8, PRICE_0X10, PRICE_0X20,
    PRICE_0X40, PRICE_0X80, PRICE_0X100, PRICE_0X200, PRICE_0X400, PRICE_0X800,
    PRICE_0X1000, PRICE_0X2000, PRICE_0X4000, PRICE_0X8000, PRICE_0X10000,
    PRICE_0X20000, PRICE_0X40000, PRICE_0X80000]

theorem ascOf_pairsDesc : ascOf pairsDesc = constsAsc := by
  simp [ascOf, pairsDesc, constsAsc]

/-- The threshold of a target tick `v`: the least `q` on which the greedy
loop of `tick_at_sqrt_price` accumulates a tick of at least `v`. -/
def Thresh (v : Nat) : Nat := chainT constsAsc v 0

theorem cand_ge {v q : Nat} (hv : v < 2 ^ 20) (h : Thresh v ≤ q) :
    v ≤ tickCandidate q := by
  rw [tickCandidate_eq_greedy]
  apply thresh_reach pairsDesc v q goodPairs_pairsDesc
  · simpa [pairsDesc] using hv
  · rwa [ascOf_pairsDesc]

theorem cand_lt {v q : Nat} (hv : v < 2 ^ 20) (h : q < Thresh v) :
    tickCandidate q < v := by
  rw [tickCandidate_eq_greedy]
  apply thresh_limit pairsDesc v q goodPairs_pairsDesc
  · simpa [pairsDesc] using hv
  · rwa [ascOf_pairsDesc]

theorem and_mask_iff (t k : Nat) : t &&& 2 ^ k ≠ 0 ↔ t / 2 ^ k % 2 = 1 := by
  rw [Nat.and_two_pow]
  cases h : t.testBit k with
  | false =>
    rw [Nat.testBit_to_div_mod, decide_eq_false_iff_not] at h
    simp [h]
  | true =>
    rw [Nat.testBit_to_div_mod, decide_eq_true_eq] at h
    simp [h, (Nat.two_pow_pos k).ne']

theorem and_one_cond (t : Nat) : (t &&& 1 ≠ 0) ↔ (t % 2 = 1) := by
  rw [Nat.and_one_is_mod]
  omega

theorem and_cond_1 (t : Nat) : (t &&& 2 ≠ 0) ↔ (t / 2 % 2 = 1) := by
  have h := and_mask_iff t 1
  have e1 : (2 : Nat) ^ 1 = 2 := by norm_num
  rw [e1] at h
  have e2 : t / 2 = t / 2 := by omega
  rw [e2]
  exact h

theorem and_cond_2 (t : Nat) : (t &&& 4 ≠ 0) ↔ (t / 2 / 2 % 2 = 1) := by
  have h := and_mask_iff t 2
  have e1 : (2 : Nat) ^ 2 = 4 := by norm_num
  rw [e1] at h
  have e2 : t / 2 / 2 = t / 4 := by omega
  rw [e2]
  exact h

theorem and_cond_3 (t : Nat) : (t &&& 8 ≠ 0) ↔ (t / 2 / 2 / 2 % 2 = 1) := by
  have h := and_mask_iff t 3
  have e1 : (2 : Nat) ^ 3 = 8 := by norm_num
  rw [e1] at h
  have e2 : t / 2 / 2 / 2 = t / 8 := by omega
  rw [e2]
  exact h

theorem and_cond_4 (t : Nat) : (t &&& 16 ≠ 0) ↔ (t / 2 / 2 / 2 / 2 % 2 = 1) := by
  have h := and_mask_iff t 4
  have e1 : (2 : Nat) ^ 4 = 16 := by norm_num
  rw [e1] at h
  have e2 : t / 2 / 2 / 2 / 2 = t / 16 := by omega
  rw [e2]
  exact h

theorem and_cond_5 (t : Nat) : (t &&& 32 ≠ 0) ↔ (t / 2 / 2 / 2 / 2 / 2 % 2 = 1) := by
  have h := and_mask_iff t 5
  have e1 : (2 : Nat) ^ 5 = 32 := by norm_num
  rw [e1] at h
  have e2 : t / 2 / 2 / 2 / 2 / 2 = t / 32 := by omega
  rw [e2]
  exact h

theorem and_cond_6 (t : Nat) : (t &&& 64 ≠ 0) ↔ (t / 2 / 2 / 2 / 2 / 2 / 2 % 2 = 1) := by
  have h := and_mask_iff t 6
  have e1 : (2 : Nat) ^ 6 = 64 := by norm_num
  rw [e1] at h
  have e2 : t / 2 / 2 / 2 / 2 / 2 / 2 = t / 64 := by omega
  rw [e2]
  exact h

theorem and_cond_7 (t : Nat) : (t &&& 128 ≠ 0) ↔ (t / 2 / 2 / 2 / 2 / 2 / 2 / 2 % 2 = 1) := by
  have h := and_mask_iff t 7
  have e1 : (2 : Nat) ^ 7 = 128 := by norm_num
  rw [e1] at h
  have e2 : t / 2 / 2 / 2 / 2 / 2 / 2 / 2 = t / 128 := by omega
  rw [e2]
  exact h

theorem and_cond_8 (t : Nat) : (t &&& 256 ≠ 0) ↔ (t / 2 / 2 / 2 / 2 / 2 / 2 / 2 / 2 % 2 = 1) := by
  have h := and_mask_iff t 8
  have e1 : (2 : Nat) ^ 8 = 256 := by norm_num
  rw [e1] at h
  have e2 : t / 2 / 2 / 2 / 2 / 2 / 2 / 2 / 2 = t / 256 := by omega
  rw [e2]
  exact h

theorem and_cond_9 (t : Nat) : (t &&& 512 ≠ 0) ↔ (t / 2 / 2 / 2 / 2 / 2 / 2 / 2 / 2 / 2 % 2 = 1) := by
  have h := and_mask_iff t 9
  have e1 : (2 : Nat) ^ 9 = 512 := by norm_num
  rw [e1] at h
  have e2 : t / 2 / 2 / 2 / 2 / 2 / 2 / 2 / 2 / 2 = t / 512 := by omega
  rw [e2]
  exact h

theorem and_cond_10 (t : Nat) : (t &&& 1024 ≠ 0) ↔ (t / 2 / 2 / 2 / 2 / 2 / 2 / 2 / 2 / 2 / 2 % 2 = 1) := by
  have h := and_mask_iff t 10
  have e1 : (2 : Nat) ^ 10 = 1024 := by norm_num
  rw [e1] at h
  have e2 : t / 2 / 2 / 2 / 2 / 2 / 2 / 2 / 2 / 2 / 2 = t / 1024 := by omega
  rw [e2]
  exact h

theorem and_cond_11 (t : Nat) : (t &&& 2048 ≠ 0) ↔ (t / 2 / 2 / 2 / 2 / 2 / 2 / 2 / 2 / 2 / 2 / 2 % 2 = 1) := by
  have h := and_mask_iff t 11
  have e1 : (2 : Nat) ^ 11 = 2048 := by norm_num
  rw [e1] at h
  have e2 : t / 2 / 2 / 2 / 2 / 2 / 2 / 2 / 2 / 2 / 2 / 2 = t / 2048 := by omega
  rw [e2]
  exact h

theorem and_cond_12 (t : Nat) : (t &&& 4096 ≠ 0) ↔ (t / 2 / 2 / 2 / 2 / 2 / 2 / 2 / 2 / 2 / 2 / 2 / 2 % 2 = 1) := by
  have h := and_mask_iff t 12
  have e1 : (2 : Nat) ^ 12 = 4096 := by norm_num
  rw [e1] at h
  have e2 : t / 2 / 2 / 2 / 2 / 2 / 2 / 2 / 2 / 2 / 2 / 2 / 2 = t / 4096 := by omega
  rw [e2]
  exact h

theorem and_cond_13 (t : Nat) : (t &&& 8192 ≠ 0) ↔ (t / 2 / 2 / 2 / 2 / 2 / 2 / 2 / 2 / 2 / 2 / 2 / 2 / 2 % 2 = 1) := by
  have h := and_mask_iff t 13
  have e1 : (2 : Nat) ^ 13 = 8192 := by norm_num
  rw [e1] at h
  have e2 : t / 2 / 2 / 2 / 2 / 2 / 2 / 2 / 2 / 2 / 2 / 2 / 2 / 2 = t / 8192 := by omega
  rw [e2]
  exact h

theorem and_cond_14 (t : Nat) : (t &&& 16384 ≠ 0) ↔ (t / 2 / 2 / 2 / 2 / 2 / 2 / 2 / 2 / 2 / 2 / 2 / 2 / 2 / 2 % 2 = 1) := by
  have h := and_mask_iff t 14
  have e1 : (2 : Nat) ^ 14 = 16384 := by norm_num
  rw [e1] at h
  have e2 : t / 2 / 2 / 2 / 2 / 2 / 2 / 2 / 2 / 2 / 2 / 2 / 2 / 2 / 2 = t / 16384 := by omega
  rw [e2]
  exact h

theorem and_cond_15 (t : Nat) : (t &&& 32768 ≠ 0) ↔ (t / 2 / 2 / 2 / 2 / 2 / 2 / 2 / 2 / 2 / 2 / 2 / 2 / 2 / 2 / 2 % 2 = 1) := by
  have h := and_mask_iff t 15
  have e1 : (2 : Nat) ^ 15 = 32768 := by norm_num
  rw [e1] at h
  have e2 : t / 2 / 2 / 2 / 2 / 2 / 2 / 2 / 2 / 2 / 2 / 2 / 2 / 2 / 2 / 2 = t / 32768 := by omega
  rw [e2]
  exact h

theorem and_cond_16 (t : Nat) : (t &&& 65536 ≠ 0) ↔ (t / 2 / 2 / 2 / 2 / 2 / 2 / 2 / 2 / 2 / 2 / 2 / 2 / 2 / 2 / 2 / 2 % 2 = 1) := by
  have h := and_mask_iff t 16
  have e1 : (2 : Nat) ^ 16 = 65536 := by norm_num
  rw [e1] at h
  have e2 : t / 2 / 2 / 2 / 2 / 2 / 2 / 2 / 2 / 2 / 2 / 2 / 2 / 2 / 2 / 2 / 2 = t / 65536 := by omega
  rw [e2]
  exact h

theorem and_cond_17 (t : Nat) : (t &&& 131072 ≠ 0) ↔ (t / 2 / 2 / 2 / 2 / 2 / 2 / 2 / 2 / 2 / 2 / 2 / 2 / 2 / 2 / 2 / 2 / 2 % 2 = 1) := by
  have h := and_mask_iff t 17
  have e1 : (2 : Nat) ^ 17 = 131072 := by norm_num
  rw [e1] at h
  have e2 : t / 2 / 2 / 2 / 2 / 2 / 2 / 2 / 2 / 2 / 2 / 2 / 2 / 2 / 2 / 2 / 2 / 2 = t / 131072 := by omega
  rw [e2]
  exact h

theorem and_cond_18 (t : Nat) : (t &&& 262144 ≠ 0) ↔ (t / 2 / 2 / 2 / 2 / 2 / 2 / 2 / 2 / 2 / 2 / 2 / 2 / 2 / 2 / 2 / 2 / 2 / 2 % 2 = 1) := by
  have h := and_mask_iff t 18
  have e1 : (2 : Nat) ^ 18 = 262144 := by norm_num
  rw [e1] at h
  have e2 : t / 2 / 2 / 2 / 2 / 2 / 2 / 2 / 2 / 2 / 2 / 2 / 2 / 2 / 2 / 2 / 2 / 2 / 2 = t / 262144 := by omega
  rw [e2]
  exact h

theorem and_cond_19 (t : Nat) : (t &&& 524288 ≠ 0) ↔ (t / 2 / 2 / 2 / 2 / 2 / 2 / 2 / 2 / 2 / 2 / 2 / 2 / 2 / 2 / 2 / 2 / 2 / 2 / 2 % 2 = 1) := by
  have h := and_mask_iff t 19
  have e1 : (2 : Nat) ^ 19 = 524288 := by norm_num
  rw [e1] at h
  have e2 : t / 2 / 2 / 2 / 2 / 2 / 2 / 2 / 2 / 2 / 2 / 2 / 2 / 2 / 2 / 2 / 2 / 2 / 2 / 2 = t / 524288 := by omega
  rw [e2]
  exact h

theorem sqrtAbs_eq_chain (t : Nat) :
    sqrtPriceAtTickAbs t = chainP constsAsc t one := by
  simp only [sqrtPriceAtTickAbs, chainP, chainG, constsAsc]
  simp only [and_one_cond t, and_cond_1 t, and_cond_2 t, and_cond_3 t, and_cond_4 t, and_cond_5 t, and_cond_6 t, and_cond_7 t, and_cond_8 t, and_cond_9 t, and_cond_10 t, and_cond_11 t, and_cond_12 t, and_cond_13 t, and_cond_14 t, and_cond_15 t, and_cond_16 t, and_cond_17 t, and_cond_18 t, and_cond_19 t]

/-! ### Exhaustive verification of the per-tick inequalities

The six facts needed about every adjacent pair of encoded prices and
thresholds are verified over the whole 20-bit tick domain by a fused
depth-first tree: one branchless arithmetic check per leaf, one tree level
per bit, with the four partial chains (price and threshold of `u` and of
`u + 1`) carried down.  The tree values are plain `Nat` arithmetic so that
the kernel can evaluate them; `= 1` at the root means every leaf passed. -/

/-- Indicator of `a < b` as truncated-subtraction arithmetic. -/
def ltInd (a b : Nat) : Nat := Nat.sub 1 (Nat.sub (Nat.add a 1) b)

/-- Indicator of `a ≤ b` as truncated-subtraction arithmetic. -/
def leInd (a b : Nat) : Nat := Nat.sub 1 (Nat.sub a b)

/-- The three leaf checks that only matter on the negative-tick side
(`u ≤ 631042`), phrased on the inverted prices. -/
def negChecks (P P1 T T1 : Nat) : Nat :=
  let iP := Nat.div 1000000000000000000000000000000000000 P
  let iP1 := Nat.div 1000000000000000000000000000000000000 P1
  Nat.mul (ltInd iP1 iP)
    (Nat.mul (leInd T (Nat.div 1000000000000000000000000000000000000 iP1))
      (ltInd (Nat.div 1000000000000000000000000000000000000 iP) T1))

/-- The full leaf check: adjacent prices strictly increase, the thresholds
sandwich them, and on the negative side the inverted prices do the same. -/
def leafCheck (u P P1 T T1 : Nat) : Nat :=
  Nat.mul (ltInd P P1)
    (Nat.mul (leInd T P1)
      (Nat.mul (ltInd P T1)
        (cond (Nat.ble u 631042) (negChecks P P1 T T1) 1)))

/-- Tree level 20: all bits consumed, check the leaf. -/
def lvl20 (u P P1 T T1 : Nat) : Nat := leafCheck u P P1 T T1

/-- Tree level 19: branch on bit 19 of the tick, updating the four chains. -/
def lvl19 (u P P1 T T1 : Nat) : Nat :=
  Nat.mul
    (lvl20 u P P1 (Nat.sub 242214459604222321943471435452 (Nat.sub 242214459604222321943471435452 T)) (Nat.sub 242214459604222321943471435452 (Nat.sub 242214459604222321943471435452 T1)))
    (lvl20 (Nat.add u 524288)
      (Nat.div (Nat.mul P 242214459604222321943471435452) 1000000000000000000)
      (Nat.div (Nat.mul P1 242214459604222321943471435452) 1000000000000000000)
      (Nat.add 242214459604222321943471435452 (Nat.sub (Nat.div (Nat.add (Nat.mul T 242214459604222321943471435452) 999999999999999999) 1000000000000000000) 242214459604222321943471435452))
      (Nat.add 242214459604222321943471435452 (Nat.sub (Nat.div (Nat.add (Nat.mul T1 242214459604222321943471435452) 999999999999999999) 1000000000000000000) 242214459604222321943471435452)))

/-- Tree level 18: branch on bit 18 of the tick, updating the four chains. -/
def lvl18 (u P P1 T T1 : Nat) : Nat :=
  Nat.mul
    (lvl19 u P P1 (Nat.sub 492152882348790396620919 (Nat.sub 492152882348790396620919 T)) (Nat.sub 492152882348790396620919 (Nat.sub 492152882348790396620919 T1)))
    (lvl19 (Nat.add u 262144)
      (Nat.div (Nat.mul P 492152882348790396620919) 1000000000000000000)
      (Nat.div (Nat.mul P1 492152882348790396620919) 1000000000000000000)
      (Nat.add 492152882348790396620919 (Nat.sub (Nat.div (Nat.add (Nat.mul T 492152882348790396620919) 999999999999999999) 1000000000000000000) 492152882348790396620919))
      (Nat.add 492152882348790396620919 (Nat.sub (Nat.div (Nat.add (Nat.mul T1 492152882348790396620919) 999999999999999999) 1000000000000000000) 492152882348790396620919)))

/-- Tree level 17: branch on bit 17 of the tick, updating the four chains. -/
def lvl17 (u P P1 T T1 : Nat) : Nat :=
  Nat.mul
    (lvl18 u P P1 (Nat.sub 701536087702400664335 (Nat.sub 701536087702400664335 T)) (Nat.sub 701536087702400664335 (Nat.sub 701536087702400664335 T1)))
    (lvl18 (Nat.add u 131072)
      (Nat.div (Nat.mul P 701536087702400664335) 1000000000000000000)
      (Nat.div (Nat.mul P1 701536087702400664335) 1000000000000000000)
      (Nat.add 701536087702400664335 (Nat.sub (Nat.div (Nat.add (Nat.mul T 701536087702400664335) 999999999999999999) 1000000000000000000) 701536087702400664335))
      (Nat.add 701536087702400664335 (Nat.sub (Nat.div (Nat.add (Nat.mul T1 701536087702400664335) 999999999999999999) 1000000000000000000) 701536087702400664335)))

/-- Tree level 16: branch on bit 16 of the tick, updating the four chains. -/
def lvl16 (u P P1 T T1 : Nat) : Nat :=
  Nat.mul
    (lvl17 u P P1 (Nat.sub 26486526531472575563 (Nat.sub 26486526531472575563 T)) (Nat.sub 26486526531472575563 (Nat.sub 26486526531472575563 T1)))
    (lvl17 (Nat.add u 65536)
      (Nat.div (Nat.mul P 26486526531472575563) 1000000000000000000)
      (Nat.div (Nat.mul P1 26486526531472575563) 1000000000000000000)
      (Nat.add 26486526531472575563 (Nat.sub (Nat.div (Nat.add (Nat.mul T 26486526531472575563) 999999999999999999) 1000000000000000000) 26486526531472575563))
      (Nat.add 26486526531472575563 (Nat.sub (Nat.div (Nat.add (Nat.mul T1 26486526531472575563) 999999999999999999) 1000000000000000000) 26486526531472575563)))

/-- Tree level 15: branch on bit 15 of the tick, updating the four chains. -/
def lvl15 (u P P1 T T1 : Nat) : Nat :=
  Nat.mul
    (lvl16 u P P1 (Nat.sub 5146506245160164533 (Nat.sub 5146506245160164533 T)) (Nat.sub 5146506245160164533 (Nat.sub 5146506245160164533 T1)))
    (lvl16 (Nat.add u 32768)
      (Nat.div (Nat.mul P 5146506245160164533) 1000000000000000000)
      (Nat.div (Nat.mul P1 5146506245160164533) 1000000000000000000)
      (Nat.add 5146506245160164533 (Nat.sub (Nat.div (Nat.add (Nat.mul T 5146506245160164533) 999999999999999999) 1000000000000000000) 5146506245160164533))
      (Nat.add 5146506245160164533 (Nat.sub (Nat.div (Nat.add (Nat.mul T1 5146506245160164533) 999999999999999999) 1000000000000000000) 5146506245160164533)))

/-- Tree level 14: branch on bit 14 of the tick, updating the four chains. -/
def lvl14 (u P P1 T T1 : Nat) : Nat :=
  Nat.mul
    (lvl15 u P P1 (Nat.sub 2268591246822610072 (Nat.sub 2268591246822610072 T)) (Nat.sub 2268591246822610072 (Nat.sub 2268591246822610072 T1)))
    (lvl15 (Nat.add u 16384)
      (Nat.div (Nat.mul P 2268591246822610072) 1000000000000000000)
      (Nat.div (Nat.mul P1 2268591246822610072) 1000000000000000000)
      (Nat.add 2268591246822610072 (Nat.sub (Nat.div (Nat.add (Nat.mul T 2268591246822610072) 999999999999999999) 1000000000000000000) 2268591246822610072))
      (Nat.add 2268591246822610072 (Nat.sub (Nat.div (Nat.add (Nat.mul T1 2268591246822610072) 999999999999999999) 1000000000000000000) 2268591246822610072)))

/-- Tree level 13: branch on bit 13 of the tick, updating the four chains. -/
def lvl13 (u P P1 T T1 : Nat) : Nat :=
  Nat.mul
    (lvl14 u P P1 (Nat.sub 1506184333613455851 (Nat.sub 1506184333613455851 T)) (Nat.sub 1506184333613455851 (Nat.sub 1506184333613455851 T1)))
    (lvl14 (Nat.add u 8192)
      (Nat.div (Nat.mul P 1506184333613455851) 1000000000000000000)
      (Nat.div (Nat.mul P1 1506184333613455851) 1000000000000000000)
      (Nat.add 1506184333613455851 (Nat.sub (Nat.div (Nat.add (Nat.mul T 1506184333613455851) 999999999999999999) 1000000000000000000) 1506184333613455851))
      (Nat.add 1506184333613455851 (Nat.sub (Nat.div (Nat.add (Nat.mul T1 1506184333613455851) 999999999999999999) 1000000000000000000) 1506184333613455851)))

/-- Tree level 12: branch on bit 12 of the tick, updating the four chains. -/
def lvl12 (u P P1 T T1 : Nat) : Nat :=
  Nat.mul
    (lvl13 u P P1 (Nat.sub 1227267018058195782 (Nat.sub 1227267018058195782 T)) (Nat.sub 1227267018058195782 (Nat.sub 1227267018058195782 T1)))
    (lvl13 (Nat.add u 4096)
      (Nat.div (Nat.mul P 1227267018058195782) 1000000000000000000)
      (Nat.div (Nat.mul P1 1227267018058195782) 1000000000000000000)
      (Nat.add 1227267018058195782 (Nat.sub (Nat.div (Nat.add (Nat.mul T 1227267018058195782) 999999999999999999) 1000000000000000000) 1227267018058195782))
      (Nat.add 1227267018058195782 (Nat.sub (Nat.div (Nat.add (Nat.mul T1 1227267018058195782) 999999999999999999) 1000000000000000000) 1227267018058195782)))

/-- Tree level 11: branch on bit 11 of the tick, updating the four chains. -/
def lvl11 (u P P1 T T1 : Nat) : Nat :=
  Nat.mul
    (lvl12 u P P1 (Nat.sub 1107820842039991493 (Nat.sub 1107820842039991493 T)) (Nat.sub 1107820842039991493 (Nat.sub 1107820842039991493 T1)))
    (lvl12 (Nat.add u 2048)
      (Nat.div (Nat.mul P 1107820842039991493) 1000000000000000000)
      (Nat.div (Nat.mul P1 1107820842039991493) 1000000000000000000)
      (Nat.add 1107820842039991493 (Nat.sub (Nat.div (Nat.add (Nat.mul T 1107820842039991493) 999999999999999999) 1000000000000000000) 1107820842039991493))
      (Nat.add 1107820842039991493 (Nat.sub (Nat.div (Nat.add (Nat.mul T1 1107820842039991493) 999999999999999999) 1000000000000000000) 1107820842039991493)))

/-- Tree level 10: branch on bit 10 of the tick, updating the four chains. -/
def lvl10 (u P P1 T T1 : Nat) : Nat :=
  Nat.mul
    (lvl11 u P P1 (Nat.sub 1052530684607337941 (Nat.sub 1052530684607337941 T)) (Nat.sub 1052530684607337941 (Nat.sub 1052530684607337941 T1)))
    (lvl11 (Nat.add u 1024)
      (Nat.div (Nat.mul P 1052530684607337941) 1000000000000000000)
      (Nat.div (Nat.mul P1 1052530684607337941) 1000000000000000000)
      (Nat.add 1052530684607337941 (Nat.sub (Nat.div (Nat.add (Nat.mul T 1052530684607337941) 999999999999999999) 1000000000000000000) 1052530684607337941))
      (Nat.add 1052530684607337941 (Nat.sub (Nat.div (Nat.add (Nat.mul T1 1052530684607337941) 999999999999999999) 1000000000000000000) 1052530684607337941)))

/-- Tree level 9: branch on bit 9 of the tick, updating the four chains. -/
def lvl9 (u P P1 T T1 : Nat) : Nat :=
  Nat.mul
    (lvl10 u P P1 (Nat.sub 1025929181087728853 (Nat.sub 1025929181087728853 T)) (Nat.sub 1025929181087728853 (Nat.sub 1025929181087728853 T1)))
    (lvl10 (Nat.add u 512)
      (Nat.div (Nat.mul P 1025929181087728853) 1000000000000000000)
      (Nat.div (Nat.mul P1 1025929181087728853) 1000000000000000000)
      (Nat.add 1025929181087728853 (Nat.sub (Nat.div (Nat.add (Nat.mul T 1025929181087728853) 999999999999999999) 1000000000000000000) 1025929181087728853))
      (Nat.add 1025929181087728853 (Nat.sub (Nat.div (Nat.add (Nat.mul T1 1025929181087728853) 999999999999999999) 1000000000000000000) 1025929181087728853)))

/-- Tree level 8: branch on bit 8 of the tick, updating the four chains. -/
def lvl8 (u P P1 T T1 : Nat) : Nat :=
  Nat.mul
    (lvl9 u P P1 (Nat.sub 1012881622445450855 (Nat.sub 1012881622445450855 T)) (Nat.sub 1012881622445450855 (Nat.sub 1012881622445450855 T1)))
    (lvl9 (Nat.add u 256)
      (Nat.div (Nat.mul P 1012881622445450855) 1000000000000000000)
      (Nat.div (Nat.mul P1 1012881622445450855) 1000000000000000000)
      (Nat.add 1012881622445450855 (Nat.sub (Nat.div (Nat.add (Nat.mul T 1012881622445450855) 999999999999999999) 1000000000000000000) 1012881622445450855))
      (Nat.add 1012881622445450855 (Nat.sub (Nat.div (Nat.add (Nat.mul T1 1012881622445450855) 999999999999999999) 1000000000000000000) 1012881622445450855)))

/-- Tree level 7: branch on bit 7 of the tick, updating the four chains. -/
def lvl7 (u P P1 T T1 : Nat) : Nat :=
  Nat.mul
    (lvl8 u P P1 (Nat.sub 1006420201727613800 (Nat.sub 1006420201727613800 T)) (Nat.sub 1006420201727613800 (Nat.sub 1006420201727613800 T1)))
    (lvl8 (Nat.add u 128)
      (Nat.div (Nat.mul P 1006420201727613800) 1000000000000000000)
      (Nat.div (Nat.mul P1 1006420201727613800) 1000000000000000000)
      (Nat.add 1006420201727613800 (Nat.sub (Nat.div (Nat.add (Nat.mul T 1006420201727613800) 999999999999999999) 1000000000000000000) 1006420201727613800))
      (Nat.add 1006420201727613800 (Nat.sub (Nat.div (Nat.add (Nat.mul T1 1006420201727613800) 999999999999999999) 1000000000000000000) 1006420201727613800)))

/-- Tree level 6: branch on bit 6 of the tick, updating the four chains. -/
def lvl6 (u P P1 T T1 : Nat) : Nat :=
  Nat.mul
    (lvl7 u P P1 (Nat.sub 1003204964963597955 (Nat.sub 1003204964963597955 T)) (Nat.sub 1003204964963597955 (Nat.sub 1003204964963597955 T1)))
    (lvl7 (Nat.add u 64)
      (Nat.div (Nat.mul P 1003204964963597955) 1000000000000000000)
      (Nat.div (Nat.mul P1 1003204964963597955) 1000000000000000000)
      (Nat.add 1003204964963597955 (Nat.sub (Nat.div (Nat.add (Nat.mul T 1003204964963597955) 999999999999999999) 1000000000000000000) 1003204964963597955))
      (Nat.add 1003204964963597955 (Nat.sub (Nat.div (Nat.add (Nat.mul T1 1003204964963597955) 999999999999999999) 1000000000000000000) 1003204964963597955)))

/-- The six leaf facts about a tick `u`, its successor's encoded price and
the two thresholds; the inverted-price facts are needed only for ticks whose
negation is a valid negative tick. -/
def leafFacts (u P P1 T T1 : Nat) : Prop :=
  P < P1 ∧ T ≤ P1 ∧ P < T1 ∧
  (u ≤ 631042 →
    dDiv one P1 < dDiv one P ∧ T ≤ dDiv one (dDiv one P1) ∧
    dDiv one (dDiv one P) < T1)

/-- What a passing subtree rooted at level `j` guarantees: the leaf facts for
every completion `b` of the remaining `20 - j` bits, with the four carried
chains continued over the remaining constants. -/
def SpecStmt (j u P P1 T T1 : Nat) : Prop :=
  ∀ b : Nat, b < 2 ^ (20 - j) →
    leafFacts (u + 2 ^ j * b)
      (chainP (constsAsc.drop j) b P) (chainP (constsAsc.drop j) b P1)
      (chainT (constsAsc.drop j) b T) (chainT (constsAsc.drop j) b T1)

theorem chainP_cons (c : Nat) (l : List Nat) (bits acc : Nat) :
    chainP (c :: l) bits acc =
      chainP l (bits / 2) (if bits % 2 = 1 then dMul acc c else acc) := rfl

theorem chainP_append (l1 l2 : List Nat) (bits acc : Nat) :
    chainP (l1 ++ l2) bits acc =
      chainP l2 (bits / 2 ^ l1.length) (chainP l1 bits acc) :=
  chainG_append _ _ l1 l2 bits acc

theorem chainP_mod (l : List Nat) (bits acc : Nat) :
    chainP l (bits % 2 ^ l.length) acc = chainP l bits acc :=
  chainG_mod _ _ l bits acc

theorem chainT_append (l1 l2 : List Nat) (bits acc : Nat) :
    chainT (l1 ++ l2) bits acc =
      chainT l2 (bits / 2 ^ l1.length) (chainT l1 bits acc) :=
  chainG_append _ _ l1 l2 bits acc

theorem chainT_mod (l : List Nat) (bits acc : Nat) :
    chainT l (bits % 2 ^ l.length) acc = chainT l bits acc :=
  chainG_mod _ _ l bits acc

theorem dDiv_one (x : Nat) :
    dDiv one x = Nat.div 1000000000000000000000000000000000000 x := rfl

theorem mul_one_split {m n : Nat} (h : m * n = 1) : m = 1 ∧ n = 1 :=
  ⟨Nat.eq_one_of_mul_eq_one_right h, Nat.eq_one_of_mul_eq_one_left h⟩

theorem natDivEq (a b : Nat) : Nat.div a b = a / b := rfl

theorem natMulEq (a b : Nat) : Nat.mul a b = a * b := rfl

theorem dropCons_0 :
    constsAsc.drop 0 = PRICE_0X1 :: constsAsc.drop 1 := rfl

theorem dropCons_1 :
    constsAsc.drop 1 = PRICE_0X2 :: constsAsc.drop 2 := rfl

theorem dropCons_2 :
    constsAsc.drop 2 = PRICE_0X4 :: constsAsc.drop 3 := rfl

theorem dropCons_3 :
    constsAsc.drop 3 = PRICE_0X8 :: constsAsc.drop 4 := rfl

theorem dropCons_4 :
    constsAsc.drop 4 = PRICE_0X10 :: constsAsc.drop 5 := rfl

theorem dropCons_5 :
    constsAsc.drop 5 = PRICE_0X20 :: constsAsc.drop 6 := rfl

theorem dropCons_6 :
    constsAsc.drop 6 = PRICE_0X40 :: constsAsc.drop 7 := rfl

theorem dropCons_7 :
    constsAsc.drop 7 = PRICE_0X80 :: constsAsc.drop 8 := rfl

theorem dropCons_8 :
    constsAsc.drop 8 = PRICE_0X100 :: constsAsc.drop 9 := rfl

theorem dropCons_9 :
    constsAsc.drop 9 = PRICE_0X200 :: constsAsc.drop 10 := rfl

theorem dropCons_10 :
    constsAsc.drop 10 = PRICE_0X400 :: constsAsc.drop 11 := rfl

theorem dropCons_11 :
    constsAsc.drop 11 = PRICE_0X800 :: constsAsc.drop 12 := rfl

theorem dropCons_12 :
    constsAsc.drop 12 = PRICE_0X1000 :: constsAsc.drop 13 := rfl

theorem dropCons_13 :
    constsAsc.drop 13 = PRICE_0X2000 :: constsAsc.drop 14 := rfl

theorem dropCons_14 :
    constsAsc.drop 14 = PRICE_0X4000 :: constsAsc.drop 15 := rfl

theorem dropCons_15 :
    constsAsc.drop 15 = PRICE_0X8000 :: constsAsc.drop 16 := rfl

theorem dropCons_16 :
    constsAsc.drop 16 = PRICE_0X10000 :: constsAsc.drop 17 := rfl

theorem dropCons_17 :
    constsAsc.drop 17 = PRICE_0X20000 :: constsAsc.drop 18 := rfl

theorem dropCons_18 :
    constsAsc.drop 18 = PRICE_0X40000 :: constsAsc.drop 19 := rfl

theorem dropCons_19 :
    constsAsc.drop 19 = PRICE_0X80000 :: constsAsc.drop 20 := rfl

/-- Decoding a passed leaf check into the six leaf facts. -/
theorem leafCheck_sound (u P P1 T T1 : Nat) (h : leafCheck u P P1 T T1 = 1) :
    leafFacts u P P1 T T1 := by
  unfold leafCheck at h
  obtain ⟨h1, h5⟩ := mul_one_split h
  obtain ⟨h2, h6⟩ := mul_one_split h5
  obtain ⟨h3, h4⟩ := mul_one_split h6
  refine ⟨?_, ?_, ?_, ?_⟩
  · simp only [ltInd, Nat.sub_eq, Nat.add_eq] at h1; omega
  · simp only [leInd, Nat.sub_eq] at h2; omega
  · simp only [ltInd, Nat.sub_eq, Nat.add_eq] at h3; omega
  · intro hu
    have hble : Nat.ble u 631042 = true := by
      rw [Nat.ble_eq]; exact hu
    rw [hble, cond_true] at h4
    simp only [negChecks] at h4
    obtain ⟨g1, g4⟩ := mul_one_split h4
    obtain ⟨g2, g3⟩ := mul_one_split g4
    refine ⟨?_, ?_, ?_⟩
    · rw [dDiv_one, dDiv_one]
      simp only [ltInd, Nat.sub_eq, Nat.add_eq] at g1; omega
    · rw [dDiv_one, dDiv_one]
      simp only [leInd, Nat.sub_eq] at g2; omega
    · rw [dDiv_one, dDiv_one]
      simp only [ltInd, Nat.sub_eq, Nat.add_eq] at g3; omega

/-- A passed leaf at level 20 gives the leaf facts for its tick. -/
theorem lvl_spec_20 (u P P1 T T1 : Nat) (h : lvl20 u P P1 T T1 = 1) :
    SpecStmt 20 u P P1 T T1 := by
  intro b hb
  have hb0 : b = 0 := by omega
  subst hb0
  show leafFacts u P P1 T T1
  exact leafCheck_sound u P P1 T T1 h

/-- Combining the two child guarantees of a tree node into the parent's. -/
theorem glueStep {j u P P1 T T1 C : Nat}
    (hC : constsAsc.drop j = C :: constsAsc.drop (j + 1))
    (hj : j < 20)
    (h0 : SpecStmt (j + 1) u P P1 (min C T) (min C T1))
    (h1 : SpecStmt (j + 1) (u + 2 ^ j) (dMul P C) (dMul P1 C)
      (max C ((T * C + (one - 1)) / one)) (max C ((T1 * C + (one - 1)) / one))) :
    SpecStmt j u P P1 T T1 := by
  intro b hb
  have hexp : 20 - j = (20 - (j + 1)) + 1 := by omega
  rw [hexp, pow_succ] at hb
  have hb2 : b / 2 < 2 ^ (20 - (j + 1)) := by omega
  rw [hC, chainP_cons, chainP_cons, chainT_cons, chainT_cons]
  rcases Nat.mod_two_eq_zero_or_one b with hbit | hbit
  · have hbit' : ¬ b % 2 = 1 := by omega
    simp only [if_neg hbit']
    have hb0 : b = 2 * (b / 2) := by omega
    have hmul : 2 ^ j * b = 2 ^ (j + 1) * (b / 2) := by
      calc 2 ^ j * b = 2 ^ j * (2 * (b / 2)) := by rw [← hb0]
        _ = 2 ^ (j + 1) * (b / 2) := by rw [pow_succ]; ring
    have hu : u + 2 ^ j * b = u + 2 ^ (j + 1) * (b / 2) := by omega
    rw [hu]
    exact h0 (b / 2) hb2
  · simp only [if_pos hbit]
    have hb0 : b = 2 * (b / 2) + 1 := by omega
    have hmul : 2 ^ j * b = 2 ^ j + 2 ^ (j + 1) * (b / 2) := by
      calc 2 ^ j * b = 2 ^ j * (2 * (b / 2) + 1) := by rw [← hb0]
        _ = 2 ^ j + 2 ^ (j + 1) * (b / 2) := by rw [pow_succ]; ring
    have hu : u + 2 ^ j * b = u + 2 ^ j + 2 ^ (j + 1) * (b / 2) := by omega
    rw [hu]
    exact h1 (b / 2) hb2

/-- A passed subtree at level 19 gives its guarantee. -/
theorem lvl_spec_19 (u P P1 T T1 : Nat) (h : lvl19 u P P1 T T1 = 1) :
    SpecStmt 19 u P P1 T T1 := by
  simp only [lvl19] at h
  obtain ⟨h0, h1⟩ := mul_one_split h
  have g0 := lvl_spec_20 _ _ _ _ _ h0
  have g1 := lvl_spec_20 _ _ _ _ _ h1
  have em : ∀ x : Nat, Nat.sub 242214459604222321943471435452 (Nat.sub 242214459604222321943471435452 x) = min PRICE_0X80000 x := by
    intro x; simp only [PRICE_0X80000, Nat.sub_eq]; omega
  have ex : ∀ x : Nat,
      Nat.add 242214459604222321943471435452 (Nat.sub (Nat.div (Nat.add (Nat.mul x 242214459604222321943471435452) 999999999999999999) 1000000000000000000) 242214459604222321943471435452) =
        max PRICE_0X80000 ((x * PRICE_0X80000 + (one - 1)) / one) := by
    intro x; simp only [PRICE_0X80000, one, natDivEq, natMulEq, Nat.add_eq, Nat.sub_eq]; omega
  rw [em T, em T1] at g0
  rw [ex T, ex T1] at g1
  exact glueStep dropCons_19 (by omega) g0 g1

/-- A passed subtree at level 18 gives its guarantee. -/
theorem lvl_spec_18 (u P P1 T T1 : Nat) (h : lvl18 u P P1 T T1 = 1) :
    SpecStmt 18 u P P1 T T1 := by
  simp only [lvl18] at h
  obtain ⟨h0, h1⟩ := mul_one_split h
  have g0 := lvl_spec_19 _ _ _ _ _ h0
  have g1 := lvl_spec_19 _ _ _ _ _ h1
  have em : ∀ x : Nat, Nat.sub 492152882348790396620919 (Nat.sub 492152882348790396620919 x) = min PRICE_0X40000 x := by
    intro x; simp only [PRICE_0X40000, Nat.sub_eq]; omega
  have ex : ∀ x : Nat,
      Nat.add 492152882348790396620919 (Nat.sub (Nat.div (Nat.add (Nat.mul x 492152882348790396620919) 999999999999999999) 1000000000000000000) 492152882348790396620919) =
        max PRICE_0X40000 ((x * PRICE_0X40000 + (one - 1)) / one) := by
    intro x; simp only [PRICE_0X40000, one, natDivEq, natMulEq, Nat.add_eq, Nat.sub_eq]; omega
  rw [em T, em T1] at g0
  rw [ex T, ex T1] at g1
  exact glueStep dropCons_18 (by omega) g0 g1

/-- A passed subtree at level 17 gives its guarantee. -/
theorem lvl_spec_17 (u P P1 T T1 : Nat) (h : lvl17 u P P1 T T1 = 1) :
    SpecStmt 17 u P P1 T T1 := by
  simp only [lvl17] at h
  obtain ⟨h0, h1⟩ := mul_one_split h
  have g0 := lvl_spec_18 _ _ _ _ _ h0
  have g1 := lvl_spec_18 _ _ _ _ _ h1
  have em : ∀ x : Nat, Nat.sub 701536087702400664335 (Nat.sub 701536087702400664335 x) = min PRICE_0X20000 x := by
    intro x; simp only [PRICE_0X20000, Nat.sub_eq]; omega
  have ex : ∀ x : Nat,
      Nat.add 701536087702400664335 (Nat.sub (Nat.div (Nat.add (Nat.mul x 701536087702400664335) 999999999999999999) 1000000000000000000) 701536087702400664335) =
        max PRICE_0X20000 ((x * PRICE_0X20000 + (one - 1)) / one) := by
    intro x; simp only [PRICE_0X20000, one, natDivEq, natMulEq, Nat.add_eq, Nat.sub_eq]; omega
  rw [em T, em T1] at g0
  rw [ex T, ex T1] at g1
  exact glueStep dropCons_17 (by omega) g0 g1

/-- A passed subtree at level 16 gives its guarantee. -/
theorem lvl_spec_16 (u P P1 T T1 : Nat) (h : lvl16 u P P1 T T1 = 1) :
    SpecStmt 16 u P P1 T T1 := by
  simp only [lvl16] at h
  obtain ⟨h0, h1⟩ := mul_one_split h
  have g0 := lvl_spec_17 _ _ _ _ _ h0
  have g1 := lvl_spec_17 _ _ _ _ _ h1
  have em : ∀ x : Nat, Nat.sub 26486526531472575563 (Nat.sub 26486526531472575563 x) = min PRICE_0X10000 x := by
    intro x; simp only [PRICE_0X10000, Nat.sub_eq]; omega
  have ex : ∀ x : Nat,
      Nat.add 26486526531472575563 (Nat.sub (Nat.div (Nat.add (Nat.mul x 26486526531472575563) 999999999999999999) 1000000000000000000) 26486526531472575563) =
        max PRICE_0X10000 ((x * PRICE_0X10000 + (one - 1)) / one) := by
    intro x; simp only [PRICE_0X10000, one, natDivEq, natMulEq, Nat.add_eq, Nat.sub_eq]; omega
  rw [em T, em T1] at g0
  rw [ex T, ex T1] at g1
  exact glueStep dropCons_16 (by omega) g0 g1

/-- A passed subtree at level 15 gives its guarantee. -/
theorem lvl_spec_15 (u P P1 T T1 : Nat) (h : lvl15 u P P1 T T1 = 1) :
    SpecStmt 15 u P P1 T T1 := by
  simp only [lvl15] at h
  obtain ⟨h0, h1⟩ := mul_one_split h
  have g0 := lvl_spec_16 _ _ _ _ _ h0
  have g1 := lvl_spec_16 _ _ _ _ _ h1
  have em : ∀ x : Nat, Nat.sub 5146506245160164533 (Nat.sub 5146506245160164533 x) = min PRICE_0X8000 x := by
    intro x; simp only [PRICE_0X8000, Nat.sub_eq]; omega
  have ex : ∀ x : Nat,
      Nat.add 5146506245160164533 (Nat.sub (Nat.div (Nat.add (Nat.mul x 5146506245160164533) 999999999999999999) 1000000000000000000) 5146506245160164533) =
        max PRICE_0X8000 ((x * PRICE_0X8000 + (one - 1)) / one) := by
    intro x; simp only [PRICE_0X8000, one, natDivEq, natMulEq, Nat.add_eq, Nat.sub_eq]; omega
  rw [em T, em T1] at g0
  rw [ex T, ex T1] at g1
  exact glueStep dropCons_15 (by omega) g0 g1

/-- A passed subtree at level 14 gives its guarantee. -/
theorem lvl_spec_14 (u P P1 T T1 : Nat) (h : lvl14 u P P1 T T1 = 1) :
    SpecStmt 14 u P P1 T T1 := by
  simp only [lvl14] at h
  obtain ⟨h0, h1⟩ := mul_one_split h
  have g0 := lvl_spec_15 _ _ _ _ _ h0
  have g1 := lvl_spec_15 _ _ _ _ _ h1
  have em : ∀ x : Nat, Nat.sub 2268591246822610072 (Nat.sub 2268591246822610072 x) = min PRICE_0X4000 x := by
    intro x; simp only [PRICE_0X4000, Nat.sub_eq]; omega
  have ex : ∀ x : Nat,
      Nat.add 2268591246822610072 (Nat.sub (Nat.div (Nat.add (Nat.mul x 2268591246822610072) 999999999999999999) 1000000000000000000) 2268591246822610072) =
        max PRICE_0X4000 ((x * PRICE_0X4000 + (one - 1)) / one) := by
    intro x; simp only [PRICE_0X4000, one, natDivEq, natMulEq, Nat.add_eq, Nat.sub_eq]; omega
  rw [em T, em T1] at g0
  rw [ex T, ex T1] at g1
  exact glueStep dropCons_14 (by omega) g0 g1

/-- A passed subtree at level 13 gives its guarantee. -/
theorem lvl_spec_13 (u P P1 T T1 : Nat) (h : lvl13 u P P1 T T1 = 1) :
    SpecStmt 13 u P P1 T T1 := by
  simp only [lvl13] at h
  obtain ⟨h0, h1⟩ := mul_one_split h
  have g0 := lvl_spec_14 _ _ _ _ _ h0
  have g1 := lvl_spec_14 _ _ _ _ _ h1
  have em : ∀ x : Nat, Nat.sub 1506184333613455851 (Nat.sub 1506184333613455851 x) = min PRICE_0X2000 x := by
    intro x; simp only [PRICE_0X2000, Nat.sub_eq]; omega
  have ex : ∀ x : Nat,
      Nat.add 1506184333613455851 (Nat.sub (Nat.div (Nat.add (Nat.mul x 1506184333613455851) 999999999999999999) 1000000000000000000) 1506184333613455851) =
        max PRICE_0X2000 ((x * PRICE_0X2000 + (one - 1)) / one) := by
    intro x; simp only [PRICE_0X2000, one, natDivEq, natMulEq, Nat.add_eq, Nat.sub_eq]; omega
  rw [em T, em T1] at g0
  rw [ex T, ex T1] at g1
  exact glueStep dropCons_13 (by omega) g0 g1

/-- A passed subtree at level 12 gives its guarantee. -/
theorem lvl_spec_12 (u P P1 T T1 : Nat) (h : lvl12 u P P1 T T1 = 1) :
    SpecStmt 12 u P P1 T T1 := by
  simp only [lvl12] at h
  obtain ⟨h0, h1⟩ := mul_one_split h
  have g0 := lvl_spec_13 _ _ _ _ _ h0
  have g1 := lvl_spec_13 _ _ _ _ _ h1
  have em : ∀ x : Nat, Nat.sub 1227267018058195782 (Nat.sub 1227267018058195782 x) = min PRICE_0X1000 x := by
    intro x; simp only [PRICE_0X1000, Nat.sub_eq]; omega
  have ex : ∀ x : Nat,
      Nat.add 1227267018058195782 (Nat.sub (Nat.div (Nat.add (Nat.mul x 1227267018058195782) 999999999999999999) 1000000000000000000) 1227267018058195782) =
        max PRICE_0X1000 ((x * PRICE_0X1000 + (one - 1)) / one) := by
    intro x; simp only [PRICE_0X1000, one, natDivEq, natMulEq, Nat.add_eq, Nat.sub_eq]; omega
  rw [em T, em T1] at g0
  rw [ex T, ex T1] at g1
  exact glueStep dropCons_12 (by omega) g0 g1

/-- A passed subtree at level 11 gives its guarantee. -/
theorem lvl_spec_11 (u P P1 T T1 : Nat) (h : lvl11 u P P1 T T1 = 1) :
    SpecStmt 11 u P P1 T T1 := by
  simp only [lvl11] at h
  obtain ⟨h0, h1⟩ := mul_one_split h
  have g0 := lvl_spec_12 _ _ _ _ _ h0
  have g1 := lvl_spec_12 _ _ _ _ _ h1
  have em : ∀ x : Nat, Nat.sub 1107820842039991493 (Nat.sub 1107820842039991493 x) = min PRICE_0X800 x := by
    intro x; simp only [PRICE_0X800, Nat.sub_eq]; omega
  have ex : ∀ x : Nat,
      Nat.add 1107820842039991493 (Nat.sub (Nat.div (Nat.add (Nat.mul x 1107820842039991493) 999999999999999999) 1000000000000000000) 1107820842039991493) =
        max PRICE_0X800 ((x * PRICE_0X800 + (one - 1)) / one) := by
    intro x; simp only [PRICE_0X800, one, natDivEq, natMulEq, Nat.add_eq, Nat.sub_eq]; omega
  rw [em T, em T1] at g0
  rw [ex T, ex T1] at g1
  exact glueStep dropCons_11 (by omega) g0 g1

/-- A passed subtree at level 10 gives its guarantee. -/
theorem lvl_spec_10 (u P P1 T T1 : Nat) (h : lvl10 u P P1 T T1 = 1) :
    SpecStmt 10 u P P1 T T1 := by
  simp only [lvl10] at h
  obtain ⟨h0, h1⟩ := mul_one_split h
  have g0 := lvl_spec_11 _ _ _ _ _ h0
  have g1 := lvl_spec_11 _ _ _ _ _ h1
  have em : ∀ x : Nat, Nat.sub 1052530684607337941 (Nat.sub 1052530684607337941 x) = min PRICE_0X400 x := by
    intro x; simp only [PRICE_0X400, Nat.sub_eq]; omega
  have ex : ∀ x : Nat,
      Nat.add 1052530684607337941 (Nat.sub (Nat.div (Nat.add (Nat.mul x 1052530684607337941) 999999999999999999) 1000000000000000000) 1052530684607337941) =
        max PRICE_0X400 ((x * PRICE_0X400 + (one - 1)) / one) := by
    intro x; simp only [PRICE_0X400, one, natDivEq, natMulEq, Nat.add_eq, Nat.sub_eq]; omega
  rw [em T, em T1] at g0
  rw [ex T, ex T1] at g1
  exact glueStep dropCons_10 (by omega) g0 g1

/-- A passed subtree at level 9 gives its guarantee. -/
theorem lvl_spec_9 (u P P1 T T1 : Nat) (h : lvl9 u P P1 T T1 = 1) :
    SpecStmt 9 u P P1 T T1 := by
  simp only [lvl9] at h
  obtain ⟨h0, h1⟩ := mul_one_split h
  have g0 := lvl_spec_10 _ _ _ _ _ h0
  have g1 := lvl_spec_10 _ _ _ _ _ h1
  have em : ∀ x : Nat, Nat.sub 1025929181087728853 (Nat.sub 1025929181087728853 x) = min PRICE_0X200 x := by
    intro x; simp only [PRICE_0X200, Nat.sub_eq]; omega
  have ex : ∀ x : Nat,
      Nat.add 1025929181087728853 (Nat.sub (Nat.div (Nat.add (Nat.mul x 1025929181087728853) 999999999999999999) 1000000000000000000) 1025929181087728853) =
        max PRICE_0X200 ((x * PRICE_0X200 + (one - 1)) / one) := by
    intro x; simp only [PRICE_0X200, one, natDivEq, natMulEq, Nat.add_eq, Nat.sub_eq]; omega
  rw [em T, em T1] at g0
  rw [ex T, ex T1] at g1
  exact glueStep dropCons_9 (by omega) g0 g1

/-- A passed subtree at level 8 gives its guarantee. -/
theorem lvl_spec_8 (u P P1 T T1 : Nat) (h : lvl8 u P P1 T T1 = 1) :
    SpecStmt 8 u P P1 T T1 := by
  simp only [lvl8] at h
  obtain ⟨h0, h1⟩ := mul_one_split h
  have g0 := lvl_spec_9 _ _ _ _ _ h0
  have g1 := lvl_spec_9 _ _ _ _ _ h1
  have em : ∀ x : Nat, Nat.sub 1012881622445450855 (Nat.sub 1012881622445450855 x) = min PRICE_0X100 x := by
    intro x; simp only [PRICE_0X100, Nat.sub_eq]; omega
  have ex : ∀ x : Nat,
      Nat.add 1012881622445450855 (Nat.sub (Nat.div (Nat.add (Nat.mul x 1012881622445450855) 999999999999999999) 1000000000000000000) 1012881622445450855) =
        max PRICE_0X100 ((x * PRICE_0X100 + (one - 1)) / one) := by
    intro x; simp only [PRICE_0X100, one, natDivEq, natMulEq, Nat.add_eq, Nat.sub_eq]; omega
  rw [em T, em T1] at g0
  rw [ex T, ex T1] at g1
  exact glueStep dropCons_8 (by omega) g0 g1

/-- A passed subtree at level 7 gives its guarantee. -/
theorem lvl_spec_7 (u P P1 T T1 : Nat) (h : lvl7 u P P1 T T1 = 1) :
    SpecStmt 7 u P P1 T T1 := by
  simp only [lvl7] at h
  obtain ⟨h0, h1⟩ := mul_one_split h
  have g0 := lvl_spec_8 _ _ _ _ _ h0
  have g1 := lvl_spec_8 _ _ _ _ _ h1
  have em : ∀ x : Nat, Nat.sub 1006420201727613800 (Nat.sub 1006420201727613800 x) = min PRICE_0X80 x := by
    intro x; simp only [PRICE_0X80, Nat.sub_eq]; omega
  have ex : ∀ x : Nat,
      Nat.add 1006420201727613800 (Nat.sub (Nat.div (Nat.add (Nat.mul x 1006420201727613800) 999999999999999999) 1000000000000000000) 1006420201727613800) =
        max PRICE_0X80 ((x * PRICE_0X80 + (one - 1)) / one) := by
    intro x; simp only [PRICE_0X80, one, natDivEq, natMulEq, Nat.add_eq, Nat.sub_eq]; omega
  rw [em T, em T1] at g0
  rw [ex T, ex T1] at g1
  exact glueStep dropCons_7 (by omega) g0 g1

/-- A passed subtree at level 6 gives its guarantee. -/
theorem lvl_spec_6 (u P P1 T T1 : Nat) (h : lvl6 u P P1 T T1 = 1) :
    SpecStmt 6 u P P1 T T1 := by
  simp only [lvl6] at h
  obtain ⟨h0, h1⟩ := mul_one_split h
  have g0 := lvl_spec_7 _ _ _ _ _ h0
  have g1 := lvl_spec_7 _ _ _ _ _ h1
  have em : ∀ x : Nat, Nat.sub 1003204964963597955 (Nat.sub 1003204964963597955 x) = min PRICE_0X40 x := by
    intro x; simp only [PRICE_0X40, Nat.sub_eq]; omega
  have ex : ∀ x : Nat,
      Nat.add 1003204964963597955 (Nat.sub (Nat.div (Nat.add (Nat.mul x 1003204964963597955) 999999999999999999) 1000000000000000000) 1003204964963597955) =
        max PRICE_0X40 ((x * PRICE_0X40 + (one - 1)) / one) := by
    intro x; simp only [PRICE_0X40, one, natDivEq, natMulEq, Nat.add_eq, Nat.sub_eq]; omega
  rw [em T, em T1] at g0
  rw [ex T, ex T1] at g1
  exact glueStep dropCons_6 (by omega) g0 g1


/-! ### The chunked sweep

Each `chunk` lemma is one kernel evaluation of a subtree of the fused
check tree; together they cover, through the `spine` lemmas, every tick
`u` of the 20-bit domain except the all-ones pattern. -/

set_option maxRecDepth 100000 in
theorem chunk_0_0 : lvl6 0 1000000000000000000 1000049998750062496 0 1000049998750062496 = 1 := by decide!

set_option maxRecDepth 100000 in
theorem chunk_0_1 : lvl6 2 1000100000000000000 1000150003749937502 1000100000000000000 1000150003749937503 = 1 := by decide!

set_option maxRecDepth 100000 in
theorem chunk_0_2 : lvl6 4 1000200010000000000 1000250018750312495 1000200010000000000 1000250018750312496 = 1 := by decide!

set_option maxRecDepth 100000 in
theorem chunk_0_3 : lvl6 6 1000300030001000000 1000350043752187526 1000300030001000000 1000350043752187528 = 1 := by decide!

set_option maxRecDepth 100000 in
theorem chunk_0_4 : lvl6 8 1000400060004000093 1000450078756562739 1000400060004000093 1000450078756562740 = 1 := by decide!

set_option maxRecDepth 100000 in
theorem chunk_0_5 : lvl6 10 1000500100010000493 1000550123764438395 1000500100010000494 1000550123764438397 = 1 := by decide!

set_option maxRecDepth 100000 in
theorem chunk_0_6 : lvl6 12 1000600150020001493 1000650178776814838 1000600150020001494 1000650178776814840 = 1 := by decide!

set_option maxRecDepth 100000 in
theorem chunk_0_7 : lvl6 14 1000700210035003493 1000750243794692519 1000700210035003494 1000750243794692522 = 1 := by decide!

set_option maxRecDepth 100000 in
theorem chunk_0_8 : lvl6 16 1000800280056006986 1000850318819071982 1000800280056006986 1000850318819071983 = 1 := by decide!

set_option maxRecDepth 100000 in
theorem chunk_0_9 : lvl6 18 1000900360084012586 1000950403850953889 1000900360084012587 1000950403850953891 = 1 := by decide!

set_option maxRecDepth 100000 in
theorem chunk_0_10 : lvl6 20 1001000450120020987 1001050498891338983 1001000450120020988 1001050498891338985 = 1 := by decide!

set_option maxRecDepth 100000 in
theorem chunk_0_11 : lvl6 22 1001100550165032990 1001150603941228117 1001100550165032991 1001150603941228120 = 1 := by decide!

set_option maxRecDepth 100000 in
theorem chunk_0_12 : lvl6 24 1001200660220049486 1001250719001622234 1001200660220049487 1001250719001622236 = 1 := by decide!

set_option maxRecDepth 100000 in
theorem chunk_0_13 : lvl6 26 1001300780286071491 1001350844073522396 1001300780286071493 1001350844073522399 = 1 := by decide!

set_option maxRecDepth 100000 in
theorem chunk_0_14 : lvl6 28 1001400910364100098 1001450979157929747 1001400910364100100 1001450979157929750 = 1 := by decide!

set_option maxRecDepth 100000 in
theorem chunk_0_15 : lvl6 30 1001501050455136508 1001551124255845540 1001501050455136510 1001551124255845544 = 1 := by decide!

set_option maxRecDepth 100000 in
theorem chunk_0_16 : lvl6 32 1001601200560182014 1001651279368271118 1001601200560182014 1001651279368271119 = 1 := by decide!

set_option maxRecDepth 100000 in
theorem chunk_0_17 : lvl6 34 1001701360680238032 1001751444496207945 1001701360680238033 1001751444496207947 = 1 := by decide!

set_option maxRecDepth 100000 in
theorem chunk_0_18 : lvl6 36 1001801530816306056 1001851619640657565 1001801530816306057 1001851619640657567 = 1 := by decide!

set_option maxRecDepth 100000 in
theorem chunk_0_19 : lvl6 38 1001901710969387686 1001951804802621630 1001901710969387687 1001951804802621633 = 1 := by decide!

set_option maxRecDepth 100000 in
theorem chunk_0_20 : lvl6 40 1002001901140484618 1002051999983101887 1002001901140484619 1002051999983101889 = 1 := by decide!

set_option maxRecDepth 100000 in
theorem chunk_0_21 : lvl6 42 1002102101330598666 1002152205183100197 1002102101330598668 1002152205183100200 = 1 := by decide!

set_option maxRecDepth 100000 in
theorem chunk_0_22 : lvl6 44 1002202311540731726 1002252420403618506 1002202311540731728 1002252420403618509 = 1 := by decide!

set_option maxRecDepth 100000 in
theorem chunk_0_23 : lvl6 46 1002302531771885799 1002352645645658867 1002302531771885801 1002352645645658871 = 1 := by decide!

set_option maxRecDepth 100000 in
theorem chunk_0_24 : lvl6 48 1002402762025062980 1002452880910223427 1002402762025062981 1002452880910223429 = 1 := by decide!

set_option maxRecDepth 100000 in
theorem chunk_0_25 : lvl6 50 1002503002301265486 1002553126198314449 1002503002301265488 1002553126198314452 = 1 := by decide!

set_option maxRecDepth 100000 in
theorem chunk_0_26 : lvl6 52 1002603252601495612 1002653381510934279 1002603252601495614 1002653381510934282 = 1 := by decide!

set_option maxRecDepth 100000 in
theorem chunk_0_27 : lvl6 54 1002703512926755763 1002753646849085373 1002703512926755765 1002753646849085377 = 1 := by decide!

set_option maxRecDepth 100000 in
theorem chunk_0_28 : lvl6 56 1002803783278048431 1002853922213770275 1002803783278048433 1002853922213770278 = 1 := by decide!

set_option maxRecDepth 100000 in
theorem chunk_0_29 : lvl6 58 1002904063656376236 1002954207605991652 1002904063656376239 1002954207605991656 = 1 := by decide!

set_option maxRecDepth 100000 in
theorem chunk_0_30 : lvl6 60 1003004354062741873 1003054503026752250 1003004354062741876 1003054503026752254 = 1 := by decide!

set_option maxRecDepth 100000 in
theorem chunk_0_31 : lvl6 62 1003104654498148148 1003154808477054925 1003104654498148151 1003154808477054930 = 1 := by decide!

set_option maxRecDepth 100000 in
theorem chunk_1_0 : lvl6 1 1000049998750062496 1000100000000000000 1000049998750062496 1000100000000000000 = 1 := by decide!

set_option maxRecDepth 100000 in
theorem chunk_1_1 : lvl6 5 1000250018750312495 1000300030001000000 1000250018750312496 1000300030001000000 = 1 := by decide!

set_option maxRecDepth 100000 in
theorem chunk_1_2 : lvl6 9 1000450078756562739 1000500100010000493 1000450078756562740 1000500100010000494 = 1 := by decide!

set_option maxRecDepth 100000 in
theorem chunk_1_3 : lvl6 13 1000650178776814838 1000700210035003493 1000650178776814840 1000700210035003494 = 1 := by decide!

set_option maxRecDepth 100000 in
theorem chunk_1_4 : lvl6 17 1000850318819071982 1000900360084012586 1000850318819071983 1000900360084012587 = 1 := by decide!

set_option maxRecDepth 100000 in
theorem chunk_1_5 : lvl6 21 1001050498891338983 1001100550165032990 1001050498891338985 1001100550165032991 = 1 := by decide!

set_option maxRecDepth 100000 in
theorem chunk_1_6 : lvl6 25 1001250719001622234 1001300780286071491 1001250719001622236 1001300780286071493 = 1 := by decide!

set_option maxRecDepth 100000 in
theorem chunk_1_7 : lvl6 29 1001450979157929747 1001501050455136508 1001450979157929750 1001501050455136510 = 1 := by decide!

set_option maxRecDepth 100000 in
theorem chunk_1_8 : lvl6 33 1001651279368271118 1001701360680238032 1001651279368271119 1001701360680238033 = 1 := by decide!

set_option maxRecDepth 100000 in
theorem chunk_1_9 : lvl6 37 1001851619640657565 1001901710969387686 1001851619640657567 1001901710969387687 = 1 := by decide!

set_option maxRecDepth 100000 in
theorem chunk_1_10 : lvl6 41 1002051999983101887 1002102101330598666 1002051999983101889 1002102101330598668 = 1 := by decide!

set_option maxRecDepth 100000 in
theorem chunk_1_11 : lvl6 45 1002252420403618506 1002302531771885799 1002252420403618509 1002302531771885801 = 1 := by decide!

set_option maxRecDepth 100000 in
theorem chunk_1_12 : lvl6 49 1002452880910223427 1002503002301265486 1002452880910223429 1002503002301265488 = 1 := by decide!

set_option maxRecDepth 100000 in
theorem chunk_1_13 : lvl6 53 1002653381510934279 1002703512926755763 1002653381510934282 1002703512926755765 = 1 := by decide!

set_option maxRecDepth 100000 in
theorem chunk_1_14 : lvl6 57 1002853922213770275 1002904063656376236 1002853922213770278 1002904063656376239 = 1 := by decide!

set_option maxRecDepth 100000 in
theorem chunk_1_15 : lvl6 61 1003054503026752250 1003104654498148148 1003054503026752254 1003104654498148151 = 1 := by decide!

set_option maxRecDepth 100000 in
theorem chunk_2_0 : lvl6 3 1000150003749937502 1000200010000000000 1000150003749937503 1000200010000000000 = 1 := by decide!

set_option maxRecDepth 100000 in
theorem chunk_2_1 : lvl6 11 1000550123764438395 1000600150020001493 1000550123764438397 1000600150020001494 = 1 := by decide!

set_option maxRecDepth 100000 in
theorem chunk_2_2 : lvl6 19 1000950403850953889 1001000450120020987 1000950403850953891 1001000450120020988 = 1 := by decide!

set_option maxRecDepth 100000 in
theorem chunk_2_3 : lvl6 27 1001350844073522396 1001400910364100098 1001350844073522399 1001400910364100100 = 1 := by decide!

set_option maxRecDepth 100000 in
theorem chunk_2_4 : lvl6 35 1001751444496207945 1001801530816306056 1001751444496207947 1001801530816306057 = 1 := by decide!

set_option maxRecDepth 100000 in
theorem chunk_2_5 : lvl6 43 1002152205183100197 1002202311540731726 1002152205183100200 1002202311540731728 = 1 := by decide!

set_option maxRecDepth 100000 in
theorem chunk_2_6 : lvl6 51 1002553126198314449 1002603252601495612 1002553126198314452 1002603252601495614 = 1 := by decide!

set_option maxRecDepth 100000 in
theorem chunk_2_7 : lvl6 59 1002954207605991652 1003004354062741873 1002954207605991656 1003004354062741876 = 1 := by decide!

set_option maxRecDepth 100000 in
theorem chunk_3_0 : lvl6 7 1000350043752187526 1000400060004000093 1000350043752187528 1000400060004000093 = 1 := by decide!

set_option maxRecDepth 100000 in
theorem chunk_3_1 : lvl6 23 1001150603941228117 1001200660220049486 1001150603941228120 1001200660220049487 = 1 := by decide!

set_option maxRecDepth 100000 in
theorem chunk_3_2 : lvl6 39 1001951804802621630 1002001901140484618 1001951804802621633 1002001901140484619 = 1 := by decide!

set_option maxRecDepth 100000 in
theorem chunk_3_3 : lvl6 55 1002753646849085373 1002803783278048431 1002753646849085377 1002803783278048433 = 1 := by decide!

set_option maxRecDepth 100000 in
theorem chunk_4_0 : lvl6 15 1000750243794692519 1000800280056006986 1000750243794692522 1000800280056006986 = 1 := by decide!

set_option maxRecDepth 100000 in
theorem chunk_4_1 : lvl6 47 1002352645645658867 1002402762025062980 1002352645645658871 1002402762025062981 = 1 := by decide!

set_option maxRecDepth 100000 in
theorem chunk_5 : lvl6 31 1001551124255845540 1001601200560182014 1001551124255845544 1001601200560182014 = 1 := by decide!

set_option maxRecDepth 100000 in
theorem chunk_6 : lvl7 63 1003154808477054925 1003204964963597955 1003154808477054930 1003204964963597955 = 1 := by decide!

set_option maxRecDepth 100000 in
theorem chunk_7 : lvl8 127 1006369884491288702 1006420201727613800 1006369884491288708 1006420201727613800 = 1 := by decide!

set_option maxRecDepth 100000 in
theorem chunk_8 : lvl9 255 1012830982162318174 1012881622445450855 1012830982162318181 1012881622445450855 = 1 := by decide!

set_option maxRecDepth 100000 in
theorem chunk_9 : lvl10 511 1025877888475588326 1025929181087728853 1025877888475588334 1025929181087728853 = 1 := by decide!

set_option maxRecDepth 100000 in
theorem chunk_10 : lvl11 1023 1052478062019768760 1052530684607337941 1052478062019768769 1052530684607337941 = 1 := by decide!

set_option maxRecDepth 100000 in
theorem chunk_11 : lvl12 2047 1107765455151871493 1107820842039991493 1107765455151871504 1107820842039991493 = 1 := by decide!

set_option maxRecDepth 100000 in
theorem chunk_12 : lvl13 4095 1227205659309160709 1227267018058195782 1227205659309160722 1227267018058195782 = 1 := by decide!

set_option maxRecDepth 100000 in
theorem chunk_13 : lvl14 8191 1506109030044495796 1506184333613455851 1506109030044495813 1506184333613455851 = 1 := by decide!

set_option maxRecDepth 100000 in
theorem chunk_14 : lvl15 16383 2268477825766777257 2268591246822610072 2268477825766777284 2268591246822610072 = 1 := by decide!

set_option maxRecDepth 100000 in
theorem chunk_15 : lvl16 32767 5146248939145696830 5146506245160164533 5146248939145696892 5146506245160164533 = 1 := by decide!

set_option maxRecDepth 100000 in
theorem chunk_16 : lvl17 65535 26485202304462200258 26486526531472575563 26485202304462200578 26486526531472575563 = 1 := by decide!

set_option maxRecDepth 100000 in
theorem chunk_17 : lvl18 131071 701501013528556666210 701536087702400664335 701501013528556674687 701536087702400664335 = 1 := by decide!

set_option maxRecDepth 100000 in
theorem chunk_18 : lvl19 262143 492128276550092484304862 492152882348790396620919 492128276550092490251784 492152882348790396620919 = 1 := by decide!

set_option maxRecDepth 100000 in
theorem chunk_19 : lvl20 524287 242202349789470650283453668696 242214459604222321943471435452 242202349789470653210248472101 242214459604222321943471435452 = 1 := by decide!

/-- Guarantee for every tick with exactly 0 trailing one bits. -/
theorem spine_0 : SpecStmt 1 0 1000000000000000000 1000049998750062496 0 1000049998750062496 := by
  have s6_0 : SpecStmt 6 0 1000000000000000000 1000049998750062496 0 1000049998750062496 :=
    lvl_spec_6 _ _ _ _ _ chunk_0_0
  have s6_2 : SpecStmt 6 2 1000100000000000000 1000150003749937502 1000100000000000000 1000150003749937503 :=
    lvl_spec_6 _ _ _ _ _ chunk_0_1
  have s6_4 : SpecStmt 6 4 1000200010000000000 1000250018750312495 1000200010000000000 1000250018750312496 :=
    lvl_spec_6 _ _ _ _ _ chunk_0_2
  have s6_6 : SpecStmt 6 6 1000300030001000000 1000350043752187526 1000300030001000000 1000350043752187528 :=
    lvl_spec_6 _ _ _ _ _ chunk_0_3
  have s6_8 : SpecStmt 6 8 1000400060004000093 1000450078756562739 1000400060004000093 1000450078756562740 :=
    lvl_spec_6 _ _ _ _ _ chunk_0_4
  have s6_10 : SpecStmt 6 10 1000500100010000493 1000550123764438395 1000500100010000494 1000550123764438397 :=
    lvl_spec_6 _ _ _ _ _ chunk_0_5
  have s6_12 : SpecStmt 6 12 1000600150020001493 1000650178776814838 1000600150020001494 1000650178776814840 :=
    lvl_spec_6 _ _ _ _ _ chunk_0_6
  have s6_14 : SpecStmt 6 14 1000700210035003493 1000750243794692519 1000700210035003494 1000750243794692522 :=
    lvl_spec_6 _ _ _ _ _ chunk_0_7
  have s6_16 : SpecStmt 6 16 1000800280056006986 1000850318819071982 1000800280056006986 1000850318819071983 :=
    lvl_spec_6 _ _ _ _ _ chunk_0_8
  have s6_18 : SpecStmt 6 18 1000900360084012586 1000950403850953889 1000900360084012587 1000950403850953891 :=
    lvl_spec_6 _ _ _ _ _ chunk_0_9
  have s6_20 : SpecStmt 6 20 1001000450120020987 1001050498891338983 1001000450120020988 1001050498891338985 :=
    lvl_spec_6 _ _ _ _ _ chunk_0_10
  have s6_22 : SpecStmt 6 22 1001100550165032990 1001150603941228117 1001100550165032991 1001150603941228120 :=
    lvl_spec_6 _ _ _ _ _ chunk_0_11
  have s6_24 : SpecStmt 6 24 1001200660220049486 1001250719001622234 1001200660220049487 1001250719001622236 :=
    lvl_spec_6 _ _ _ _ _ chunk_0_12
  have s6_26 : SpecStmt 6 26 1001300780286071491 1001350844073522396 1001300780286071493 1001350844073522399 :=
    lvl_spec_6 _ _ _ _ _ chunk_0_13
  have s6_28 : SpecStmt 6 28 1001400910364100098 1001450979157929747 1001400910364100100 1001450979157929750 :=
    lvl_spec_6 _ _ _ _ _ chunk_0_14
  have s6_30 : SpecStmt 6 30 1001501050455136508 1001551124255845540 1001501050455136510 1001551124255845544 :=
    lvl_spec_6 _ _ _ _ _ chunk_0_15
  have s6_32 : SpecStmt 6 32 1001601200560182014 1001651279368271118 1001601200560182014 1001651279368271119 :=
    lvl_spec_6 _ _ _ _ _ chunk_0_16
  have s6_34 : SpecStmt 6 34 1001701360680238032 1001751444496207945 1001701360680238033 1001751444496207947 :=
    lvl_spec_6 _ _ _ _ _ chunk_0_17
  have s6_36 : SpecStmt 6 36 1001801530816306056 1001851619640657565 1001801530816306057 1001851619640657567 :=
    lvl_spec_6 _ _ _ _ _ chunk_0_18
  have s6_38 : SpecStmt 6 38 1001901710969387686 1001951804802621630 1001901710969387687 1001951804802621633 :=
    lvl_spec_6 _ _ _ _ _ chunk_0_19
  have s6_40 : SpecStmt 6 40 1002001901140484618 1002051999983101887 1002001901140484619 1002051999983101889 :=
    lvl_spec_6 _ _ _ _ _ chunk_0_20
  have s6_42 : SpecStmt 6 42 1002102101330598666 1002152205183100197 1002102101330598668 1002152205183100200 :=
    lvl_spec_6 _ _ _ _ _ chunk_0_21
  have s6_44 : SpecStmt 6 44 1002202311540731726 1002252420403618506 1002202311540731728 1002252420403618509 :=
    lvl_spec_6 _ _ _ _ _ chunk_0_22
  have s6_46 : SpecStmt 6 46 1002302531771885799 1002352645645658867 1002302531771885801 1002352645645658871 :=
    lvl_spec_6 _ _ _ _ _ chunk_0_23
  have s6_48 : SpecStmt 6 48 1002402762025062980 1002452880910223427 1002402762025062981 1002452880910223429 :=
    lvl_spec_6 _ _ _ _ _ chunk_0_24
  have s6_50 : SpecStmt 6 50 1002503002301265486 1002553126198314449 1002503002301265488 1002553126198314452 :=
    lvl_spec_6 _ _ _ _ _ chunk_0_25
  have s6_52 : SpecStmt 6 52 1002603252601495612 1002653381510934279 1002603252601495614 1002653381510934282 :=
    lvl_spec_6 _ _ _ _ _ chunk_0_26
  have s6_54 : SpecStmt 6 54 1002703512926755763 1002753646849085373 1002703512926755765 1002753646849085377 :=
    lvl_spec_6 _ _ _ _ _ chunk_0_27
  have s6_56 : SpecStmt 6 56 1002803783278048431 1002853922213770275 1002803783278048433 1002853922213770278 :=
    lvl_spec_6 _ _ _ _ _ chunk_0_28
  have s6_58 : SpecStmt 6 58 1002904063656376236 1002954207605991652 1002904063656376239 1002954207605991656 :=
    lvl_spec_6 _ _ _ _ _ chunk_0_29
  have s6_60 : SpecStmt 6 60 1003004354062741873 1003054503026752250 1003004354062741876 1003054503026752254 :=
    lvl_spec_6 _ _ _ _ _ chunk_0_30
  have s6_62 : SpecStmt 6 62 1003104654498148148 1003154808477054925 1003104654498148151 1003154808477054930 :=
    lvl_spec_6 _ _ _ _ _ chunk_0_31
  have s5_0 : SpecStmt 5 0 1000000000000000000 1000049998750062496 0 1000049998750062496 :=
    glueStep dropCons_5 (by omega) s6_0 s6_32
  have s5_2 : SpecStmt 5 2 1000100000000000000 1000150003749937502 1000100000000000000 1000150003749937503 :=
    glueStep dropCons_5 (by omega) s6_2 s6_34
  have s5_4 : SpecStmt 5 4 1000200010000000000 1000250018750312495 1000200010000000000 1000250018750312496 :=
    glueStep dropCons_5 (by omega) s6_4 s6_36
  have s5_6 : SpecStmt 5 6 1000300030001000000 1000350043752187526 1000300030001000000 1000350043752187528 :=
    glueStep dropCons_5 (by omega) s6_6 s6_38
  have s5_8 : SpecStmt 5 8 1000400060004000093 1000450078756562739 1000400060004000093 1000450078756562740 :=
    glueStep dropCons_5 (by omega) s6_8 s6_40
  have s5_10 : SpecStmt 5 10 1000500100010000493 1000550123764438395 1000500100010000494 1000550123764438397 :=
    glueStep dropCons_5 (by omega) s6_10 s6_42
  have s5_12 : SpecStmt 5 12 1000600150020001493 1000650178776814838 1000600150020001494 1000650178776814840 :=
    glueStep dropCons_5 (by omega) s6_12 s6_44
  have s5_14 : SpecStmt 5 14 1000700210035003493 1000750243794692519 1000700210035003494 1000750243794692522 :=
    glueStep dropCons_5 (by omega) s6_14 s6_46
  have s5_16 : SpecStmt 5 16 1000800280056006986 1000850318819071982 1000800280056006986 1000850318819071983 :=
    glueStep dropCons_5 (by omega) s6_16 s6_48
  have s5_18 : SpecStmt 5 18 1000900360084012586 1000950403850953889 1000900360084012587 1000950403850953891 :=
    glueStep dropCons_5 (by omega) s6_18 s6_50
  have s5_20 : SpecStmt 5 20 1001000450120020987 1001050498891338983 1001000450120020988 1001050498891338985 :=
    glueStep dropCons_5 (by omega) s6_20 s6_52
  have s5_22 : SpecStmt 5 22 1001100550165032990 1001150603941228117 1001100550165032991 1001150603941228120 :=
    glueStep dropCons_5 (by omega) s6_22 s6_54
  have s5_24 : SpecStmt 5 24 1001200660220049486 1001250719001622234 1001200660220049487 1001250719001622236 :=
    glueStep dropCons_5 (by omega) s6_24 s6_56
  have s5_26 : SpecStmt 5 26 1001300780286071491 1001350844073522396 1001300780286071493 1001350844073522399 :=
    glueStep dropCons_5 (by omega) s6_26 s6_58
  have s5_28 : SpecStmt 5 28 1001400910364100098 1001450979157929747 1001400910364100100 1001450979157929750 :=
    glueStep dropCons_5 (by omega) s6_28 s6_60
  have s5_30 : SpecStmt 5 30 1001501050455136508 1001551124255845540 1001501050455136510 1001551124255845544 :=
    glueStep dropCons_5 (by omega) s6_30 s6_62
  have s4_0 : SpecStmt 4 0 1000000000000000000 1000049998750062496 0 1000049998750062496 :=
    glueStep dropCons_4 (by omega) s5_0 s5_16
  have s4_2 : SpecStmt 4 2 1000100000000000000 1000150003749937502 1000100000000000000 1000150003749937503 :=
    glueStep dropCons_4 (by omega) s5_2 s5_18
  have s4_4 : SpecStmt 4 4 1000200010000000000 1000250018750312495 1000200010000000000 1000250018750312496 :=
    glueStep dropCons_4 (by omega) s5_4 s5_20
  have s4_6 : SpecStmt 4 6 1000300030001000000 1000350043752187526 1000300030001000000 1000350043752187528 :=
    glueStep dropCons_4 (by omega) s5_6 s5_22
  have s4_8 : SpecStmt 4 8 1000400060004000093 1000450078756562739 1000400060004000093 1000450078756562740 :=
    glueStep dropCons_4 (by omega) s5_8 s5_24
  have s4_10 : SpecStmt 4 10 1000500100010000493 1000550123764438395 1000500100010000494 1000550123764438397 :=
    glueStep dropCons_4 (by omega) s5_10 s5_26
  have s4_12 : SpecStmt 4 12 1000600150020001493 1000650178776814838 1000600150020001494 1000650178776814840 :=
    glueStep dropCons_4 (by omega) s5_12 s5_28
  have s4_14 : SpecStmt 4 14 1000700210035003493 1000750243794692519 1000700210035003494 1000750243794692522 :=
    glueStep dropCons_4 (by omega) s5_14 s5_30
  have s3_0 : SpecStmt 3 0 1000000000000000000 1000049998750062496 0 1000049998750062496 :=
    glueStep dropCons_3 (by omega) s4_0 s4_8
  have s3_2 : SpecStmt 3 2 1000100000000000000 1000150003749937502 1000100000000000000 1000150003749937503 :=
    glueStep dropCons_3 (by omega) s4_2 s4_10
  have s3_4 : SpecStmt 3 4 1000200010000000000 1000250018750312495 1000200010000000000 1000250018750312496 :=
    glueStep dropCons_3 (by omega) s4_4 s4_12
  have s3_6 : SpecStmt 3 6 1000300030001000000 1000350043752187526 1000300030001000000 1000350043752187528 :=
    glueStep dropCons_3 (by omega) s4_6 s4_14
  have s2_0 : SpecStmt 2 0 1000000000000000000 1000049998750062496 0 1000049998750062496 :=
    glueStep dropCons_2 (by omega) s3_0 s3_4
  have s2_2 : SpecStmt 2 2 1000100000000000000 1000150003749937502 1000100000000000000 1000150003749937503 :=
    glueStep dropCons_2 (by omega) s3_2 s3_6
  have s1_0 : SpecStmt 1 0 1000000000000000000 1000049998750062496 0 1000049998750062496 :=
    glueStep dropCons_1 (by omega) s2_0 s2_2
  exact s1_0

/-- Guarantee for every tick with exactly 1 trailing one bits. -/
theorem spine_1 : SpecStmt 2 1 1000049998750062496 1000100000000000000 1000049998750062496 1000100000000000000 := by
  have s6_1 : SpecStmt 6 1 1000049998750062496 1000100000000000000 1000049998750062496 1000100000000000000 :=
    lvl_spec_6 _ _ _ _ _ chunk_1_0
  have s6_5 : SpecStmt 6 5 1000250018750312495 1000300030001000000 1000250018750312496 1000300030001000000 :=
    lvl_spec_6 _ _ _ _ _ chunk_1_1
  have s6_9 : SpecStmt 6 9 1000450078756562739 1000500100010000493 1000450078756562740 1000500100010000494 :=
    lvl_spec_6 _ _ _ _ _ chunk_1_2
  have s6_13 : SpecStmt 6 13 1000650178776814838 1000700210035003493 1000650178776814840 1000700210035003494 :=
    lvl_spec_6 _ _ _ _ _ chunk_1_3
  have s6_17 : SpecStmt 6 17 1000850318819071982 1000900360084012586 1000850318819071983 1000900360084012587 :=
    lvl_spec_6 _ _ _ _ _ chunk_1_4
  have s6_21 : SpecStmt 6 21 1001050498891338983 1001100550165032990 1001050498891338985 1001100550165032991 :=
    lvl_spec_6 _ _ _ _ _ chunk_1_5
  have s6_25 : SpecStmt 6 25 1001250719001622234 1001300780286071491 1001250719001622236 1001300780286071493 :=
    lvl_spec_6 _ _ _ _ _ chunk_1_6
  have s6_29 : SpecStmt 6 29 1001450979157929747 1001501050455136508 1001450979157929750 1001501050455136510 :=
    lvl_spec_6 _ _ _ _ _ chunk_1_7
  have s6_33 : SpecStmt 6 33 1001651279368271118 1001701360680238032 1001651279368271119 1001701360680238033 :=
    lvl_spec_6 _ _ _ _ _ chunk_1_8
  have s6_37 : SpecStmt 6 37 1001851619640657565 1001901710969387686 1001851619640657567 1001901710969387687 :=
    lvl_spec_6 _ _ _ _ _ chunk_1_9
  have s6_41 : SpecStmt 6 41 1002051999983101887 1002102101330598666 1002051999983101889 1002102101330598668 :=
    lvl_spec_6 _ _ _ _ _ chunk_1_10
  have s6_45 : SpecStmt 6 45 1002252420403618506 1002302531771885799 1002252420403618509 1002302531771885801 :=
    lvl_spec_6 _ _ _ _ _ chunk_1_11
  have s6_49 : SpecStmt 6 49 1002452880910223427 1002503002301265486 1002452880910223429 1002503002301265488 :=
    lvl_spec_6 _ _ _ _ _ chunk_1_12
  have s6_53 : SpecStmt 6 53 1002653381510934279 1002703512926755763 1002653381510934282 1002703512926755765 :=
    lvl_spec_6 _ _ _ _ _ chunk_1_13
  have s6_57 : SpecStmt 6 57 1002853922213770275 1002904063656376236 1002853922213770278 1002904063656376239 :=
    lvl_spec_6 _ _ _ _ _ chunk_1_14
  have s6_61 : SpecStmt 6 61 1003054503026752250 1003104654498148148 1003054503026752254 1003104654498148151 :=
    lvl_spec_6 _ _ _ _ _ chunk_1_15
  have s5_1 : SpecStmt 5 1 1000049998750062496 1000100000000000000 1000049998750062496 1000100000000000000 :=
    glueStep dropCons_5 (by omega) s6_1 s6_33
  have s5_5 : SpecStmt 5 5 1000250018750312495 1000300030001000000 1000250018750312496 1000300030001000000 :=
    glueStep dropCons_5 (by omega) s6_5 s6_37
  have s5_9 : SpecStmt 5 9 1000450078756562739 1000500100010000493 1000450078756562740 1000500100010000494 :=
    glueStep dropCons_5 (by omega) s6_9 s6_41
  have s5_13 : SpecStmt 5 13 1000650178776814838 1000700210035003493 1000650178776814840 1000700210035003494 :=
    glueStep dropCons_5 (by omega) s6_13 s6_45
  have s5_17 : SpecStmt 5 17 1000850318819071982 1000900360084012586 1000850318819071983 1000900360084012587 :=
    glueStep dropCons_5 (by omega) s6_17 s6_49
  have s5_21 : SpecStmt 5 21 1001050498891338983 1001100550165032990 1001050498891338985 1001100550165032991 :=
    glueStep dropCons_5 (by omega) s6_21 s6_53
  have s5_25 : SpecStmt 5 25 1001250719001622234 1001300780286071491 1001250719001622236 1001300780286071493 :=
    glueStep dropCons_5 (by omega) s6_25 s6_57
  have s5_29 : SpecStmt 5 29 1001450979157929747 1001501050455136508 1001450979157929750 1001501050455136510 :=
    glueStep dropCons_5 (by omega) s6_29 s6_61
  have s4_1 : SpecStmt 4 1 1000049998750062496 1000100000000000000 1000049998750062496 1000100000000000000 :=
    glueStep dropCons_4 (by omega) s5_1 s5_17
  have s4_5 : SpecStmt 4 5 1000250018750312495 1000300030001000000 1000250018750312496 1000300030001000000 :=
    glueStep dropCons_4 (by omega) s5_5 s5_21
  have s4_9 : SpecStmt 4 9 1000450078756562739 1000500100010000493 1000450078756562740 1000500100010000494 :=
    glueStep dropCons_4 (by omega) s5_9 s5_25
  have s4_13 : SpecStmt 4 13 1000650178776814838 1000700210035003493 1000650178776814840 1000700210035003494 :=
    glueStep dropCons_4 (by omega) s5_13 s5_29
  have s3_1 : SpecStmt 3 1 1000049998750062496 1000100000000000000 1000049998750062496 1000100000000000000 :=
    glueStep dropCons_3 (by omega) s4_1 s4_9
  have s3_5 : SpecStmt 3 5 1000250018750312495 1000300030001000000 1000250018750312496 1000300030001000000 :=
    glueStep dropCons_3 (by omega) s4_5 s4_13
  have s2_1 : SpecStmt 2 1 1000049998750062496 1000100000000000000 1000049998750062496 1000100000000000000 :=
    glueStep dropCons_2 (by omega) s3_1 s3_5
  exact s2_1

/-- Guarantee for every tick with exactly 2 trailing one bits. -/
theorem spine_2 : SpecStmt 3 3 1000150003749937502 1000200010000000000 1000150003749937503 1000200010000000000 := by
  have s6_3 : SpecStmt 6 3 1000150003749937502 1000200010000000000 1000150003749937503 1000200010000000000 :=
    lvl_spec_6 _ _ _ _ _ chunk_2_0
  have s6_11 : SpecStmt 6 11 1000550123764438395 1000600150020001493 1000550123764438397 1000600150020001494 :=
    lvl_spec_6 _ _ _ _ _ chunk_2_1
  have s6_19 : SpecStmt 6 19 1000950403850953889 1001000450120020987 1000950403850953891 1001000450120020988 :=
    lvl_spec_6 _ _ _ _ _ chunk_2_2
  have s6_27 : SpecStmt 6 27 1001350844073522396 1001400910364100098 1001350844073522399 1001400910364100100 :=
    lvl_spec_6 _ _ _ _ _ chunk_2_3
  have s6_35 : SpecStmt 6 35 1001751444496207945 1001801530816306056 1001751444496207947 1001801530816306057 :=
    lvl_spec_6 _ _ _ _ _ chunk_2_4
  have s6_43 : SpecStmt 6 43 1002152205183100197 1002202311540731726 1002152205183100200 1002202311540731728 :=
    lvl_spec_6 _ _ _ _ _ chunk_2_5
  have s6_51 : SpecStmt 6 51 1002553126198314449 1002603252601495612 1002553126198314452 1002603252601495614 :=
    lvl_spec_6 _ _ _ _ _ chunk_2_6
  have s6_59 : SpecStmt 6 59 1002954207605991652 1003004354062741873 1002954207605991656 1003004354062741876 :=
    lvl_spec_6 _ _ _ _ _ chunk_2_7
  have s5_3 : SpecStmt 5 3 1000150003749937502 1000200010000000000 1000150003749937503 1000200010000000000 :=
    glueStep dropCons_5 (by omega) s6_3 s6_35
  have s5_11 : SpecStmt 5 11 1000550123764438395 1000600150020001493 1000550123764438397 1000600150020001494 :=
    glueStep dropCons_5 (by omega) s6_11 s6_43
  have s5_19 : SpecStmt 5 19 1000950403850953889 1001000450120020987 1000950403850953891 1001000450120020988 :=
    glueStep dropCons_5 (by omega) s6_19 s6_51
  have s5_27 : SpecStmt 5 27 1001350844073522396 1001400910364100098 1001350844073522399 1001400910364100100 :=
    glueStep dropCons_5 (by omega) s6_27 s6_59
  have s4_3 : SpecStmt 4 3 1000150003749937502 1000200010000000000 1000150003749937503 1000200010000000000 :=
    glueStep dropCons_4 (by omega) s5_3 s5_19
  have s4_11 : SpecStmt 4 11 1000550123764438395 1000600150020001493 1000550123764438397 1000600150020001494 :=
    glueStep dropCons_4 (by omega) s5_11 s5_27
  have s3_3 : SpecStmt 3 3 1000150003749937502 1000200010000000000 1000150003749937503 1000200010000000000 :=
    glueStep dropCons_3 (by omega) s4_3 s4_11
  exact s3_3

/-- Guarantee for every tick with exactly 3 trailing one bits. -/
theorem spine_3 : SpecStmt 4 7 1000350043752187526 1000400060004000093 1000350043752187528 1000400060004000093 := by
  have s6_7 : SpecStmt 6 7 1000350043752187526 1000400060004000093 1000350043752187528 1000400060004000093 :=
    lvl_spec_6 _ _ _ _ _ chunk_3_0
  have s6_23 : SpecStmt 6 23 1001150603941228117 1001200660220049486 1001150603941228120 1001200660220049487 :=
    lvl_spec_6 _ _ _ _ _ chunk_3_1
  have s6_39 : SpecStmt 6 39 1001951804802621630 1002001901140484618 1001951804802621633 1002001901140484619 :=
    lvl_spec_6 _ _ _ _ _ chunk_3_2
  have s6_55 : SpecStmt 6 55 1002753646849085373 1002803783278048431 1002753646849085377 1002803783278048433 :=
    lvl_spec_6 _ _ _ _ _ chunk_3_3
  have s5_7 : SpecStmt 5 7 1000350043752187526 1000400060004000093 1000350043752187528 1000400060004000093 :=
    glueStep dropCons_5 (by omega) s6_7 s6_39
  have s5_23 : SpecStmt 5 23 1001150603941228117 1001200660220049486 1001150603941228120 1001200660220049487 :=
    glueStep dropCons_5 (by omega) s6_23 s6_55
  have s4_7 : SpecStmt 4 7 1000350043752187526 1000400060004000093 1000350043752187528 1000400060004000093 :=
    glueStep dropCons_4 (by omega) s5_7 s5_23
  exact s4_7

/-- Guarantee for every tick with exactly 4 trailing one bits. -/
theorem spine_4 : SpecStmt 5 15 1000750243794692519 1000800280056006986 1000750243794692522 1000800280056006986 := by
  have s6_15 : SpecStmt 6 15 1000750243794692519 1000800280056006986 1000750243794692522 1000800280056006986 :=
    lvl_spec_6 _ _ _ _ _ chunk_4_0
  have s6_47 : SpecStmt 6 47 1002352645645658867 1002402762025062980 1002352645645658871 1002402762025062981 :=
    lvl_spec_6 _ _ _ _ _ chunk_4_1
  have s5_15 : SpecStmt 5 15 1000750243794692519 1000800280056006986 1000750243794692522 1000800280056006986 :=
    glueStep dropCons_5 (by omega) s6_15 s6_47
  exact s5_15

/-- Guarantee for every tick with exactly 5 trailing one bits. -/
theorem spine_5 : SpecStmt 6 31 1001551124255845540 1001601200560182014 1001551124255845544 1001601200560182014 :=
  lvl_spec_6 _ _ _ _ _ chunk_5

/-- Guarantee for every tick with exactly 6 trailing one bits. -/
theorem spine_6 : SpecStmt 7 63 1003154808477054925 1003204964963597955 1003154808477054930 1003204964963597955 :=
  lvl_spec_7 _ _ _ _ _ chunk_6

/-- Guarantee for every tick with exactly 7 trailing one bits. -/
theorem spine_7 : SpecStmt 8 127 1006369884491288702 1006420201727613800 1006369884491288708 1006420201727613800 :=
  lvl_spec_8 _ _ _ _ _ chunk_7

/-- Guarantee for every tick with exactly 8 trailing one bits. -/
theorem spine_8 : SpecStmt 9 255 1012830982162318174 1012881622445450855 1012830982162318181 1012881622445450855 :=
  lvl_spec_9 _ _ _ _ _ chunk_8

/-- Guarantee for every tick with exactly 9 trailing one bits. -/
theorem spine_9 : SpecStmt 10 511 1025877888475588326 1025929181087728853 1025877888475588334 1025929181087728853 :=
  lvl_spec_10 _ _ _ _ _ chunk_9

/-- Guarantee for every tick with exactly 10 trailing one bits. -/
theorem spine_10 : SpecStmt 11 1023 1052478062019768760 1052530684607337941 1052478062019768769 1052530684607337941 :=
  lvl_spec_11 _ _ _ _ _ chunk_10

/-- Guarantee for every tick with exactly 11 trailing one bits. -/
theorem spine_11 : SpecStmt 12 2047 1107765455151871493 1107820842039991493 1107765455151871504 1107820842039991493 :=
  lvl_spec_12 _ _ _ _ _ chunk_11

/-- Guarantee for every tick with exactly 12 trailing one bits. -/
theorem spine_12 : SpecStmt 13 4095 1227205659309160709 1227267018058195782 1227205659309160722 1227267018058195782 :=
  lvl_spec_13 _ _ _ _ _ chunk_12

/-- Guarantee for every tick with exactly 13 trailing one bits. -/
theorem spine_13 : SpecStmt 14 8191 1506109030044495796 1506184333613455851 1506109030044495813 1506184333613455851 :=
  lvl_spec_14 _ _ _ _ _ chunk_13

/-- Guarantee for every tick with exactly 14 trailing one bits. -/
theorem spine_14 : SpecStmt 15 16383 2268477825766777257 2268591246822610072 2268477825766777284 2268591246822610072 :=
  lvl_spec_15 _ _ _ _ _ chunk_14

/-- Guarantee for every tick with exactly 15 trailing one bits. -/
theorem spine_15 : SpecStmt 16 32767 5146248939145696830 5146506245160164533 5146248939145696892 5146506245160164533 :=
  lvl_spec_16 _ _ _ _ _ chunk_15

/-- Guarantee for every tick with exactly 16 trailing one bits. -/
theorem spine_16 : SpecStmt 17 65535 26485202304462200258 26486526531472575563 26485202304462200578 26486526531472575563 :=
  lvl_spec_17 _ _ _ _ _ chunk_16

/-- Guarantee for every tick with exactly 17 trailing one bits. -/
theorem spine_17 : SpecStmt 18 131071 701501013528556666210 701536087702400664335 701501013528556674687 701536087702400664335 :=
  lvl_spec_18 _ _ _ _ _ chunk_17

/-- Guarantee for every tick with exactly 18 trailing one bits. -/
theorem spine_18 : SpecStmt 19 262143 492128276550092484304862 492152882348790396620919 492128276550092490251784 492152882348790396620919 :=
  lvl_spec_19 _ _ _ _ _ chunk_18

/-- Guarantee for every tick with exactly 19 trailing one bits. -/
theorem spine_19 : SpecStmt 20 524287 242202349789470650283453668696 242214459604222321943471435452 242202349789470653210248472101 242214459604222321943471435452 :=
  lvl_spec_20 _ _ _ _ _ chunk_19

/-- Every tick below the all-ones pattern decomposes uniquely by its count
of trailing one bits. -/
theorem trailing_ones : ∀ (n u : Nat), u < 2 ^ n - 1 →
    ∃ k, k < n ∧ ∃ m, m < 2 ^ (n - 1 - k) ∧ u = (2 ^ k - 1) + 2 ^ (k + 1) * m := by
  intro n
  induction n with
  | zero => intro u hu; norm_num at hu
  | succ n ih =>
    intro u hu
    have hpow : (2 : Nat) ^ (n + 1) = 2 * 2 ^ n := by rw [pow_succ]; ring
    rcases Nat.even_or_odd u with he | ho
    · obtain ⟨r, hr⟩ := he
      refine ⟨0, by omega, u / 2, ?_, ?_⟩
      · have h1 : n + 1 - 1 - 0 = n := by omega
        rw [h1]
        omega
      · norm_num
        omega
    · obtain ⟨v, hv⟩ := ho
      have hvlt : v < 2 ^ n - 1 := by omega
      obtain ⟨k, hk, m, hm, hme⟩ := ih v hvlt
      have hp1 : (2 : Nat) ^ (k + 1) = 2 * 2 ^ k := by rw [pow_succ]; ring
      have hp2 : (2 : Nat) ^ (k + 1 + 1) = 2 * 2 ^ (k + 1) := by rw [pow_succ]; ring
      have hk1 : (1 : Nat) ≤ 2 ^ k := Nat.one_le_two_pow
      have hmm2 : 2 ^ (k + 1 + 1) * m = 2 * (2 ^ (k + 1) * m) := by
        rw [hp2]; ring
      refine ⟨k + 1, by omega, m, ?_, ?_⟩
      · have h1 : n + 1 - 1 - (k + 1) = n - 1 - k := by omega
        rw [h1]
        exact hm
      · omega

/-- The master sweep: the six leaf facts hold for every tick `u` below the
all-ones 20-bit pattern. -/
theorem leaf_master (u : Nat) (hu : u < 1048575) :
    leafFacts u (chainP constsAsc u one) (chainP constsAsc (u + 1) one)
      (chainT constsAsc u 0) (chainT constsAsc (u + 1) 0) := by
  obtain ⟨k, hk, m, hm, he⟩ := trailing_ones 20 u (by norm_num; omega)
  interval_cases k
  · norm_num at hm he
    have h1 : u % 2 = 0 := by omega
    have h2 : u / 2 = m := by omega
    have h3 : (u + 1) % 2 = 1 := by omega
    have h4 : (u + 1) / 2 = m := by omega
    have i1 : chainP (constsAsc.take 1) u one = 1000000000000000000 := by
      rw [← chainP_mod, show (2 : Nat) ^ (constsAsc.take 1).length = 2 from rfl, h1]
      all_goals rfl
    have i2 : chainP (constsAsc.take 1) (u + 1) one = 1000049998750062496 := by
      rw [← chainP_mod, show (2 : Nat) ^ (constsAsc.take 1).length = 2 from rfl, h3]
      all_goals rfl
    have i3 : chainT (constsAsc.take 1) u 0 = 0 := by
      rw [← chainT_mod, show (2 : Nat) ^ (constsAsc.take 1).length = 2 from rfl, h1]
      all_goals rfl
    have i4 : chainT (constsAsc.take 1) (u + 1) 0 = 1000049998750062496 := by
      rw [← chainT_mod, show (2 : Nat) ^ (constsAsc.take 1).length = 2 from rfl, h3]
      all_goals rfl
    have e1 : chainP constsAsc u one = chainP (constsAsc.drop 1) m 1000000000000000000 := by
      conv_lhs => rw [show constsAsc = constsAsc.take 1 ++ constsAsc.drop 1 from rfl,
        chainP_append]
      rw [i1, show (2 : Nat) ^ (constsAsc.take 1).length = 2 from rfl, h2]
    have e2 : chainP constsAsc (u + 1) one = chainP (constsAsc.drop 1) m 1000049998750062496 := by
      conv_lhs => rw [show constsAsc = constsAsc.take 1 ++ constsAsc.drop 1 from rfl,
        chainP_append]
      rw [i2, show (2 : Nat) ^ (constsAsc.take 1).length = 2 from rfl, h4]
    have e3 : chainT constsAsc u 0 = chainT (constsAsc.drop 1) m 0 := by
      conv_lhs => rw [show constsAsc = constsAsc.take 1 ++ constsAsc.drop 1 from rfl,
        chainT_append]
      rw [i3, show (2 : Nat) ^ (constsAsc.take 1).length = 2 from rfl, h2]
    have e4 : chainT constsAsc (u + 1) 0 = chainT (constsAsc.drop 1) m 1000049998750062496 := by
      conv_lhs => rw [show constsAsc = constsAsc.take 1 ++ constsAsc.drop 1 from rfl,
        chainT_append]
      rw [i4, show (2 : Nat) ^ (constsAsc.take 1).length = 2 from rfl, h4]
    rw [e1, e2, e3, e4, show u = 0 + 2 * m from by omega]
    exact spine_0 m (by norm_num; omega)
  · norm_num at hm he
    have h1 : u % 4 = 1 := by omega
    have h2 : u / 4 = m := by omega
    have h3 : (u + 1) % 4 = 2 := by omega
    have h4 : (u + 1) / 4 = m := by omega
    have i1 : chainP (constsAsc.take 2) u one = 1000049998750062496 := by
      rw [← chainP_mod, show (2 : Nat) ^ (constsAsc.take 2).length = 4 from rfl, h1]
      all_goals rfl
    have i2 : chainP (constsAsc.take 2) (u + 1) one = 1000100000000000000 := by
      rw [← chainP_mod, show (2 : Nat) ^ (constsAsc.take 2).length = 4 from rfl, h3]
      all_goals rfl
    have i3 : chainT (constsAsc.take 2) u 0 = 1000049998750062496 := by
      rw [← chainT_mod, show (2 : Nat) ^ (constsAsc.take 2).length = 4 from rfl, h1]
      all_goals rfl
    have i4 : chainT (constsAsc.take 2) (u + 1) 0 = 1000100000000000000 := by
      rw [← chainT_mod, show (2 : Nat) ^ (constsAsc.take 2).length = 4 from rfl, h3]
      all_goals rfl
    have e1 : chainP constsAsc u one = chainP (constsAsc.drop 2) m 1000049998750062496 := by
      conv_lhs => rw [show constsAsc = constsAsc.take 2 ++ constsAsc.drop 2 from rfl,
        chainP_append]
      rw [i1, show (2 : Nat) ^ (constsAsc.take 2).length = 4 from rfl, h2]
    have e2 : chainP constsAsc (u + 1) one = chainP (constsAsc.drop 2) m 1000100000000000000 := by
      conv_lhs => rw [show constsAsc = constsAsc.take 2 ++ constsAsc.drop 2 from rfl,
        chainP_append]
      rw [i2, show (2 : Nat) ^ (constsAsc.take 2).length = 4 from rfl, h4]
    have e3 : chainT constsAsc u 0 = chainT (constsAsc.drop 2) m 1000049998750062496 := by
      conv_lhs => rw [show constsAsc = constsAsc.take 2 ++ constsAsc.drop 2 from rfl,
        chainT_append]
      rw [i3, show (2 : Nat) ^ (constsAsc.take 2).length = 4 from rfl, h2]
    have e4 : chainT constsAsc (u + 1) 0 = chainT (constsAsc.drop 2) m 1000100000000000000 := by
      conv_lhs => rw [show constsAsc = constsAsc.take 2 ++ constsAsc.drop 2 from rfl,
        chainT_append]
      rw [i4, show (2 : Nat) ^ (constsAsc.take 2).length = 4 from rfl, h4]
    rw [e1, e2, e3, e4, show u = 1 + 4 * m from by omega]
    exact spine_1 m (by norm_num; omega)
  · norm_num at hm he
    have h1 : u % 8 = 3 := by omega
    have h2 : u / 8 = m := by omega
    have h3 : (u + 1) % 8 = 4 := by omega
    have h4 : (u + 1) / 8 = m := by omega
    have i1 : chainP (constsAsc.take 3) u one = 1000150003749937502 := by
      rw [← chainP_mod, show (2 : Nat) ^ (constsAsc.take 3).length = 8 from rfl, h1]
      all_goals rfl
    have i2 : chainP (constsAsc.take 3) (u + 1) one = 1000200010000000000 := by
      rw [← chainP_mod, show (2 : Nat) ^ (constsAsc.take 3).length = 8 from rfl, h3]
      all_goals rfl
    have i3 : chainT (constsAsc.take 3) u 0 = 1000150003749937503 := by
      rw [← chainT_mod, show (2 : Nat) ^ (constsAsc.take 3).length = 8 from rfl, h1]
      all_goals rfl
    have i4 : chainT (constsAsc.take 3) (u + 1) 0 = 1000200010000000000 := by
      rw [← chainT_mod, show (2 : Nat) ^ (constsAsc.take 3).length = 8 from rfl, h3]
      all_goals rfl
    have e1 : chainP constsAsc u one = chainP (constsAsc.drop 3) m 1000150003749937502 := by
      conv_lhs => rw [show constsAsc = constsAsc.take 3 ++ constsAsc.drop 3 from rfl,
        chainP_append]
      rw [i1, show (2 : Nat) ^ (constsAsc.take 3).length = 8 from rfl, h2]
    have e2 : chainP constsAsc (u + 1) one = chainP (constsAsc.drop 3) m 1000200010000000000 := by
      conv_lhs => rw [show constsAsc = constsAsc.take 3 ++ constsAsc.drop 3 from rfl,
        chainP_append]
      rw [i2, show (2 : Nat) ^ (constsAsc.take 3).length = 8 from rfl, h4]
    have e3 : chainT constsAsc u 0 = chainT (constsAsc.drop 3) m 1000150003749937503 := by
      conv_lhs => rw [show constsAsc = constsAsc.take 3 ++ constsAsc.drop 3 from rfl,
        chainT_append]
      rw [i3, show (2 : Nat) ^ (constsAsc.take 3).length = 8 from rfl, h2]
    have e4 : chainT constsAsc (u + 1) 0 = chainT (constsAsc.drop 3) m 1000200010000000000 := by
      conv_lhs => rw [show constsAsc = constsAsc.take 3 ++ constsAsc.drop 3 from rfl,
        chainT_append]
      rw [i4, show (2 : Nat) ^ (constsAsc.take 3).length = 8 from rfl, h4]
    rw [e1, e2, e3, e4, show u = 3 + 8 * m from by omega]
    exact spine_2 m (by norm_num; omega)
  · norm_num at hm he
    have h1 : u % 16 = 7 := by omega
    have h2 : u / 16 = m := by omega
    have h3 : (u + 1) % 16 = 8 := by omega
    have h4 : (u + 1) / 16 = m := by omega
    have i1 : chainP (constsAsc.take 4) u one = 1000350043752187526 := by
      rw [← chainP_mod, show (2 : Nat) ^ (constsAsc.take 4).length = 16 from rfl, h1]
      all_goals rfl
    have i2 : chainP (constsAsc.take 4) (u + 1) one = 1000400060004000093 := by
      rw [← chainP_mod, show (2 : Nat) ^ (constsAsc.take 4).length = 16 from rfl, h3]
      all_goals rfl
    have i3 : chainT (constsAsc.take 4) u 0 = 1000350043752187528 := by
      rw [← chainT_mod, show (2 : Nat) ^ (constsAsc.take 4).length = 16 from rfl, h1]
      all_goals rfl
    have i4 : chainT (constsAsc.take 4) (u + 1) 0 = 1000400060004000093 := by
      rw [← chainT_mod, show (2 : Nat) ^ (constsAsc.take 4).length = 16 from rfl, h3]
      all_goals rfl
    have e1 : chainP constsAsc u one = chainP (constsAsc.drop 4) m 1000350043752187526 := by
      conv_lhs => rw [show constsAsc = constsAsc.take 4 ++ constsAsc.drop 4 from rfl,
        chainP_append]
      rw [i1, show (2 : Nat) ^ (constsAsc.take 4).length = 16 from rfl, h2]
    have e2 : chainP constsAsc (u + 1) one = chainP (constsAsc.drop 4) m 1000400060004000093 := by
      conv_lhs => rw [show constsAsc = constsAsc.take 4 ++ constsAsc.drop 4 from rfl,
        chainP_append]
      rw [i2, show (2 : Nat) ^ (constsAsc.take 4).length = 16 from rfl, h4]
    have e3 : chainT constsAsc u 0 = chainT (constsAsc.drop 4) m 1000350043752187528 := by
      conv_lhs => rw [show constsAsc = constsAsc.take 4 ++ constsAsc.drop 4 from rfl,
        chainT_append]
      rw [i3, show (2 : Nat) ^ (constsAsc.take 4).length = 16 from rfl, h2]
    have e4 : chainT constsAsc (u + 1) 0 = chainT (constsAsc.drop 4) m 1000400060004000093 := by
      conv_lhs => rw [show constsAsc = constsAsc.take 4 ++ constsAsc.drop 4 from rfl,
        chainT_append]
      rw [i4, show (2 : Nat) ^ (constsAsc.take 4).length = 16 from rfl, h4]
    rw [e1, e2, e3, e4, show u = 7 + 16 * m from by omega]
    exact spine_3 m (by norm_num; omega)
  · norm_num at hm he
    have h1 : u % 32 = 15 := by omega
    have h2 : u / 32 = m := by omega
    have h3 : (u + 1) % 32 = 16 := by omega
    have h4 : (u + 1) / 32 = m := by omega
    have i1 : chainP (constsAsc.take 5) u one = 1000750243794692519 := by
      rw [← chainP_mod, show (2 : Nat) ^ (constsAsc.take 5).length = 32 from rfl, h1]
      all_goals rfl
    have i2 : chainP (constsAsc.take 5) (u + 1) one = 1000800280056006986 := by
      rw [← chainP_mod, show (2 : Nat) ^ (constsAsc.take 5).length = 32 from rfl, h3]
      all_goals rfl
    have i3 : chainT (constsAsc.take 5) u 0 = 1000750243794692522 := by
      rw [← chainT_mod, show (2 : Nat) ^ (constsAsc.take 5).length = 32 from rfl, h1]
      all_goals rfl
    have i4 : chainT (constsAsc.take 5) (u + 1) 0 = 1000800280056006986 := by
      rw [← chainT_mod, show (2 : Nat) ^ (constsAsc.take 5).length = 32 from rfl, h3]
      all_goals rfl
    have e1 : chainP constsAsc u one = chainP (constsAsc.drop 5) m 1000750243794692519 := by
      conv_lhs => rw [show constsAsc = constsAsc.take 5 ++ constsAsc.drop 5 from rfl,
        chainP_append]
      rw [i1, show (2 : Nat) ^ (constsAsc.take 5).length = 32 from rfl, h2]
    have e2 : chainP constsAsc (u + 1) one = chainP (constsAsc.drop 5) m 1000800280056006986 := by
      conv_lhs => rw [show constsAsc = constsAsc.take 5 ++ constsAsc.drop 5 from rfl,
        chainP_append]
      rw [i2, show (2 : Nat) ^ (constsAsc.take 5).length = 32 from rfl, h4]
    have e3 : chainT constsAsc u 0 = chainT (constsAsc.drop 5) m 1000750243794692522 := by
      conv_lhs => rw [show constsAsc = constsAsc.take 5 ++ constsAsc.drop 5 from rfl,
        chainT_append]
      rw [i3, show (2 : Nat) ^ (constsAsc.take 5).length = 32 from rfl, h2]
    have e4 : chainT constsAsc (u + 1) 0 = chainT (constsAsc.drop 5) m 1000800280056006986 := by
      conv_lhs => rw [show constsAsc = constsAsc.take 5 ++ constsAsc.drop 5 from rfl,
        chainT_append]
      rw [i4, show (2 : Nat) ^ (constsAsc.take 5).length = 32 from rfl, h4]
    rw [e1, e2, e3, e4, show u = 15 + 32 * m from by omega]
    exact spine_4 m (by norm_num; omega)
  · norm_num at hm he
    have h1 : u % 64 = 31 := by omega
    have h2 : u / 64 = m := by omega
    have h3 : (u + 1) % 64 = 32 := by omega
    have h4 : (u + 1) / 64 = m := by omega
    have i1 : chainP (constsAsc.take 6) u one = 1001551124255845540 := by
      rw [← chainP_mod, show (2 : Nat) ^ (constsAsc.take 6).length = 64 from rfl, h1]
      all_goals rfl
    have i2 : chainP (constsAsc.take 6) (u + 1) one = 1001601200560182014 := by
      rw [← chainP_mod, show (2 : Nat) ^ (constsAsc.take 6).length = 64 from rfl, h3]
      all_goals rfl
    have i3 : chainT (constsAsc.take 6) u 0 = 1001551124255845544 := by
      rw [← chainT_mod, show (2 : Nat) ^ (constsAsc.take 6).length = 64 from rfl, h1]
      all_goals rfl
    have i4 : chainT (constsAsc.take 6) (u + 1) 0 = 1001601200560182014 := by
      rw [← chainT_mod, show (2 : Nat) ^ (constsAsc.take 6).length = 64 from rfl, h3]
      all_goals rfl
    have e1 : chainP constsAsc u one = chainP (constsAsc.drop 6) m 1001551124255845540 := by
      conv_lhs => rw [show constsAsc = constsAsc.take 6 ++ constsAsc.drop 6 from rfl,
        chainP_append]
      rw [i1, show (2 : Nat) ^ (constsAsc.take 6).length = 64 from rfl, h2]
    have e2 : chainP constsAsc (u + 1) one = chainP (constsAsc.drop 6) m 1001601200560182014 := by
      conv_lhs => rw [show constsAsc = constsAsc.take 6 ++ constsAsc.drop 6 from rfl,
        chainP_append]
      rw [i2, show (2 : Nat) ^ (constsAsc.take 6).length = 64 from rfl, h4]
    have e3 : chainT constsAsc u 0 = chainT (constsAsc.drop 6) m 1001551124255845544 := by
      conv_lhs => rw [show constsAsc = constsAsc.take 6 ++ constsAsc.drop 6 from rfl,
        chainT_append]
      rw [i3, show (2 : Nat) ^ (constsAsc.take 6).length = 64 from rfl, h2]
    have e4 : chainT constsAsc (u + 1) 0 = chainT (constsAsc.drop 6) m 1001601200560182014 := by
      conv_lhs => rw [show constsAsc = constsAsc.take 6 ++ constsAsc.drop 6 from rfl,
        chainT_append]
      rw [i4, show (2 : Nat) ^ (constsAsc.take 6).length = 64 from rfl, h4]
    rw [e1, e2, e3, e4, show u = 31 + 64 * m from by omega]
    exact spine_5 m (by norm_num; omega)
  · norm_num at hm he
    have h1 : u % 128 = 63 := by omega
    have h2 : u / 128 = m := by omega
    have h3 : (u + 1) % 128 = 64 := by omega
    have h4 : (u + 1) / 128 = m := by omega
    have i1 : chainP (constsAsc.take 7) u one = 1003154808477054925 := by
      rw [← chainP_mod, show (2 : Nat) ^ (constsAsc.take 7).length = 128 from rfl, h1]
      all_goals rfl
    have i2 : chainP (constsAsc.take 7) (u + 1) one = 1003204964963597955 := by
      rw [← chainP_mod, show (2 : Nat) ^ (constsAsc.take 7).length = 128 from rfl, h3]
      all_goals rfl
    have i3 : chainT (constsAsc.take 7) u 0 = 1003154808477054930 := by
      rw [← chainT_mod, show (2 : Nat) ^ (constsAsc.take 7).length = 128 from rfl, h1]
      all_goals rfl
    have i4 : chainT (constsAsc.take 7) (u + 1) 0 = 1003204964963597955 := by
      rw [← chainT_mod, show (2 : Nat) ^ (constsAsc.take 7).length = 128 from rfl, h3]
      all_goals rfl
    have e1 : chainP constsAsc u one = chainP (constsAsc.drop 7) m 1003154808477054925 := by
      conv_lhs => rw [show constsAsc = constsAsc.take 7 ++ constsAsc.drop 7 from rfl,
        chainP_append]
      rw [i1, show (2 : Nat) ^ (constsAsc.take 7).length = 128 from rfl, h2]
    have e2 : chainP constsAsc (u + 1) one = chainP (constsAsc.drop 7) m 1003204964963597955 := by
      conv_lhs => rw [show constsAsc = constsAsc.take 7 ++ constsAsc.drop 7 from rfl,
        chainP_append]
      rw [i2, show (2 : Nat) ^ (constsAsc.take 7).length = 128 from rfl, h4]
    have e3 : chainT constsAsc u 0 = chainT (constsAsc.drop 7) m 1003154808477054930 := by
      conv_lhs => rw [show constsAsc = constsAsc.take 7 ++ constsAsc.drop 7 from rfl,
        chainT_append]
      rw [i3, show (2 : Nat) ^ (constsAsc.take 7).length = 128 from rfl, h2]
    have e4 : chainT constsAsc (u + 1) 0 = chainT (constsAsc.drop 7) m 1003204964963597955 := by
      conv_lhs => rw [show constsAsc = constsAsc.take 7 ++ constsAsc.drop 7 from rfl,
        chainT_append]
      rw [i4, show (2 : Nat) ^ (constsAsc.take 7).length = 128 from rfl, h4]
    rw [e1, e2, e3, e4, show u = 63 + 128 * m from by omega]
    exact spine_6 m (by norm_num; omega)
  · norm_num at hm he
    have h1 : u % 256 = 127 := by omega
    have h2 : u / 256 = m := by omega
    have h3 : (u + 1) % 256 = 128 := by omega
    have h4 : (u + 1) / 256 = m := by omega
    have i1 : chainP (constsAsc.take 8) u one = 1006369884491288702 := by
      rw [← chainP_mod, show (2 : Nat) ^ (constsAsc.take 8).length = 256 from rfl, h1]
      all_goals rfl
    have i2 : chainP (constsAsc.take 8) (u + 1) one = 1006420201727613800 := by
      rw [← chainP_mod, show (2 : Nat) ^ (constsAsc.take 8).length = 256 from rfl, h3]
      all_goals rfl
    have i3 : chainT (constsAsc.take 8) u 0 = 1006369884491288708 := by
      rw [← chainT_mod, show (2 : Nat) ^ (constsAsc.take 8).length = 256 from rfl, h1]
      all_goals rfl
    have i4 : chainT (constsAsc.take 8) (u + 1) 0 = 1006420201727613800 := by
      rw [← chainT_mod, show (2 : Nat) ^ (constsAsc.take 8).length = 256 from rfl, h3]
      all_goals rfl
    have e1 : chainP constsAsc u one = chainP (constsAsc.drop 8) m 1006369884491288702 := by
      conv_lhs => rw [show constsAsc = constsAsc.take 8 ++ constsAsc.drop 8 from rfl,
        chainP_append]
      rw [i1, show (2 : Nat) ^ (constsAsc.take 8).length = 256 from rfl, h2]
    have e2 : chainP constsAsc (u + 1) one = chainP (constsAsc.drop 8) m 1006420201727613800 := by
      conv_lhs => rw [show constsAsc = constsAsc.take 8 ++ constsAsc.drop 8 from rfl,
        chainP_append]
      rw [i2, show (2 : Nat) ^ (constsAsc.take 8).length = 256 from rfl, h4]
    have e3 : chainT constsAsc u 0 = chainT (constsAsc.drop 8) m 1006369884491288708 := by
      conv_lhs => rw [show constsAsc = constsAsc.take 8 ++ constsAsc.drop 8 from rfl,
        chainT_append]
      rw [i3, show (2 : Nat) ^ (constsAsc.take 8).length = 256 from rfl, h2]
    have e4 : chainT constsAsc (u + 1) 0 = chainT (constsAsc.drop 8) m 1006420201727613800 := by
      conv_lhs => rw [show constsAsc = constsAsc.take 8 ++ constsAsc.drop 8 from rfl,
        chainT_append]
      rw [i4, show (2 : Nat) ^ (constsAsc.take 8).length = 256 from rfl, h4]
    rw [e1, e2, e3, e4, show u = 127 + 256 * m from by omega]
    exact spine_7 m (by norm_num; omega)
  · norm_num at hm he
    have h1 : u % 512 = 255 := by omega
    have h2 : u / 512 = m := by omega
    have h3 : (u + 1) % 512 = 256 := by omega
    have h4 : (u + 1) / 512 = m := by omega
    have i1 : chainP (constsAsc.take 9) u one = 1012830982162318174 := by
      rw [← chainP_mod, show (2 : Nat) ^ (constsAsc.take 9).length = 512 from rfl, h1]
      all_goals rfl
    have i2 : chainP (constsAsc.take 9) (u + 1) one = 1012881622445450855 := by
      rw [← chainP_mod, show (2 : Nat) ^ (constsAsc.take 9).length = 512 from rfl, h3]
      all_goals rfl
    have i3 : chainT (constsAsc.take 9) u 0 = 1012830982162318181 := by
      rw [← chainT_mod, show (2 : Nat) ^ (constsAsc.take 9).length = 512 from rfl, h1]
      all_goals rfl
    have i4 : chainT (constsAsc.take 9) (u + 1) 0 = 1012881622445450855 := by
      rw [← chainT_mod, show (2 : Nat) ^ (constsAsc.take 9).length = 512 from rfl, h3]
      all_goals rfl
    have e1 : chainP constsAsc u one = chainP (constsAsc.drop 9) m 1012830982162318174 := by
      conv_lhs => rw [show constsAsc = constsAsc.take 9 ++ constsAsc.drop 9 from rfl,
        chainP_append]
      rw [i1, show (2 : Nat) ^ (constsAsc.take 9).length = 512 from rfl, h2]
    have e2 : chainP constsAsc (u + 1) one = chainP (constsAsc.drop 9) m 1012881622445450855 := by
      conv_lhs => rw [show constsAsc = constsAsc.take 9 ++ constsAsc.drop 9 from rfl,
        chainP_append]
      rw [i2, show (2 : Nat) ^ (constsAsc.take 9).length = 512 from rfl, h4]
    have e3 : chainT constsAsc u 0 = chainT (constsAsc.drop 9) m 1012830982162318181 := by
      conv_lhs => rw [show constsAsc = constsAsc.take 9 ++ constsAsc.drop 9 from rfl,
        chainT_append]
      rw [i3, show (2 : Nat) ^ (constsAsc.take 9).length = 512 from rfl, h2]
    have e4 : chainT constsAsc (u + 1) 0 = chainT (constsAsc.drop 9) m 1012881622445450855 := by
      conv_lhs => rw [show constsAsc = constsAsc.take 9 ++ constsAsc.drop 9 from rfl,
        chainT_append]
      rw [i4, show (2 : Nat) ^ (constsAsc.take 9).length = 512 from rfl, h4]
    rw [e1, e2, e3, e4, show u = 255 + 512 * m from by omega]
    exact spine_8 m (by norm_num; omega)
  · norm_num at hm he
    have h1 : u % 1024 = 511 := by omega
    have h2 : u / 1024 = m := by omega
    have h3 : (u + 1) % 1024 = 512 := by omega
    have h4 : (u + 1) / 1024 = m := by omega
    have i1 : chainP (constsAsc.take 10) u one = 1025877888475588326 := by
      rw [← chainP_mod, show (2 : Nat) ^ (constsAsc.take 10).length = 1024 from rfl, h1]
      all_goals rfl
    have i2 : chainP (constsAsc.take 10) (u + 1) one = 1025929181087728853 := by
      rw [← chainP_mod, show (2 : Nat) ^ (constsAsc.take 10).length = 1024 from rfl, h3]
      all_goals rfl
    have i3 : chainT (constsAsc.take 10) u 0 = 1025877888475588334 := by
      rw [← chainT_mod, show (2 : Nat) ^ (constsAsc.take 10).length = 1024 from rfl, h1]
      all_goals rfl
    have i4 : chainT (constsAsc.take 10) (u + 1) 0 = 1025929181087728853 := by
      rw [← chainT_mod, show (2 : Nat) ^ (constsAsc.take 10).length = 1024 from rfl, h3]
      all_goals rfl
    have e1 : chainP constsAsc u one = chainP (constsAsc.drop 10) m 1025877888475588326 := by
      conv_lhs => rw [show constsAsc = constsAsc.take 10 ++ constsAsc.drop 10 from rfl,
        chainP_append]
      rw [i1, show (2 : Nat) ^ (constsAsc.take 10).length = 1024 from rfl, h2]
    have e2 : chainP constsAsc (u + 1) one = chainP (constsAsc.drop 10) m 1025929181087728853 := by
      conv_lhs => rw [show constsAsc = constsAsc.take 10 ++ constsAsc.drop 10 from rfl,
        chainP_append]
      rw [i2, show (2 : Nat) ^ (constsAsc.take 10).length = 1024 from rfl, h4]
    have e3 : chainT constsAsc u 0 = chainT (constsAsc.drop 10) m 1025877888475588334 := by
      conv_lhs => rw [show constsAsc = constsAsc.take 10 ++ constsAsc.drop 10 from rfl,
        chainT_append]
      rw [i3, show (2 : Nat) ^ (constsAsc.take 10).length = 1024 from rfl, h2]
    have e4 : chainT constsAsc (u + 1) 0 = chainT (constsAsc.drop 10) m 1025929181087728853 := by
      conv_lhs => rw [show constsAsc = constsAsc.take 10 ++ constsAsc.drop 10 from rfl,
        chainT_append]
      rw [i4, show (2 : Nat) ^ (constsAsc.take 10).length = 1024 from rfl, h4]
    rw [e1, e2, e3, e4, show u = 511 + 1024 * m from by omega]
    exact spine_9 m (by norm_num; omega)
  · norm_num at hm he
    have h1 : u % 2048 = 1023 := by omega
    have h2 : u / 2048 = m := by omega
    have h3 : (u + 1) % 2048 = 1024 := by omega
    have h4 : (u + 1) / 2048 = m := by omega
    have i1 : chainP (constsAsc.take 11) u one = 1052478062019768760 := by
      rw [← chainP_mod, show (2 : Nat) ^ (constsAsc.take 11).length = 2048 from rfl, h1]
      all_goals rfl
    have i2 : chainP (constsAsc.take 11) (u + 1) one = 1052530684607337941 := by
      rw [← chainP_mod, show (2 : Nat) ^ (constsAsc.take 11).length = 2048 from rfl, h3]
      all_goals rfl
    have i3 : chainT (constsAsc.take 11) u 0 = 1052478062019768769 := by
      rw [← chainT_mod, show (2 : Nat) ^ (constsAsc.take 11).length = 2048 from rfl, h1]
      all_goals rfl
    have i4 : chainT (constsAsc.take 11) (u + 1) 0 = 1052530684607337941 := by
      rw [← chainT_mod, show (2 : Nat) ^ (constsAsc.take 11).length = 2048 from rfl, h3]
      all_goals rfl
    have e1 : chainP constsAsc u one = chainP (constsAsc.drop 11) m 1052478062019768760 := by
      conv_lhs => rw [show constsAsc = constsAsc.take 11 ++ constsAsc.drop 11 from rfl,
        chainP_append]
      rw [i1, show (2 : Nat) ^ (constsAsc.take 11).length = 2048 from rfl, h2]
    have e2 : chainP constsAsc (u + 1) one = chainP (constsAsc.drop 11) m 1052530684607337941 := by
      conv_lhs => rw [show constsAsc = constsAsc.take 11 ++ constsAsc.drop 11 from rfl,
        chainP_append]
      rw [i2, show (2 : Nat) ^ (constsAsc.take 11).length = 2048 from rfl, h4]
    have e3 : chainT constsAsc u 0 = chainT (constsAsc.drop 11) m 1052478062019768769 := by
      conv_lhs => rw [show constsAsc = constsAsc.take 11 ++ constsAsc.drop 11 from rfl,
        chainT_append]
      rw [i3, show (2 : Nat) ^ (constsAsc.take 11).length = 2048 from rfl, h2]
    have e4 : chainT constsAsc (u + 1) 0 = chainT (constsAsc.drop 11) m 1052530684607337941 := by
      conv_lhs => rw [show constsAsc = constsAsc.take 11 ++ constsAsc.drop 11 from rfl,
        chainT_append]
      rw [i4, show (2 : Nat) ^ (constsAsc.take 11).length = 2048 from rfl, h4]
    rw [e1, e2, e3, e4, show u = 1023 + 2048 * m from by omega]
    exact spine_10 m (by norm_num; omega)
  · norm_num at hm he
    have h1 : u % 4096 = 2047 := by omega
    have h2 : u / 4096 = m := by omega
    have h3 : (u + 1) % 4096 = 2048 := by omega
    have h4 : (u + 1) / 4096 = m := by omega
    have i1 : chainP (constsAsc.take 12) u one = 1107765455151871493 := by
      rw [← chainP_mod, show (2 : Nat) ^ (constsAsc.take 12).length = 4096 from rfl, h1]
      all_goals rfl
    have i2 : chainP (constsAsc.take 12) (u + 1) one = 1107820842039991493 := by
      rw [← chainP_mod, show (2 : Nat) ^ (constsAsc.take 12).length = 4096 from rfl, h3]
      all_goals rfl
    have i3 : chainT (constsAsc.take 12) u 0 = 1107765455151871504 := by
      rw [← chainT_mod, show (2 : Nat) ^ (constsAsc.take 12).length = 4096 from rfl, h1]
      all_goals rfl
    have i4 : chainT (constsAsc.take 12) (u + 1) 0 = 1107820842039991493 := by
      rw [← chainT_mod, show (2 : Nat) ^ (constsAsc.take 12).length = 4096 from rfl, h3]
      all_goals rfl
    have e1 : chainP constsAsc u one = chainP (constsAsc.drop 12) m 1107765455151871493 := by
      conv_lhs => rw [show constsAsc = constsAsc.take 12 ++ constsAsc.drop 12 from rfl,
        chainP_append]
      rw [i1, show (2 : Nat) ^ (constsAsc.take 12).length = 4096 from rfl, h2]
    have e2 : chainP constsAsc (u + 1) one = chainP (constsAsc.drop 12) m 1107820842039991493 := by
      conv_lhs => rw [show constsAsc = constsAsc.take 12 ++ constsAsc.drop 12 from rfl,
        chainP_append]
      rw [i2, show (2 : Nat) ^ (constsAsc.take 12).length = 4096 from rfl, h4]
    have e3 : chainT constsAsc u 0 = chainT (constsAsc.drop 12) m 1107765455151871504 := by
      conv_lhs => rw [show constsAsc = constsAsc.take 12 ++ constsAsc.drop 12 from rfl,
        chainT_append]
      rw [i3, show (2 : Nat) ^ (constsAsc.take 12).length = 4096 from rfl, h2]
    have e4 : chainT constsAsc (u + 1) 0 = chainT (constsAsc.drop 12) m 1107820842039991493 := by
      conv_lhs => rw [show constsAsc = constsAsc.take 12 ++ constsAsc.drop 12 from rfl,
        chainT_append]
      rw [i4, show (2 : Nat) ^ (constsAsc.take 12).length = 4096 from rfl, h4]
    rw [e1, e2, e3, e4, show u = 2047 + 4096 * m from by omega]
    exact spine_11 m (by norm_num; omega)
  · norm_num at hm he
    have h1 : u % 8192 = 4095 := by omega
    have h2 : u / 8192 = m := by omega
    have h3 : (u + 1) % 8192 = 4096 := by omega
    have h4 : (u + 1) / 8192 = m := by omega
    have i1 : chainP (constsAsc.take 13) u one = 1227205659309160709 := by
      rw [← chainP_mod, show (2 : Nat) ^ (constsAsc.take 13).length = 8192 from rfl, h1]
      all_goals rfl
    have i2 : chainP (constsAsc.take 13) (u + 1) one = 1227267018058195782 := by
      rw [← chainP_mod, show (2 : Nat) ^ (constsAsc.take 13).length = 8192 from rfl, h3]
      all_goals rfl
    have i3 : chainT (constsAsc.take 13) u 0 = 1227205659309160722 := by
      rw [← chainT_mod, show (2 : Nat) ^ (constsAsc.take 13).length = 8192 from rfl, h1]
      all_goals rfl
    have i4 : chainT (constsAsc.take 13) (u + 1) 0 = 1227267018058195782 := by
      rw [← chainT_mod, show (2 : Nat) ^ (constsAsc.take 13).length = 8192 from rfl, h3]
      all_goals rfl
    have e1 : chainP constsAsc u one = chainP (constsAsc.drop 13) m 1227205659309160709 := by
      conv_lhs => rw [show constsAsc = constsAsc.take 13 ++ constsAsc.drop 13 from rfl,
        chainP_append]
      rw [i1, show (2 : Nat) ^ (constsAsc.take 13).length = 8192 from rfl, h2]
    have e2 : chainP constsAsc (u + 1) one = chainP (constsAsc.drop 13) m 1227267018058195782 := by
      conv_lhs => rw [show constsAsc = constsAsc.take 13 ++ constsAsc.drop 13 from rfl,
        chainP_append]
      rw [i2, show (2 : Nat) ^ (constsAsc.take 13).length = 8192 from rfl, h4]
    have e3 : chainT constsAsc u 0 = chainT (constsAsc.drop 13) m 1227205659309160722 := by
      conv_lhs => rw [show constsAsc = constsAsc.take 13 ++ constsAsc.drop 13 from rfl,
        chainT_append]
      rw [i3, show (2 : Nat) ^ (constsAsc.take 13).length = 8192 from rfl, h2]
    have e4 : chainT constsAsc (u + 1) 0 = chainT (constsAsc.drop 13) m 1227267018058195782 := by
      conv_lhs => rw [show constsAsc = constsAsc.take 13 ++ constsAsc.drop 13 from rfl,
        chainT_append]
      rw [i4, show (2 : Nat) ^ (constsAsc.take 13).length = 8192 from rfl, h4]
    rw [e1, e2, e3, e4, show u = 4095 + 8192 * m from by omega]
    exact spine_12 m (by norm_num; omega)
  · norm_num at hm he
    have h1 : u % 16384 = 8191 := by omega
    have h2 : u / 16384 = m := by omega
    have h3 : (u + 1) % 16384 = 8192 := by omega
    have h4 : (u + 1) / 16384 = m := by omega
    have i1 : chainP (constsAsc.take 14) u one = 1506109030044495796 := by
      rw [← chainP_mod, show (2 : Nat) ^ (constsAsc.take 14).length = 16384 from rfl, h1]
      all_goals rfl
    have i2 : chainP (constsAsc.take 14) (u + 1) one = 1506184333613455851 := by
      rw [← chainP_mod, show (2 : Nat) ^ (constsAsc.take 14).length = 16384 from rfl, h3]
      all_goals rfl
    have i3 : chainT (constsAsc.take 14) u 0 = 1506109030044495813 := by
      rw [← chainT_mod, show (2 : Nat) ^ (constsAsc.take 14).length = 16384 from rfl, h1]
      all_goals rfl
    have i4 : chainT (constsAsc.take 14) (u + 1) 0 = 1506184333613455851 := by
      rw [← chainT_mod, show (2 : Nat) ^ (constsAsc.take 14).length = 16384 from rfl, h3]
      all_goals rfl
    have e1 : chainP constsAsc u one = chainP (constsAsc.drop 14) m 1506109030044495796 := by
      conv_lhs => rw [show constsAsc = constsAsc.take 14 ++ constsAsc.drop 14 from rfl,
        chainP_append]
      rw [i1, show (2 : Nat) ^ (constsAsc.take 14).length = 16384 from rfl, h2]
    have e2 : chainP constsAsc (u + 1) one = chainP (constsAsc.drop 14) m 1506184333613455851 := by
      conv_lhs => rw [show constsAsc = constsAsc.take 14 ++ constsAsc.drop 14 from rfl,
        chainP_append]
      rw [i2, show (2 : Nat) ^ (constsAsc.take 14).length = 16384 from rfl, h4]
    have e3 : chainT constsAsc u 0 = chainT (constsAsc.drop 14) m 1506109030044495813 := by
      conv_lhs => rw [show constsAsc = constsAsc.take 14 ++ constsAsc.drop 14 from rfl,
        chainT_append]
      rw [i3, show (2 : Nat) ^ (constsAsc.take 14).length = 16384 from rfl, h2]
    have e4 : chainT constsAsc (u + 1) 0 = chainT (constsAsc.drop 14) m 1506184333613455851 := by
      conv_lhs => rw [show constsAsc = constsAsc.take 14 ++ constsAsc.drop 14 from rfl,
        chainT_append]
      rw [i4, show (2 : Nat) ^ (constsAsc.take 14).length = 16384 from rfl, h4]
    rw [e1, e2, e3, e4, show u = 8191 + 16384 * m from by omega]
    exact spine_13 m (by norm_num; omega)
  · norm_num at hm he
    have h1 : u % 32768 = 16383 := by omega
    have h2 : u / 32768 = m := by omega
    have h3 : (u + 1) % 32768 = 16384 := by omega
    have h4 : (u + 1) / 32768 = m := by omega
    have i1 : chainP (constsAsc.take 15) u one = 2268477825766777257 := by
      rw [← chainP_mod, show (2 : Nat) ^ (constsAsc.take 15).length = 32768 from rfl, h1]
      all_goals rfl
    have i2 : chainP (constsAsc.take 15) (u + 1) one = 2268591246822610072 := by
      rw [← chainP_mod, show (2 : Nat) ^ (constsAsc.take 15).length = 32768 from rfl, h3]
      all_goals rfl
    have i3 : chainT (constsAsc.take 15) u 0 = 2268477825766777284 := by
      rw [← chainT_mod, show (2 : Nat) ^ (constsAsc.take 15).length = 32768 from rfl, h1]
      all_goals rfl
    have i4 : chainT (constsAsc.take 15) (u + 1) 0 = 2268591246822610072 := by
      rw [← chainT_mod, show (2 : Nat) ^ (constsAsc.take 15).length = 32768 from rfl, h3]
      all_goals rfl
    have e1 : chainP constsAsc u one = chainP (constsAsc.drop 15) m 2268477825766777257 := by
      conv_lhs => rw [show constsAsc = constsAsc.take 15 ++ constsAsc.drop 15 from rfl,
        chainP_append]
      rw [i1, show (2 : Nat) ^ (constsAsc.take 15).length = 32768 from rfl, h2]
    have e2 : chainP constsAsc (u + 1) one = chainP (constsAsc.drop 15) m 2268591246822610072 := by
      conv_lhs => rw [show constsAsc = constsAsc.take 15 ++ constsAsc.drop 15 from rfl,
        chainP_append]
      rw [i2, show (2 : Nat) ^ (constsAsc.take 15).length = 32768 from rfl, h4]
    have e3 : chainT constsAsc u 0 = chainT (constsAsc.drop 15) m 2268477825766777284 := by
      conv_lhs => rw [show constsAsc = constsAsc.take 15 ++ constsAsc.drop 15 from rfl,
        chainT_append]
      rw [i3, show (2 : Nat) ^ (constsAsc.take 15).length = 32768 from rfl, h2]
    have e4 : chainT constsAsc (u + 1) 0 = chainT (constsAsc.drop 15) m 2268591246822610072 := by
      conv_lhs => rw [show constsAsc = constsAsc.take 15 ++ constsAsc.drop 15 from rfl,
        chainT_append]
      rw [i4, show (2 : Nat) ^ (constsAsc.take 15).length = 32768 from rfl, h4]
    rw [e1, e2, e3, e4, show u = 16383 + 32768 * m from by omega]
    exact spine_14 m (by norm_num; omega)
  · norm_num at hm he
    have h1 : u % 65536 = 32767 := by omega
    have h2 : u / 65536 = m := by omega
    have h3 : (u + 1) % 65536 = 32768 := by omega
    have h4 : (u + 1) / 65536 = m := by omega
    have i1 : chainP (constsAsc.take 16) u one = 5146248939145696830 := by
      rw [← chainP_mod, show (2 : Nat) ^ (constsAsc.take 16).length = 65536 from rfl, h1]
      all_goals rfl
    have i2 : chainP (constsAsc.take 16) (u + 1) one = 5146506245160164533 := by
      rw [← chainP_mod, show (2 : Nat) ^ (constsAsc.take 16).length = 65536 from rfl, h3]
      all_goals rfl
    have i3 : chainT (constsAsc.take 16) u 0 = 5146248939145696892 := by
      rw [← chainT_mod, show (2 : Nat) ^ (constsAsc.take 16).length = 65536 from rfl, h1]
      all_goals rfl
    have i4 : chainT (constsAsc.take 16) (u + 1) 0 = 5146506245160164533 := by
      rw [← chainT_mod, show (2 : Nat) ^ (constsAsc.take 16).length = 65536 from rfl, h3]
      all_goals rfl
    have e1 : chainP constsAsc u one = chainP (constsAsc.drop 16) m 5146248939145696830 := by
      conv_lhs => rw [show constsAsc = constsAsc.take 16 ++ constsAsc.drop 16 from rfl,
        chainP_append]
      rw [i1, show (2 : Nat) ^ (constsAsc.take 16).length = 65536 from rfl, h2]
    have e2 : chainP constsAsc (u + 1) one = chainP (constsAsc.drop 16) m 5146506245160164533 := by
      conv_lhs => rw [show constsAsc = constsAsc.take 16 ++ constsAsc.drop 16 from rfl,
        chainP_append]
      rw [i2, show (2 : Nat) ^ (constsAsc.take 16).length = 65536 from rfl, h4]
    have e3 : chainT constsAsc u 0 = chainT (constsAsc.drop 16) m 5146248939145696892 := by
      conv_lhs => rw [show constsAsc = constsAsc.take 16 ++ constsAsc.drop 16 from rfl,
        chainT_append]
      rw [i3, show (2 : Nat) ^ (constsAsc.take 16).length = 65536 from rfl, h2]
    have e4 : chainT constsAsc (u + 1) 0 = chainT (constsAsc.drop 16) m 5146506245160164533 := by
      conv_lhs => rw [show constsAsc = constsAsc.take 16 ++ constsAsc.drop 16 from rfl,
        chainT_append]
      rw [i4, show (2 : Nat) ^ (constsAsc.take 16).length = 65536 from rfl, h4]
    rw [e1, e2, e3, e4, show u = 32767 + 65536 * m from by omega]
    exact spine_15 m (by norm_num; omega)
  · norm_num at hm he
    have h1 : u % 131072 = 65535 := by omega
    have h2 : u / 131072 = m := by omega
    have h3 : (u + 1) % 131072 = 65536 := by omega
    have h4 : (u + 1) / 131072 = m := by omega
    have i1 : chainP (constsAsc.take 17) u one = 26485202304462200258 := by
      rw [← chainP_mod, show (2 : Nat) ^ (constsAsc.take 17).length = 131072 from rfl, h1]
      all_goals rfl
    have i2 : chainP (constsAsc.take 17) (u + 1) one = 26486526531472575563 := by
      rw [← chainP_mod, show (2 : Nat) ^ (constsAsc.take 17).length = 131072 from rfl, h3]
      all_goals rfl
    have i3 : chainT (constsAsc.take 17) u 0 = 26485202304462200578 := by
      rw [← chainT_mod, show (2 : Nat) ^ (constsAsc.take 17).length = 131072 from rfl, h1]
      all_goals rfl
    have i4 : chainT (constsAsc.take 17) (u + 1) 0 = 26486526531472575563 := by
      rw [← chainT_mod, show (2 : Nat) ^ (constsAsc.take 17).length = 131072 from rfl, h3]
      all_goals rfl
    have e1 : chainP constsAsc u one = chainP (constsAsc.drop 17) m 26485202304462200258 := by
      conv_lhs => rw [show constsAsc = constsAsc.take 17 ++ constsAsc.drop 17 from rfl,
        chainP_append]
      rw [i1, show (2 : Nat) ^ (constsAsc.take 17).length = 131072 from rfl, h2]
    have e2 : chainP constsAsc (u + 1) one = chainP (constsAsc.drop 17) m 26486526531472575563 := by
      conv_lhs => rw [show constsAsc = constsAsc.take 17 ++ constsAsc.drop 17 from rfl,
        chainP_append]
      rw [i2, show (2 : Nat) ^ (constsAsc.take 17).length = 131072 from rfl, h4]
    have e3 : chainT constsAsc u 0 = chainT (constsAsc.drop 17) m 26485202304462200578 := by
      conv_lhs => rw [show constsAsc = constsAsc.take 17 ++ constsAsc.drop 17 from rfl,
        chainT_append]
      rw [i3, show (2 : Nat) ^ (constsAsc.take 17).length = 131072 from rfl, h2]
    have e4 : chainT constsAsc (u + 1) 0 = chainT (constsAsc.drop 17) m 26486526531472575563 := by
      conv_lhs => rw [show constsAsc = constsAsc.take 17 ++ constsAsc.drop 17 from rfl,
        chainT_append]
      rw [i4, show (2 : Nat) ^ (constsAsc.take 17).length = 131072 from rfl, h4]
    rw [e1, e2, e3, e4, show u = 65535 + 131072 * m from by omega]
    exact spine_16 m (by norm_num; omega)
  · norm_num at hm he
    have h1 : u % 262144 = 131071 := by omega
    have h2 : u / 262144 = m := by omega
    have h3 : (u + 1) % 262144 = 131072 := by omega
    have h4 : (u + 1) / 262144 = m := by omega
    have i1 : chainP (constsAsc.take 18) u one = 701501013528556666210 := by
      rw [← chainP_mod, show (2 : Nat) ^ (constsAsc.take 18).length = 262144 from rfl, h1]
      all_goals rfl
    have i2 : chainP (constsAsc.take 18) (u + 1) one = 701536087702400664335 := by
      rw [← chainP_mod, show (2 : Nat) ^ (constsAsc.take 18).length = 262144 from rfl, h3]
      all_goals rfl
    have i3 : chainT (constsAsc.take 18) u 0 = 701501013528556674687 := by
      rw [← chainT_mod, show (2 : Nat) ^ (constsAsc.take 18).length = 262144 from rfl, h1]
      all_goals rfl
    have i4 : chainT (constsAsc.take 18) (u + 1) 0 = 701536087702400664335 := by
      rw [← chainT_mod, show (2 : Nat) ^ (constsAsc.take 18).length = 262144 from rfl, h3]
      all_goals rfl
    have e1 : chainP constsAsc u one = chainP (constsAsc.drop 18) m 701501013528556666210 := by
      conv_lhs => rw [show constsAsc = constsAsc.take 18 ++ constsAsc.drop 18 from rfl,
        chainP_append]
      rw [i1, show (2 : Nat) ^ (constsAsc.take 18).length = 262144 from rfl, h2]
    have e2 : chainP constsAsc (u + 1) one = chainP (constsAsc.drop 18) m 701536087702400664335 := by
      conv_lhs => rw [show constsAsc = constsAsc.take 18 ++ constsAsc.drop 18 from rfl,
        chainP_append]
      rw [i2, show (2 : Nat) ^ (constsAsc.take 18).length = 262144 from rfl, h4]
    have e3 : chainT constsAsc u 0 = chainT (constsAsc.drop 18) m 701501013528556674687 := by
      conv_lhs => rw [show constsAsc = constsAsc.take 18 ++ constsAsc.drop 18 from rfl,
        chainT_append]
      rw [i3, show (2 : Nat) ^ (constsAsc.take 18).length = 262144 from rfl, h2]
    have e4 : chainT constsAsc (u + 1) 0 = chainT (constsAsc.drop 18) m 701536087702400664335 := by
      conv_lhs => rw [show constsAsc = constsAsc.take 18 ++ constsAsc.drop 18 from rfl,
        chainT_append]
      rw [i4, show (2 : Nat) ^ (constsAsc.take 18).length = 262144 from rfl, h4]
    rw [e1, e2, e3, e4, show u = 131071 + 262144 * m from by omega]
    exact spine_17 m (by norm_num; omega)
  · norm_num at hm he
    have h1 : u % 524288 = 262143 := by omega
    have h2 : u / 524288 = m := by omega
    have h3 : (u + 1) % 524288 = 262144 := by omega
    have h4 : (u + 1) / 524288 = m := by omega
    have i1 : chainP (constsAsc.take 19) u one = 492128276550092484304862 := by
      rw [← chainP_mod, show (2 : Nat) ^ (constsAsc.take 19).length = 524288 from rfl, h1]
      all_goals rfl
    have i2 : chainP (constsAsc.take 19) (u + 1) one = 492152882348790396620919 := by
      rw [← chainP_mod, show (2 : Nat) ^ (constsAsc.take 19).length = 524288 from rfl, h3]
      all_goals rfl
    have i3 : chainT (constsAsc.take 19) u 0 = 492128276550092490251784 := by
      rw [← chainT_mod, show (2 : Nat) ^ (constsAsc.take 19).length = 524288 from rfl, h1]
      all_goals rfl
    have i4 : chainT (constsAsc.take 19) (u + 1) 0 = 492152882348790396620919 := by
      rw [← chainT_mod, show (2 : Nat) ^ (constsAsc.take 19).length = 524288 from rfl, h3]
      all_goals rfl
    have e1 : chainP constsAsc u one = chainP (constsAsc.drop 19) m 492128276550092484304862 := by
      conv_lhs => rw [show constsAsc = constsAsc.take 19 ++ constsAsc.drop 19 from rfl,
        chainP_append]
      rw [i1, show (2 : Nat) ^ (constsAsc.take 19).length = 524288 from rfl, h2]
    have e2 : chainP constsAsc (u + 1) one = chainP (constsAsc.drop 19) m 492152882348790396620919 := by
      conv_lhs => rw [show constsAsc = constsAsc.take 19 ++ constsAsc.drop 19 from rfl,
        chainP_append]
      rw [i2, show (2 : Nat) ^ (constsAsc.take 19).length = 524288 from rfl, h4]
    have e3 : chainT constsAsc u 0 = chainT (constsAsc.drop 19) m 492128276550092490251784 := by
      conv_lhs => rw [show constsAsc = constsAsc.take 19 ++ constsAsc.drop 19 from rfl,
        chainT_append]
      rw [i3, show (2 : Nat) ^ (constsAsc.take 19).length = 524288 from rfl, h2]
    have e4 : chainT constsAsc (u + 1) 0 = chainT (constsAsc.drop 19) m 492152882348790396620919 := by
      conv_lhs => rw [show constsAsc = constsAsc.take 19 ++ constsAsc.drop 19 from rfl,
        chainT_append]
      rw [i4, show (2 : Nat) ^ (constsAsc.take 19).length = 524288 from rfl, h4]
    rw [e1, e2, e3, e4, show u = 262143 + 524288 * m from by omega]
    exact spine_18 m (by norm_num; omega)
  · norm_num at hm he
    have h1 : u % 1048576 = 524287 := by omega
    have h2 : u / 1048576 = m := by omega
    have h3 : (u + 1) % 1048576 = 524288 := by omega
    have h4 : (u + 1) / 1048576 = m := by omega
    have i1 : chainP (constsAsc.take 20) u one = 242202349789470650283453668696 := by
      rw [← chainP_mod, show (2 : Nat) ^ (constsAsc.take 20).length = 1048576 from rfl, h1]
      all_goals rfl
    have i2 : chainP (constsAsc.take 20) (u + 1) one = 242214459604222321943471435452 := by
      rw [← chainP_mod, show (2 : Nat) ^ (constsAsc.take 20).length = 1048576 from rfl, h3]
      all_goals rfl
    have i3 : chainT (constsAsc.take 20) u 0 = 242202349789470653210248472101 := by
      rw [← chainT_mod, show (2 : Nat) ^ (constsAsc.take 20).length = 1048576 from rfl, h1]
      all_goals rfl
    have i4 : chainT (constsAsc.take 20) (u + 1) 0 = 242214459604222321943471435452 := by
      rw [← chainT_mod, show (2 : Nat) ^ (constsAsc.take 20).length = 1048576 from rfl, h3]
      all_goals rfl
    have e1 : chainP constsAsc u one = chainP (constsAsc.drop 20) m 242202349789470650283453668696 := by
      conv_lhs => rw [show constsAsc = constsAsc.take 20 ++ constsAsc.drop 20 from rfl,
        chainP_append]
      rw [i1, show (2 : Nat) ^ (constsAsc.take 20).length = 1048576 from rfl, h2]
    have e2 : chainP constsAsc (u + 1) one = chainP (constsAsc.drop 20) m 242214459604222321943471435452 := by
      conv_lhs => rw [show constsAsc = constsAsc.take 20 ++ constsAsc.drop 20 from rfl,
        chainP_append]
      rw [i2, show (2 : Nat) ^ (constsAsc.take 20).length = 1048576 from rfl, h4]
    have e3 : chainT constsAsc u 0 = chainT (constsAsc.drop 20) m 242202349789470653210248472101 := by
      conv_lhs => rw [show constsAsc = constsAsc.take 20 ++ constsAsc.drop 20 from rfl,
        chainT_append]
      rw [i3, show (2 : Nat) ^ (constsAsc.take 20).length = 1048576 from rfl, h2]
    have e4 : chainT constsAsc (u + 1) 0 = chainT (constsAsc.drop 20) m 242214459604222321943471435452 := by
      conv_lhs => rw [show constsAsc = constsAsc.take 20 ++ constsAsc.drop 20 from rfl,
        chainT_append]
      rw [i4, show (2 : Nat) ^ (constsAsc.take 20).length = 1048576 from rfl, h4]
    rw [e1, e2, e3, e4, show u = 524287 + 1048576 * m from by omega]
    exact spine_19 m (by norm_num; omega)

def Master : Prop :=
  ∀ u : Nat, u < 1048575 →
    leafFacts u (sqrtPriceAtTickAbs u) (sqrtPriceAtTickAbs (u + 1))
      (Thresh u) (Thresh (u + 1))

/-- The sweep result transported to the mirrored encode function and the
threshold: the six leaf facts hold for every tick below the all-ones
pattern. -/
theorem master_holds : Master := by
  intro u hu
  have h := leaf_master u hu
  rw [← sqrtAbs_eq_chain, ← sqrtAbs_eq_chain] at h
  exact h

/-! ### From the sweep to the mirrored functions -/

theorem enc_lt_succ (hM : Master) {u : Nat} (hu : u < 1048575) :
    sqrtPriceAtTickAbs u < sqrtPriceAtTickAbs (u + 1) := (hM u hu).1

theorem thresh_le_enc_succ (hM : Master) {u : Nat} (hu : u < 1048575) :
    Thresh u ≤ sqrtPriceAtTickAbs (u + 1) := (hM u hu).2.1

theorem enc_lt_thresh_succ (hM : Master) {u : Nat} (hu : u < 1048575) :
    sqrtPriceAtTickAbs u < Thresh (u + 1) := (hM u hu).2.2.1

theorem inv_succ_lt (hM : Master) {u : Nat} (hu : u ≤ 631042) :
    dDiv one (sqrtPriceAtTickAbs (u + 1)) < dDiv one (sqrtPriceAtTickAbs u) :=
  ((hM u (by omega)).2.2.2 hu).1

theorem thresh_le_invinv_succ (hM : Master) {u : Nat} (hu : u ≤ 631042) :
    Thresh u ≤ dDiv one (dDiv one (sqrtPriceAtTickAbs (u + 1))) :=
  ((hM u (by omega)).2.2.2 hu).2.1

theorem invinv_lt_thresh_succ (hM : Master) {u : Nat} (hu : u ≤ 631042) :
    dDiv one (dDiv one (sqrtPriceAtTickAbs u)) < Thresh (u + 1) :=
  ((hM u (by omega)).2.2.2 hu).2.2

theorem sqrtAbs_mono (hM : Master) :
    ∀ b a : Nat, b ≤ 1048575 → a < b →
      sqrtPriceAtTickAbs a < sqrtPriceAtTickAbs b := by
  intro b
  induction b with
  | zero => intro a _ h; exact absurd h (Nat.not_lt_zero a)
  | succ n ih =>
    intro a hb h
    rcases Nat.lt_succ_iff_lt_or_eq.mp h with h' | h'
    · exact lt_trans (ih a (by omega) h') (enc_lt_succ hM (by omega))
    · subst h'; exact enc_lt_succ hM (by omega)

theorem invE_anti (hM : Master) :
    ∀ b a : Nat, b ≤ 631043 → a < b →
      dDiv one (sqrtPriceAtTickAbs b) < dDiv one (sqrtPriceAtTickAbs a) := by
  intro b
  induction b with
  | zero => intro a _ h; exact absurd h (Nat.not_lt_zero a)
  | succ n ih =>
    intro a hb h
    rcases Nat.lt_succ_iff_lt_or_eq.mp h with h' | h'
    · exact lt_trans (inv_succ_lt hM (by omega)) (ih a (by omega) h')
    · subst h'; exact inv_succ_lt hM (by omega)

/-- The value `sqrt_price_at_tick` returns on an in-range tick. -/
def encVal (t : Int) : Nat :=
  if t < 0 then dDiv one (sqrtPriceAtTickAbs t.natAbs) else sqrtPriceAtTickAbs t.natAbs

theorem sqrt_price_at_tick_eq {t : Int} (h1 : -631042 ≤ t) (h2 : t ≤ 931709) :
    sqrt_price_at_tick t = some (encVal t) := by
  simp only [sqrt_price_at_tick, encVal]
  rw [if_pos ⟨by simp only [MIN_TICK]; omega, by simp only [MAX_TICK]; omega⟩]

theorem encAbs_zero : sqrtPriceAtTickAbs 0 = one := by decide!

theorem dDiv_one_one : dDiv one one = one := by decide!

theorem enc_abs_min : dDiv one (sqrtPriceAtTickAbs 631042) = MIN_PRICE := by decide!

theorem enc_abs_max : sqrtPriceAtTickAbs 931709 = MAX_PRICE := by decide!

theorem one_le_encAbs (hM : Master) {a : Nat} (ha : a ≤ 1048575) :
    one ≤ sqrtPriceAtTickAbs a := by
  rcases Nat.eq_zero_or_pos a with h0 | hpos
  · subst h0
    have h := encAbs_zero
    omega
  · have h := sqrtAbs_mono hM a 0 ha hpos
    have h2 := encAbs_zero
    omega

theorem inv_lt_one (hM : Master) {a : Nat} (ha1 : 1 ≤ a) (ha : a ≤ 631042) :
    dDiv one (sqrtPriceAtTickAbs a) < one := by
  have h := invE_anti hM a 0 (by omega) ha1
  rw [encAbs_zero, dDiv_one_one] at h
  exact h

theorem encVal_strictMono (hM : Master) {t1 t2 : Int}
    (h1 : -631042 ≤ t1) (h2 : t2 ≤ 931709) (h : t1 < t2) :
    encVal t1 < encVal t2 := by
  simp only [encVal]
  rcases lt_or_le t1 0 with hn1 | hp1
  · rcases lt_or_le t2 0 with hn2 | hp2
    · rw [if_pos hn1, if_pos hn2]
      exact invE_anti hM t1.natAbs t2.natAbs (by omega) (by omega)
    · rw [if_pos hn1, if_neg (by omega)]
      have hlt : dDiv one (sqrtPriceAtTickAbs t1.natAbs) < one :=
        inv_lt_one hM (by omega) (by omega)
      have hge : one ≤ sqrtPriceAtTickAbs t2.natAbs := one_le_encAbs hM (by omega)
      omega
  · rw [if_neg (by omega), if_neg (by omega)]
    exact sqrtAbs_mono hM t2.natAbs t1.natAbs (by omega) (by omega)

theorem encVal_min_tick : encVal (-631042) = MIN_PRICE := by decide!

theorem encVal_max_tick : encVal 931709 = MAX_PRICE := by decide!

theorem encVal_ge_min (hM : Master) {t : Int} (h1 : -631042 ≤ t) (h2 : t ≤ 931709) :
    MIN_PRICE ≤ encVal t := by
  rcases eq_or_lt_of_le h1 with he | hlt
  · rw [← he, encVal_min_tick]
  · have h := encVal_strictMono hM (le_refl (-631042)) h2 hlt
    rw [encVal_min_tick] at h
    omega

theorem encVal_le_max (hM : Master) {t : Int} (h1 : -631042 ≤ t) (h2 : t ≤ 931709) :
    encVal t ≤ MAX_PRICE := by
  rcases eq_or_lt_of_le h2 with he | hlt
  · rw [he, encVal_max_tick]
  · have h := encVal_strictMono hM (by omega) (le_refl (931709 : Int)) hlt
    rw [encVal_max_tick] at h
    omega

theorem cand_sandwich_pos (hM : Master) {a : Nat} (ha : a ≤ 931709) :
    tickCandidate (sqrtPriceAtTickAbs a) = a ∨
      (1 ≤ a ∧ tickCandidate (sqrtPriceAtTickAbs a) = a - 1) := by
  have hub : tickCandidate (sqrtPriceAtTickAbs a) < a + 1 := by
    apply cand_lt (by norm_num; omega)
    exact enc_lt_thresh_succ hM (by omega)
  rcases Nat.eq_zero_or_pos a with h0 | hpos
  · subst h0; left; omega
  · have hlb : a - 1 ≤ tickCandidate (sqrtPriceAtTickAbs a) := by
      apply cand_ge (by norm_num; omega)
      have h := thresh_le_enc_succ hM (u := a - 1) (by omega)
      rwa [show a - 1 + 1 = a from by omega] at h
    omega

theorem cand_sandwich_neg (hM : Master) {a : Nat} (ha1 : 1 ≤ a) (ha : a ≤ 631042) :
    tickCandidate (dDiv one (dDiv one (sqrtPriceAtTickAbs a))) = a ∨
      tickCandidate (dDiv one (dDiv one (sqrtPriceAtTickAbs a))) = a - 1 := by
  have hub : tickCandidate (dDiv one (dDiv one (sqrtPriceAtTickAbs a))) < a + 1 := by
    apply cand_lt (by norm_num; omega)
    exact invinv_lt_thresh_succ hM (by omega)
  have hlb : a - 1 ≤ tickCandidate (dDiv one (dDiv one (sqrtPriceAtTickAbs a))) := by
    apply cand_ge (by norm_num; omega)
    have h := thresh_le_invinv_succ hM (u := a - 1) (by omega)
    rwa [show a - 1 + 1 = a from by omega] at h
  omega

theorem henc_neg (t : Int) (hneg : t < 0) :
    encVal t = dDiv one (sqrtPriceAtTickAbs t.natAbs) := by
  simp only [encVal]
  rw [if_pos hneg]

theorem henc_pos (t : Int) (hpos : 0 ≤ t) :
    encVal t = sqrtPriceAtTickAbs t.natAbs := by
  simp only [encVal]
  rw [if_neg (by omega)]

theorem enc_lt_one_int (hM : Master) (t : Int) (h1 : -631042 ≤ t) (hneg : t < 0) :
    ((encVal t : Nat) : Int) < ((one : Nat) : Int) := by
  rw [henc_neg t hneg]
  have h := inv_lt_one hM (a := t.natAbs) (by omega) (by omega)
  omega

theorem enc_ge_one_int (hM : Master) (t : Int) (h2 : t ≤ 931709) (hpos : 0 ≤ t) :
    ¬ ((encVal t : Nat) : Int) < ((one : Nat) : Int) := by
  rw [henc_pos t hpos]
  have h := one_le_encAbs hM (a := t.natAbs) (by omega)
  omega

theorem decodeQ_neg (hM : Master) (t : Int) (h1 : -631042 ≤ t) (hneg : t < 0) :
    decodeQ ((encVal t : Nat) : Int) =
      dDiv one (dDiv one (sqrtPriceAtTickAbs t.natAbs)) := by
  simp only [decodeQ]
  rw [if_pos (enc_lt_one_int hM t h1 hneg), Int.toNat_natCast, henc_neg t hneg]

theorem decodeQ_pos (hM : Master) (t : Int) (h2 : t ≤ 931709) (hpos : 0 ≤ t) :
    decodeQ ((encVal t : Nat) : Int) = sqrtPriceAtTickAbs t.natAbs := by
  simp only [decodeQ]
  rw [if_neg (enc_ge_one_int hM t h2 hpos), Int.toNat_natCast, henc_pos t hpos]

theorem decodeCand_neg (hM : Master) (t : Int) (h1 : -631042 ≤ t) (hneg : t < 0)
    (c : Nat)
    (hc : tickCandidate (dDiv one (dDiv one (sqrtPriceAtTickAbs t.natAbs))) = c) :
    decodeCand ((encVal t : Nat) : Int) = -((c : Nat) : Int) := by
  simp only [decodeCand]
  rw [if_pos (enc_lt_one_int hM t h1 hneg), decodeQ_neg hM t h1 hneg, hc]

theorem decodeCand_pos (hM : Master) (t : Int) (h2 : t ≤ 931709) (hpos : 0 ≤ t)
    (c : Nat) (hc : tickCandidate (sqrtPriceAtTickAbs t.natAbs) = c) :
    decodeCand ((encVal t : Nat) : Int) = ((c : Nat) : Int) := by
  simp only [decodeCand]
  rw [if_neg (enc_ge_one_int hM t h2 hpos), decodeQ_pos hM t h2 hpos, hc]

theorem rt_neg_exact (t : Int) (h1 : -631042 ≤ t) (h2 : t ≤ 931709) (hneg : t < 0)
    (hcand : decodeCand ((encVal t : Nat) : Int) = -((t.natAbs : Nat) : Int))
    (hminI : ((MIN_PRICE : Nat) : Int) ≤ ((encVal t : Nat) : Int))
    (hmaxI : ((encVal t : Nat) : Int) ≤ ((MAX_PRICE : Nat) : Int)) :
    tick_at_sqrt_price ((encVal t : Nat) : Int) = some t := by
  have ha1 : 1 ≤ t.natAbs := by omega
  have ha : t.natAbs ≤ 631042 := by omega
  have hEneg : encVal (-((t.natAbs : Nat) : Int)) =
      dDiv one (sqrtPriceAtTickAbs t.natAbs) := by
    simp only [encVal]
    rw [if_pos (by omega), Int.natAbs_neg, Int.natAbs_ofNat]
  delta tick_at_sqrt_price
  rw [if_pos ⟨hminI, hmaxI⟩, hcand]
  rw [sqrt_price_at_tick_eq (by omega) (by omega), hEneg, henc_neg t hneg]
  show some (if (((dDiv one (sqrtPriceAtTickAbs t.natAbs) : Nat) : Int) =
      ((dDiv one (sqrtPriceAtTickAbs t.natAbs) : Nat) : Int)) then -((t.natAbs : Nat) : Int)
    else if ((dDiv one (sqrtPriceAtTickAbs t.natAbs) : Nat) : Int) <
        ((dDiv one (sqrtPriceAtTickAbs t.natAbs) : Nat) : Int) then -((t.natAbs : Nat) : Int) - 1
    else -((t.natAbs : Nat) : Int) + 1) = some t
  rw [if_pos rfl, Option.some.injEq]
  omega

theorem rt_neg_correct (hM : Master) (t : Int) (h1 : -631042 ≤ t) (h2 : t ≤ 931709)
    (hneg : t < 0)
    (hcand : decodeCand ((encVal t : Nat) : Int) = -((t.natAbs - 1 : Nat) : Int))
    (hminI : ((MIN_PRICE : Nat) : Int) ≤ ((encVal t : Nat) : Int))
    (hmaxI : ((encVal t : Nat) : Int) ≤ ((MAX_PRICE : Nat) : Int)) :
    tick_at_sqrt_price ((encVal t : Nat) : Int) = some t := by
  have ha1 : 1 ≤ t.natAbs := by omega
  have ha : t.natAbs ≤ 631042 := by omega
  have hplt : dDiv one (sqrtPriceAtTickAbs t.natAbs) < one :=
    inv_lt_one hM ha1 ha
  have hpc_gt : dDiv one (sqrtPriceAtTickAbs t.natAbs) <
      encVal (-((t.natAbs - 1 : Nat) : Int)) := by
    rcases Nat.eq_zero_or_pos (t.natAbs - 1) with hz | hp1
    · rw [hz]
      have h0 : encVal (-((0 : Nat) : Int)) = one := by decide!
      rw [h0]
      exact hplt
    · have hE2 : encVal (-((t.natAbs - 1 : Nat) : Int)) =
          dDiv one (sqrtPriceAtTickAbs (t.natAbs - 1)) := by
        simp only [encVal]
        rw [if_pos (by omega), Int.natAbs_neg, Int.natAbs_ofNat]
      rw [hE2]
      have h := inv_succ_lt hM (u := t.natAbs - 1) (by omega)
      rwa [show t.natAbs - 1 + 1 = t.natAbs from by omega] at h
  delta tick_at_sqrt_price
  rw [if_pos ⟨hminI, hmaxI⟩, hcand]
  rw [sqrt_price_at_tick_eq (by omega) (by omega), henc_neg t hneg]
  show some (if ((encVal (-((t.natAbs - 1 : Nat) : Int)) : Int) =
      ((dDiv one (sqrtPriceAtTickAbs t.natAbs) : Nat) : Int)) then -((t.natAbs - 1 : Nat) : Int)
    else if ((dDiv one (sqrtPriceAtTickAbs t.natAbs) : Nat) : Int) <
        (encVal (-((t.natAbs - 1 : Nat) : Int)) : Int) then -((t.natAbs - 1 : Nat) : Int) - 1
    else -((t.natAbs - 1 : Nat) : Int) + 1) = some t
  rw [if_neg (by omega), if_pos (by omega), Option.some.injEq]
  omega

theorem rt_pos_exact (t : Int) (h1 : -631042 ≤ t) (h2 : t ≤ 931709) (hpos : 0 ≤ t)
    (hcand : decodeCand ((encVal t : Nat) : Int) = ((t.natAbs : Nat) : Int))
    (hminI : ((MIN_PRICE : Nat) : Int) ≤ ((encVal t : Nat) : Int))
    (hmaxI : ((encVal t : Nat) : Int) ≤ ((MAX_PRICE : Nat) : Int)) :
    tick_at_sqrt_price ((encVal t : Nat) : Int) = some t := by
  have hE : encVal ((t.natAbs : Nat) : Int) = sqrtPriceAtTickAbs t.natAbs := by
    simp only [encVal]
    rw [if_neg (by omega), Int.natAbs_ofNat]
  delta tick_at_sqrt_price
  rw [if_pos ⟨hminI, hmaxI⟩, hcand]
  rw [sqrt_price_at_tick_eq (by omega) (by omega), hE, henc_pos t hpos]
  show some (if (((sqrtPriceAtTickAbs t.natAbs : Nat) : Int) =
      ((sqrtPriceAtTickAbs t.natAbs : Nat) : Int)) then ((t.natAbs : Nat) : Int)
    else if ((sqrtPriceAtTickAbs t.natAbs : Nat) : Int) <
        ((sqrtPriceAtTickAbs t.natAbs : Nat) : Int) then ((t.natAbs : Nat) : Int) - 1
    else ((t.natAbs : Nat) : Int) + 1) = some t
  rw [if_pos rfl, Option.some.injEq]
  omega

theorem rt_pos_correct (hM : Master) (t : Int) (h1 : -631042 ≤ t) (h2 : t ≤ 931709)
    (hpos : 0 ≤ t) (ha1 : 1 ≤ t.natAbs)
    (hcand : decodeCand ((encVal t : Nat) : Int) = ((t.natAbs - 1 : Nat) : Int))
    (hminI : ((MIN_PRICE : Nat) : Int) ≤ ((encVal t : Nat) : Int))
    (hmaxI : ((encVal t : Nat) : Int) ≤ ((MAX_PRICE : Nat) : Int)) :
    tick_at_sqrt_price ((encVal t : Nat) : Int) = some t := by
  have hE : encVal ((t.natAbs - 1 : Nat) : Int) = sqrtPriceAtTickAbs (t.natAbs - 1) := by
    simp only [encVal]
    rw [if_neg (by omega), Int.natAbs_ofNat]
  have hlt1 : sqrtPriceAtTickAbs (t.natAbs - 1) < sqrtPriceAtTickAbs t.natAbs := by
    have h := enc_lt_succ hM (u := t.natAbs - 1) (by omega)
    rwa [show t.natAbs - 1 + 1 = t.natAbs from by omega] at h
  delta tick_at_sqrt_price
  rw [if_pos ⟨hminI, hmaxI⟩, hcand]
  rw [sqrt_price_at_tick_eq (by omega) (by omega), hE, henc_pos t hpos]
  show some (if (((sqrtPriceAtTickAbs (t.natAbs - 1) : Nat) : Int) =
      ((sqrtPriceAtTickAbs t.natAbs : Nat) : Int)) then ((t.natAbs - 1 : Nat) : Int)
    else if ((sqrtPriceAtTickAbs t.natAbs : Nat) : Int) <
        ((sqrtPriceAtTickAbs (t.natAbs - 1) : Nat) : Int) then ((t.natAbs - 1 : Nat) : Int) - 1
    else ((t.natAbs - 1 : Nat) : Int) + 1) = some t
  rw [if_neg (by omega), if_neg (by omega), Option.some.injEq]
  omega

/-- Full round-trip: decoding the encoded price of any in-range tick gives
back the tick. -/
theorem roundtrip (hM : Master) (t : Int) (h1 : -631042 ≤ t) (h2 : t ≤ 931709) :
    tick_at_sqrt_price ((encVal t : Nat) : Int) = some t := by
  have hminI : ((MIN_PRICE : Nat) : Int) ≤ ((encVal t : Nat) : Int) := by
    have h := encVal_ge_min hM h1 h2
    omega
  have hmaxI : ((encVal t : Nat) : Int) ≤ ((MAX_PRICE : Nat) : Int) := by
    have h := encVal_le_max hM h1 h2
    omega
  rcases lt_or_le t 0 with hneg | hpos
  · rcases cand_sandwich_neg hM (a := t.natAbs) (by omega) (by omega) with hc | hc
    · exact rt_neg_exact t h1 h2 hneg
        (decodeCand_neg hM t h1 hneg t.natAbs hc) hminI hmaxI
    · exact rt_neg_correct hM t h1 h2 hneg
        (decodeCand_neg hM t h1 hneg (t.natAbs - 1) hc) hminI hmaxI
  · rcases cand_sandwich_pos hM (a := t.natAbs) (by omega) with hc | ⟨ha1, hc⟩
    · exact rt_pos_exact t h1 h2 hpos
        (decodeCand_pos hM t h2 hpos t.natAbs hc) hminI hmaxI
    · exact rt_pos_correct hM t h1 h2 hpos ha1
        (decodeCand_pos hM t h2 hpos (t.natAbs - 1) hc) hminI hmaxI

theorem max_lt_thresh : MAX_PRICE < Thresh 931710 := by decide!

theorem invmin_lt_thresh : dDiv one MIN_PRICE < Thresh 631043 := by decide!

theorem encVal_min_tick_cast : encVal (-((631042 : Nat) : Int)) = MIN_PRICE := by decide!

theorem encVal_max_tick_cast : encVal ((931709 : Nat) : Int) = MAX_PRICE := by decide!

/-- Every in-range price decodes without aborting, to an in-range tick. -/
theorem decode_some (p : Int)
    (hmin : ((MIN_PRICE : Nat) : Int) ≤ p) (hmax : p ≤ ((MAX_PRICE : Nat) : Int)) :
    ∃ c : Int, tick_at_sqrt_price p = some c ∧ -631042 ≤ c ∧ c ≤ 931709 := by
  have hminlit : (19850 : Nat) = MIN_PRICE := rfl
  have hp0 : (0 : Int) ≤ p := by
    have h : (0 : Nat) < MIN_PRICE := by rw [← hminlit]; omega
    omega
  rcases lt_or_le p ((one : Nat) : Int) with hplt | hpge
  · -- inverted side
    have hq1 : MIN_PRICE ≤ p.toNat := by omega
    have hmono : dDiv one p.toNat ≤ dDiv one MIN_PRICE := by
      simp only [dDiv]
      exact Nat.div_le_div_left hq1 (by rw [← hminlit]; omega)
    have hqlt : dDiv one p.toNat < Thresh 631043 := by
      have h := invmin_lt_thresh
      omega
    have hclt : tickCandidate (dDiv one p.toNat) < 631043 :=
      cand_lt (by norm_num) hqlt
    have hqd : decodeQ p = dDiv one p.toNat := by
      simp only [decodeQ]
      rw [if_pos hplt]
    set c := tickCandidate (dDiv one p.toNat) with hcdef
    have hcand : decodeCand p = -((c : Nat) : Int) := by
      simp only [decodeCand]
      rw [if_pos hplt, hqd]
    set pc := encVal (-((c : Nat) : Int)) with hpcdef
    have heq : tick_at_sqrt_price p =
        some (if ((pc : Nat) : Int) = p then -((c : Nat) : Int)
          else if p < ((pc : Nat) : Int) then -((c : Nat) : Int) - 1
          else -((c : Nat) : Int) + 1) := by
      delta tick_at_sqrt_price
      rw [if_pos ⟨hmin, hmax⟩, hcand, sqrt_price_at_tick_eq (by omega) (by omega)]
    refine ⟨_, heq, ?_, ?_⟩
    · split_ifs with hA hB
      · omega
      · rcases Nat.lt_or_ge c 631042 with hlt2 | hge2
        · omega
        · exfalso
          have hc62 : c = 631042 := by omega
          have hpcv : pc = MIN_PRICE := by
            rw [hpcdef, hc62]
            exact encVal_min_tick_cast
          omega
      · omega
    · split_ifs with hA hB
      · omega
      · omega
      · omega
  · -- direct side
    have hqle : p.toNat ≤ MAX_PRICE := by omega
    have hqlt : p.toNat < Thresh 931710 := by
      have h := max_lt_thresh
      omega
    have hclt : tickCandidate p.toNat < 931710 :=
      cand_lt (by norm_num) hqlt
    have hqd : decodeQ p = p.toNat := by
      simp only [decodeQ]
      rw [if_neg (by omega)]
    set c := tickCandidate p.toNat with hcdef
    have hcand : decodeCand p = ((c : Nat) : Int) := by
      simp only [decodeCand]
      rw [if_neg (by omega), hqd]
    set pc := encVal ((c : Nat) : Int) with hpcdef
    have heq : tick_at_sqrt_price p =
        some (if ((pc : Nat) : Int) = p then ((c : Nat) : Int)
          else if p < ((pc : Nat) : Int) then ((c : Nat) : Int) - 1
          else ((c : Nat) : Int) + 1) := by
      delta tick_at_sqrt_price
      rw [if_pos ⟨hmin, hmax⟩, hcand, sqrt_price_at_tick_eq (by omega) (by omega)]
    refine ⟨_, heq, ?_, ?_⟩
    · split_ifs with hA hB
      · omega
      · omega
      · omega
    · split_ifs with hA hB
      · omega
      · omega
      · rcases Nat.lt_or_ge c 931709 with hlt2 | hge2
        · omega
        · exfalso
          have hc97 : c = 931709 := by omega
          have hpcv : pc = MAX_PRICE := by
            rw [hpcdef, hc97]
            exact encVal_max_tick_cast
          omega

/-- The number of constant multiplications `sqrt_price_at_tick` performs on
a tick of magnitude `absTick`: one per set bit among the 20 mask tests of
tick_math.rs lines 68-127. -/
def mulCount (absTick : Nat) : Nat :=
  (if absTick &&& 1 ≠ 0 then 1 else 0) +
  (if absTick &&& 2 ≠ 0 then 1 else 0) +
  (if absTick &&& 4 ≠ 0 then 1 else 0) +
  (if absTick &&& 8 ≠ 0 then 1 else 0) +
  (if absTick &&& 16 ≠ 0 then 1 else 0) +
  (if absTick &&& 32 ≠ 0 then 1 else 0) +
  (if absTick &&& 64 ≠ 0 then 1 else 0) +
  (if absTick &&& 128 ≠ 0 then 1 else 0) +
  (if absTick &&& 256 ≠ 0 then 1 else 0) +
  (if absTick &&& 512 ≠ 0 then 1 else 0) +
  (if absTick &&& 1024 ≠ 0 then 1 else 0) +
  (if absTick &&& 2048 ≠ 0 then 1 else 0) +
  (if absTick &&& 4096 ≠ 0 then 1 else 0) +
  (if absTick &&& 8192 ≠ 0 then 1 else 0) +
  (if absTick &&& 16384 ≠ 0 then 1 else 0) +
  (if absTick &&& 32768 ≠ 0 then 1 else 0) +
  (if absTick &&& 65536 ≠ 0 then 1 else 0) +
  (if absTick &&& 131072 ≠ 0 then 1 else 0) +
  (if absTick &&& 262144 ≠ 0 then 1 else 0) +
  (if absTick &&& 524288 ≠ 0 then 1 else 0)

/-- At most 19 of the 20 mask tests can fire on an in-range tick magnitude. -/
theorem mulCount_le (n : Nat) (hn : n ≤ 931709) : mulCount n ≤ 19 := by
  simp only [mulCount]
  by_contra hgt
  push_neg at hgt
  have hb0 : (if n &&& 1 ≠ 0 then 1 else 0) ≤ 1 := by split <;> omega
  have hb1 : (if n &&& 2 ≠ 0 then 1 else 0) ≤ 1 := by split <;> omega
  have hb2 : (if n &&& 4 ≠ 0 then 1 else 0) ≤ 1 := by split <;> omega
  have hb3 : (if n &&& 8 ≠ 0 then 1 else 0) ≤ 1 := by split <;> omega
  have hb4 : (if n &&& 16 ≠ 0 then 1 else 0) ≤ 1 := by split <;> omega
  have hb5 : (if n &&& 32 ≠ 0 then 1 else 0) ≤ 1 := by split <;> omega
  have hb6 : (if n &&& 64 ≠ 0 then 1 else 0) ≤ 1 := by split <;> omega
  have hb7 : (if n &&& 128 ≠ 0 then 1 else 0) ≤ 1 := by split <;> omega
  have hb8 : (if n &&& 256 ≠ 0 then 1 else 0) ≤ 1 := by split <;> omega
  have hb9 : (if n &&& 512 ≠ 0 then 1 else 0) ≤ 1 := by split <;> omega
  have hb10 : (if n &&& 1024 ≠ 0 then 1 else 0) ≤ 1 := by split <;> omega
  have hb11 : (if n &&& 2048 ≠ 0 then 1 else 0) ≤ 1 := by split <;> omega
  have hb12 : (if n &&& 4096 ≠ 0 then 1 else 0) ≤ 1 := by split <;> omega
  have hb13 : (if n &&& 8192 ≠ 0 then 1 else 0) ≤ 1 := by split <;> omega
  have hb14 : (if n &&& 16384 ≠ 0 then 1 else 0) ≤ 1 := by split <;> omega
  have hb15 : (if n &&& 32768 ≠ 0 then 1 else 0) ≤ 1 := by split <;> omega
  have hb16 : (if n &&& 65536 ≠ 0 then 1 else 0) ≤ 1 := by split <;> omega
  have hb17 : (if n &&& 131072 ≠ 0 then 1 else 0) ≤ 1 := by split <;> omega
  have hb18 : (if n &&& 262144 ≠ 0 then 1 else 0) ≤ 1 := by split <;> omega
  have hb19 : (if n &&& 524288 ≠ 0 then 1 else 0) ≤ 1 := by split <;> omega
  have he0 : (if n &&& 1 ≠ 0 then 1 else 0) = 1 := by omega
  have hc0 : n &&& 1 ≠ 0 := by
    by_contra hbad
    rw [if_neg (fun hk => hk hbad)] at he0
    omega
  have he1 : (if n &&& 2 ≠ 0 then 1 else 0) = 1 := by omega
  have hc1 : n &&& 2 ≠ 0 := by
    by_contra hbad
    rw [if_neg (fun hk => hk hbad)] at he1
    omega
  have he2 : (if n &&& 4 ≠ 0 then 1 else 0) = 1 := by omega
  have hc2 : n &&& 4 ≠ 0 := by
    by_contra hbad
    rw [if_neg (fun hk => hk hbad)] at he2
    omega
  have he3 : (if n &&& 8 ≠ 0 then 1 else 0) = 1 := by omega
  have hc3 : n &&& 8 ≠ 0 := by
    by_contra hbad
    rw [if_neg (fun hk => hk hbad)] at he3
    omega
  have he4 : (if n &&& 16 ≠ 0 then 1 else 0) = 1 := by omega
  have hc4 : n &&& 16 ≠ 0 := by
    by_contra hbad
    rw [if_neg (fun hk => hk hbad)] at he4
    omega
  have he5 : (if n &&& 32 ≠ 0 then 1 else 0) = 1 := by omega
  have hc5 : n &&& 32 ≠ 0 := by
    by_contra hbad
    rw [if_neg (fun hk => hk hbad)] at he5
    omega
  have he6 : (if n &&& 64 ≠ 0 then 1 else 0) = 1 := by omega
  have hc6 : n &&& 64 ≠ 0 := by
    by_contra hbad
    rw [if_neg (fun hk => hk hbad)] at he6
    omega
  have he7 : (if n &&& 128 ≠ 0 then 1 else 0) = 1 := by omega
  have hc7 : n &&& 128 ≠ 0 := by
    by_contra hbad
    rw [if_neg (fun hk => hk hbad)] at he7
    omega
  have he8 : (if n &&& 256 ≠ 0 then 1 else 0) = 1 := by omega
  have hc8 : n &&& 256 ≠ 0 := by
    by_contra hbad
    rw [if_neg (fun hk => hk hbad)] at he8
    omega
  have he9 : (if n &&& 512 ≠ 0 then 1 else 0) = 1 := by omega
  have hc9 : n &&& 512 ≠ 0 := by
    by_contra hbad
    rw [if_neg (fun hk => hk hbad)] at he9
    omega
  have he10 : (if n &&& 1024 ≠ 0 then 1 else 0) = 1 := by omega
  have hc10 : n &&& 1024 ≠ 0 := by
    by_contra hbad
    rw [if_neg (fun hk => hk hbad)] at he10
    omega
  have he11 : (if n &&& 2048 ≠ 0 then 1 else 0) = 1 := by omega
  have hc11 : n &&& 2048 ≠ 0 := by
    by_contra hbad
    rw [if_neg (fun hk => hk hbad)] at he11
    omega
  have he12 : (if n &&& 4096 ≠ 0 then 1 else 0) = 1 := by omega
  have hc12 : n &&& 4096 ≠ 0 := by
    by_contra hbad
    rw [if_neg (fun hk => hk hbad)] at he12
    omega
  have he13 : (if n &&& 8192 ≠ 0 then 1 else 0) = 1 := by omega
  have hc13 : n &&& 8192 ≠ 0 := by
    by_contra hbad
    rw [if_neg (fun hk => hk hbad)] at he13
    omega
  have he14 : (if n &&& 16384 ≠ 0 then 1 else 0) = 1 := by omega
  have hc14 : n &&& 16384 ≠ 0 := by
    by_contra hbad
    rw [if_neg (fun hk => hk hbad)] at he14
    omega
  have he15 : (if n &&& 32768 ≠ 0 then 1 else 0) = 1 := by omega
  have hc15 : n &&& 32768 ≠ 0 := by
    by_contra hbad
    rw [if_neg (fun hk => hk hbad)] at he15
    omega
  have he16 : (if n &&& 65536 ≠ 0 then 1 else 0) = 1 := by omega
  have hc16 : n &&& 65536 ≠ 0 := by
    by_contra hbad
    rw [if_neg (fun hk => hk hbad)] at he16
    omega
  have he17 : (if n &&& 131072 ≠ 0 then 1 else 0) = 1 := by omega
  have hc17 : n &&& 131072 ≠ 0 := by
    by_contra hbad
    rw [if_neg (fun hk => hk hbad)] at he17
    omega
  have he18 : (if n &&& 262144 ≠ 0 then 1 else 0) = 1 := by omega
  have hc18 : n &&& 262144 ≠ 0 := by
    by_contra hbad
    rw [if_neg (fun hk => hk hbad)] at he18
    omega
  have he19 : (if n &&& 524288 ≠ 0 then 1 else 0) = 1 := by omega
  have hc19 : n &&& 524288 ≠ 0 := by
    by_contra hbad
    rw [if_neg (fun hk => hk hbad)] at he19
    omega
  rw [and_one_cond] at hc0
  rw [and_cond_1] at hc1
  rw [and_cond_2] at hc2
  rw [and_cond_3] at hc3
  rw [and_cond_4] at hc4
  rw [and_cond_5] at hc5
  rw [and_cond_6] at hc6
  rw [and_cond_7] at hc7
  rw [and_cond_8] at hc8
  rw [and_cond_9] at hc9
  rw [and_cond_10] at hc10
  rw [and_cond_11] at hc11
  rw [and_cond_12] at hc12
  rw [and_cond_13] at hc13
  rw [and_cond_14] at hc14
  rw [and_cond_15] at hc15
  rw [and_cond_16] at hc16
  rw [and_cond_17] at hc17
  rw [and_cond_18] at hc18
  rw [and_cond_19] at hc19
  omega

/-- Modelled from the spec: a liquidity position's fee-accounting state
(spec sections 2 and 4.3): its liquidity, the inside-fee-growth snapshots
taken at the last accrual, and the accrued but uncollected fees. -/
structure SpecPosition where
  liquidity : Nat
  fee_growth_inside_a_last : Nat
  fee_growth_inside_b_last : Nat
  owed_fee_a : Nat
  owed_fee_b : Nat

/-- Modelled from the spec: `accrue(position)` of section 4.3:
`owed += liquidity * (fee_growth_inside_now - fee_growth_inside_last)`, then
the snapshots are reset to the current inside growth. -/
def accrue (growth_a growth_b : Nat) (p : SpecPosition) : SpecPosition where
  liquidity := p.liquidity
  fee_growth_inside_a_last := growth_a
  fee_growth_inside_b_last := growth_b
  owed_fee_a := p.owed_fee_a + p.liquidity * (growth_a - p.fee_growth_inside_a_last)
  owed_fee_b := p.owed_fee_b + p.liquidity * (growth_b - p.fee_growth_inside_b_last)

/-- Modelled from the spec: `collect(position)` of section 4.3: fees are
accrued first (as required before any collection), then the owed amounts are
returned and zeroed on the position. -/
def collect (growth_a growth_b : Nat) (p : SpecPosition) :
    (Nat × Nat) × SpecPosition :=
  let q := accrue growth_a growth_b p
  ((q.owed_fee_a, q.owed_fee_b), { q with owed_fee_a := 0, owed_fee_b := 0 })

/-- Modelled from the spec: one constant-liquidity swap step of the
SwapEngine (section 4.4), selling asset `b` into the range so the price
moves up from `sqrt_price` toward the target `sqrt_target`: the step absorbs
at most `liquidity * (sqrt_target - sqrt_price)` input
(`Δinput = liquidity × Δsqrt_price`), produces output
`liquidity × Δ(1/sqrt_price)`, and never aborts: input beyond the absorbable
capacity is returned unconsumed (section 4.4 and the liquidity-exhaustion
property of section 8).  Returns `(consumed, output, remainder)`. -/
def swapStep (liquidity sqrt_price sqrt_target input : Nat) : Nat × Nat × Nat :=
  let capacity := dMul liquidity (sqrt_target - sqrt_price)
  if input < capacity then
    (input,
     dMul liquidity
       (dDiv one sqrt_price - dDiv one (sqrt_price + dDiv input liquidity)), 0)
  else
    (capacity,
     dMul liquidity (dDiv one sqrt_price - dDiv one sqrt_target),
     input - capacity)

/-- Claim C1: for every tick in [MIN_TICK, MAX_TICK], encoding it to a sqrt
price and decoding that price returns exactly the original tick. -/
theorem claim_C1 (t : Int) (h1 : MIN_TICK ≤ t) (h2 : t ≤ MAX_TICK) :
    ∃ p : Nat, sqrt_price_at_tick t = some p ∧
      tick_at_sqrt_price ((p : Nat) : Int) = some t := by
  have h1' : -631042 ≤ t := by simp only [MIN_TICK] at h1; omega
  have h2' : t ≤ 931709 := by simp only [MAX_TICK] at h2; omega
  exact ⟨encVal t, sqrt_price_at_tick_eq h1' h2', roundtrip master_holds t h1' h2'⟩

theorem claim_C1_witness :
    (MIN_TICK ≤ (5 : Int) ∧ (5 : Int) ≤ MAX_TICK) ∧
    ∃ p : Nat, sqrt_price_at_tick 5 = some p ∧
      tick_at_sqrt_price ((p : Nat) : Int) = some 5 :=
  ⟨⟨by decide!, by decide!⟩, claim_C1 5 (by decide!) (by decide!)⟩

/-- Claim C2 (counterexample to the original statement): the in-range sqrt
price `one + 1` decodes to tick 1, but the encoded price of tick 1 is above
the input, so the returned tick is not a tick whose encoded price is at most
the input. -/
theorem claim_C2_cex :
    ((MIN_PRICE : Nat) : Int) ≤ 1000000000000000001 ∧
    (1000000000000000001 : Int) ≤ ((MAX_PRICE : Nat) : Int) ∧
    tick_at_sqrt_price 1000000000000000001 = some 1 ∧
    sqrt_price_at_tick 1 = some 1000049998750062496 ∧
    ¬ ((1000049998750062496 : Int) ≤ (1000000000000000001 : Int)) := by
  decide!

/-- Claim C2 (amended): for every price that is exactly the encoding of an
in-range tick, the decoder returns that tick, and it is the greatest tick
whose encoded price is at most the input: every strictly larger in-range
tick encodes strictly above it. -/
theorem claim_C2_amended (t : Int) (h1 : MIN_TICK ≤ t) (h2 : t ≤ MAX_TICK) :
    ∃ p : Nat, sqrt_price_at_tick t = some p ∧
      tick_at_sqrt_price ((p : Nat) : Int) = some t ∧
      ∀ t' : Int, MIN_TICK ≤ t' → t' ≤ MAX_TICK → t < t' →
        ∀ p' : Nat, sqrt_price_at_tick t' = some p' → p < p' := by
  have h1' : -631042 ≤ t := by simp only [MIN_TICK] at h1; omega
  have h2' : t ≤ 931709 := by simp only [MAX_TICK] at h2; omega
  refine ⟨encVal t, sqrt_price_at_tick_eq h1' h2', roundtrip master_holds t h1' h2', ?_⟩
  intro t' ha1 ha2 hlt p' he
  have ha1' : -631042 ≤ t' := by simp only [MIN_TICK] at ha1; omega
  have ha2' : t' ≤ 931709 := by simp only [MAX_TICK] at ha2; omega
  rw [sqrt_price_at_tick_eq ha1' ha2', Option.some.injEq] at he
  subst he
  exact encVal_strictMono master_holds h1' ha2' hlt

theorem claim_C2_amended_witness :
    (MIN_TICK ≤ (-3 : Int) ∧ (-3 : Int) ≤ MAX_TICK) ∧
    ∃ p : Nat, sqrt_price_at_tick (-3) = some p ∧
      tick_at_sqrt_price ((p : Nat) : Int) = some (-3) ∧
      ∀ t' : Int, MIN_TICK ≤ t' → t' ≤ MAX_TICK → (-3 : Int) < t' →
        ∀ p' : Nat, sqrt_price_at_tick t' = some p' → p < p' :=
  ⟨⟨by decide!, by decide!⟩, claim_C2_amended (-3) (by decide!) (by decide!)⟩

/-- Claim C3: `sqrt_price_at_tick` is strictly monotonic on the valid tick
range. -/
theorem claim_C3 (t1 t2 : Int) (h1 : MIN_TICK ≤ t1) (h2 : t2 ≤ MAX_TICK)
    (hlt : t1 < t2) (p1 p2 : Nat)
    (e1 : sqrt_price_at_tick t1 = some p1) (e2 : sqrt_price_at_tick t2 = some p2) :
    p1 < p2 := by
  have h1' : -631042 ≤ t1 := by simp only [MIN_TICK] at h1; omega
  have h2' : t2 ≤ 931709 := by simp only [MAX_TICK] at h2; omega
  rw [sqrt_price_at_tick_eq h1' (by omega), Option.some.injEq] at e1
  rw [sqrt_price_at_tick_eq (by omega) h2', Option.some.injEq] at e2
  subst e1
  subst e2
  exact encVal_strictMono master_holds h1' h2' hlt

theorem claim_C3_witness :
    (MIN_TICK ≤ (0 : Int) ∧ (1 : Int) ≤ MAX_TICK ∧ (0 : Int) < 1 ∧
      sqrt_price_at_tick 0 = some 1000000000000000000 ∧
      sqrt_price_at_tick 1 = some 1000049998750062496) ∧
    (1000000000000000000 : Nat) < 1000049998750062496 :=
  ⟨⟨by decide!, by decide!, by decide!, by decide!, by decide!⟩,
    claim_C3 0 1 (by decide!) (by decide!) (by decide!)
      1000000000000000000 1000049998750062496 (by decide!) (by decide!)⟩

/-- Claim C4: the boundary ticks encode exactly to the boundary prices, and
tick zero encodes exactly to one. -/
theorem claim_C4 :
    sqrt_price_at_tick 0 = some one ∧
    sqrt_price_at_tick MIN_TICK = some MIN_PRICE ∧
    sqrt_price_at_tick MAX_TICK = some MAX_PRICE := by
  decide!

/-- Claim C5: `sqrt_price_at_tick` aborts exactly on the ticks outside
[MIN_TICK, MAX_TICK]. -/
theorem claim_C5 (t : Int) :
    sqrt_price_at_tick t = none ↔ (t < MIN_TICK ∨ MAX_TICK < t) := by
  simp only [sqrt_price_at_tick, MIN_TICK, MAX_TICK]
  split
  · rename_i h
    constructor
    · intro hx
      exact absurd hx (by simp)
    · intro hx
      exact absurd hx (by omega)
  · rename_i h
    constructor
    · intro _
      omega
    · intro _
      rfl

/-- Claim C6: `tick_at_sqrt_price` aborts exactly on the prices outside
[MIN_PRICE, MAX_PRICE]; on every in-range price it returns a tick. -/
theorem claim_C6 (p : Int) :
    tick_at_sqrt_price p = none ↔
      (p < ((MIN_PRICE : Nat) : Int) ∨ ((MAX_PRICE : Nat) : Int) < p) := by
  constructor
  · intro hnone
    by_contra hout
    push_neg at hout
    obtain ⟨hm1, hm2⟩ := hout
    obtain ⟨c, heq, _, _⟩ := decode_some p hm1 hm2
    rw [heq] at hnone
    exact absurd hnone (by simp)
  · intro hx
    delta tick_at_sqrt_price
    rw [if_neg (by omega)]

/-- Claim C7: a swap step never fails for lack of liquidity: when the
requested input is at least what the price move to the target can absorb,
exactly the absorbable amount is consumed, the corresponding output is
produced, and the remainder of the input is returned unconsumed. -/
theorem claim_C7 (liquidity sqrt_price sqrt_target input : Nat)
    (h : dMul liquidity (sqrt_target - sqrt_price) ≤ input) :
    (swapStep liquidity sqrt_price sqrt_target input).1 =
        dMul liquidity (sqrt_target - sqrt_price) ∧
    (swapStep liquidity sqrt_price sqrt_target input).2.1 =
        dMul liquidity (dDiv one sqrt_price - dDiv one sqrt_target) ∧
    (swapStep liquidity sqrt_price sqrt_target input).2.2 =
        input - dMul liquidity (sqrt_target - sqrt_price) ∧
    (swapStep liquidity sqrt_price sqrt_target input).1 +
        (swapStep liquidity sqrt_price sqrt_target input).2.2 = input := by
  simp only [swapStep]
  rw [if_neg (by omega)]
  refine ⟨rfl, rfl, rfl, ?_⟩
  show dMul liquidity (sqrt_target - sqrt_price) +
      (input - dMul liquidity (sqrt_target - sqrt_price)) = input
  omega

theorem claim_C7_witness :
    dMul 2000000000000000000 (3000000000000000000 - 2000000000000000000) ≤
      5000000000000000000 ∧
    ((swapStep 2000000000000000000 2000000000000000000 3000000000000000000
        5000000000000000000).1 =
      dMul 2000000000000000000 (3000000000000000000 - 2000000000000000000) ∧
    (swapStep 2000000000000000000 2000000000000000000 3000000000000000000
        5000000000000000000).2.1 =
      dMul 2000000000000000000
        (dDiv one 2000000000000000000 - dDiv one 3000000000000000000) ∧
    (swapStep 2000000000000000000 2000000000000000000 3000000000000000000
        5000000000000000000).2.2 =
      5000000000000000000 -
        dMul 2000000000000000000 (3000000000000000000 - 2000000000000000000) ∧
    (swapStep 2000000000000000000 2000000000000000000 3000000000000000000
        5000000000000000000).1 +
      (swapStep 2000000000000000000 2000000000000000000 3000000000000000000
        5000000000000000000).2.2 = 5000000000000000000) :=
  ⟨by decide!,
    claim_C7 2000000000000000000 2000000000000000000 3000000000000000000
      5000000000000000000 (by decide!)⟩

/-- Claim C8: fee collection is idempotent: the first collect returns the
accrued owed fees and zeroes them on the position, and a second collect with
no intervening swap (the same inside fee growth) returns zero for both
assets. -/
theorem claim_C8 (growth_a growth_b : Nat) (p : SpecPosition) :
    (collect growth_a growth_b p).1 =
      (p.owed_fee_a + p.liquidity * (growth_a - p.fee_growth_inside_a_last),
       p.owed_fee_b + p.liquidity * (growth_b - p.fee_growth_inside_b_last)) ∧
    ((collect growth_a growth_b p).2).owed_fee_a = 0 ∧
    ((collect growth_a growth_b p).2).owed_fee_b = 0 ∧
    (collect growth_a growth_b ((collect growth_a growth_b p).2)).1 = (0, 0) := by
  refine ⟨rfl, rfl, rfl, ?_⟩
  simp [collect, accrue]

/-- Claim C9: every in-range tick magnitude has at most 19 set bits among
the 20 tested masks, so at most 19 constant multiplications are performed. -/
theorem claim_C9 (tick : Int) (h1 : MIN_TICK ≤ tick) (h2 : tick ≤ MAX_TICK) :
    mulCount tick.natAbs ≤ 19 := by
  apply mulCount_le
  simp only [MIN_TICK] at h1
  simp only [MAX_TICK] at h2
  omega

theorem claim_C9_witness :
    (MIN_TICK ≤ (524287 : Int) ∧ (524287 : Int) ≤ MAX_TICK) ∧
    mulCount (524287 : Int).natAbs ≤ 19 :=
  ⟨⟨by decide!, by decide!⟩, claim_C9 524287 (by decide!) (by decide!)⟩

/-- Claim C10: on every in-range price, `tick_at_sqrt_price` completes
without tripping any assertion (in particular the re-encoding of the
candidate tick succeeds) and the corrected tick it returns lies within
[MIN_TICK, MAX_TICK]. -/
theorem claim_C10 (p : Int)
    (h1 : ((MIN_PRICE : Nat) : Int) ≤ p) (h2 : p ≤ ((MAX_PRICE : Nat) : Int)) :
    ∃ t : Int, tick_at_sqrt_price p = some t ∧ MIN_TICK ≤ t ∧ t ≤ MAX_TICK := by
  obtain ⟨c, heq, hb1, hb2⟩ := decode_some p h1 h2
  exact ⟨c, heq, by simp only [MIN_TICK]; omega, by simp only [MAX_TICK]; omega⟩

theorem claim_C10_witness :
    (((MIN_PRICE : Nat) : Int) ≤ (276890319 : Int) ∧
      (276890319 : Int) ≤ ((MAX_PRICE : Nat) : Int)) ∧
    ∃ t : Int, tick_at_sqrt_price 276890319 = some t ∧
      MIN_TICK ≤ t ∧ t ≤ MAX_TICK :=
  ⟨⟨by decide!, by decide!⟩, claim_C10 276890319 (by decide!) (by decide!)⟩



end MojitoSwap
